import Mathlib

/-!
# Auth / user-management service: credential and session lifecycle

A shallow embedding of the Go sources

* `internal/utils/validator.go` (password policy, e-mail sanitising),
* `internal/middleware/auth.go` (role gate),
* `internal/models/models.go`, `internal/config/config.go`,
* `internal/repository/*.go` (the SQL statements, read as operations on tables),
* `internal/services/auth_service.go` (Register, VerifyEmail, Login, RefreshToken,
  Logout, ForgotPassword, ResetPassword),
* `internal/services/user_service.go` (ChangePassword),

followed by the properties established about them.

Conventions.  A Go `string` that reached the service through JSON decoding is
valid UTF-8, so it is a Lean `String`; Go's `len` is the UTF-8 byte length
(`String.utf8ByteSize`), not the number of characters (`String.length`).
Instants are integers (nanoseconds), `time.Duration` likewise.  UUIDs are
natural numbers.  A database table is the list of its rows; `UPDATE` rewrites
rows in place, `INSERT` appends, and `QueryRow` yields the first matching row.
-/

namespace AuthBackend

/-! ## internal/utils/validator.go -/

/-- The Go call `regexp.MustCompile("[lo-hi]").MatchString(s)` for a one-range
character class: some character of `s` lies in the range. -/
def matchesClass (lo hi : Char) (s : String) : Bool :=
  s.data.any fun c => decide (lo ≤ c) && decide (c ≤ hi)

/-- Password policy of `ValidatePassword`: the verdict and the violation message. -/
def ValidatePassword (password : String) : Bool × String :=
  if password.utf8ByteSize < 8 then
    (false, "Password must be at least 8 characters")
  else
    let hasUpper := matchesClass 'A' 'Z' password
    let hasLower := matchesClass 'a' 'z' password
    let hasNumber := matchesClass '0' '9' password
    if !hasUpper || !hasLower || !hasNumber then
      (false, "Password must contain uppercase, lowercase, and number")
    else
      (true, "")

/-- Class `[a-zA-Z0-9._%+-]` of the local part in `emailRegex`. -/
def isLocalChar (c : Char) : Bool :=
  c.isAlphanum || c == '.' || c == '_' || c == '%' || c == '+' || c == '-'

/-- Class `[a-zA-Z0-9.-]` of the domain in `emailRegex`. -/
def isDomainChar (c : Char) : Bool :=
  c.isAlphanum || c == '.' || c == '-'

/-- The function `ValidateEmail`: does the whole string match
`^[a-zA-Z0-9._%+-]+@[a-zA-Z0-9.-]+\.[a-zA-Z]{2,}$`?  No class of the pattern
contains `@`, so the local part is what precedes the first `@`; the last class
has no dot, so the top-level name is what follows the last dot.  The string
matches exactly when the local part is non-empty and in its class, what lies
between the `@` and the last dot is non-empty and in the domain class, and the
top-level name has at least two characters, all letters. -/
def ValidateEmail (email : String) : Bool :=
  let localPart := email.data.takeWhile fun c => c != '@'
  match email.data.dropWhile fun c => c != '@' with
  | [] => false
  | _ :: afterAt =>
    let topLevelRev := afterAt.reverse.takeWhile fun c => c != '.'
    match afterAt.reverse.dropWhile fun c => c != '.' with
    | [] => false
    | _ :: domainRev =>
      !localPart.isEmpty && localPart.all isLocalChar &&
        !domainRev.isEmpty && domainRev.all isDomainChar &&
        decide (2 ≤ topLevelRev.length) && topLevelRev.all Char.isAlpha

/-! ## internal/middleware/auth.go -/

/-- What a middleware does with a request: hand it to the next handler, or
answer itself with a JSON error body (`status`, error `code`, error `message`). -/
inductive Response where
  | next
  | json (status : Nat) (code : String) (message : String)
  deriving DecidableEq, Repr

/-- Status code `http.StatusForbidden`. -/
def StatusForbidden : Nat := 403

/-- Inner loop of `RequireRoles`: `for _, userRole := range userRoles`, leaving
with `true` at the first `userRole == requiredRole`. -/
def userRolesLoop (requiredRole : String) : List String → Bool
  | [] => false
  | userRole :: rest =>
    if userRole = requiredRole then true else userRolesLoop requiredRole rest

/-- Outer loop of `RequireRoles`: `for _, requiredRole := range roles`. -/
def requiredRolesLoop (userRoles : List String) : List String → Bool
  | [] => false
  | requiredRole :: rest =>
    if userRolesLoop requiredRole userRoles then true
    else requiredRolesLoop userRoles rest

/-- The handler built by `RequireRoles(roles...)`.  `ctxRoles` is the result of
the type assertion `c.Get("roles").([]string)`: `none` when it fails, otherwise
the role list that `Authenticate` stored in the context. -/
def RequireRoles (roles : List String) (ctxRoles : Option (List String)) : Response :=
  match ctxRoles with
  | none => .json StatusForbidden "FORBIDDEN" "Access denied"
  | some userRoles =>
    if requiredRolesLoop userRoles roles then .next
    else .json StatusForbidden "FORBIDDEN" "Insufficient permissions"

/-- The function `SanitizeEmail`: `strings.ToLower(strings.TrimSpace(email))`.
The two Go library functions are passed in. -/
def SanitizeEmail (ToLower TrimSpace : String → String) (email : String) : String :=
  ToLower (TrimSpace email)

/-! ## internal/models/models.go -/

abbrev UUID := Nat
abbrev Time := Int
abbrev Duration := Int

/-- Go's `time.Second`, in nanoseconds. -/
def Second : Duration := 1000000000
/-- Go's `time.Minute`. -/
def Minute : Duration := 60 * Second
/-- Go's `time.Hour`. -/
def Hour : Duration := 60 * Minute

structure User where
  ID : UUID
  Email : String
  PasswordHash : String
  DisplayName : String
  IsActive : Bool
  IsVerified : Bool
  CreatedAt : Time
  UpdatedAt : Time
  LastLoginAt : Option Time
  FailedLoginCount : Int
  LockedUntil : Option Time
  deriving DecidableEq, Repr

structure Role where
  ID : Int
  Name : String
  Description : String
  deriving DecidableEq, Repr

structure UserRole where
  UserID : UUID
  RoleID : Int
  AssignedBy : UUID
  AssignedAt : Time
  deriving DecidableEq, Repr

structure RefreshToken where
  ID : UUID
  UserID : UUID
  TokenHash : String
  IssuedAt : Time
  ExpiresAt : Time
  Revoked : Bool
  UserAgent : String
  IPAddress : String
  deriving DecidableEq, Repr

/-- The two values of `EmailTokenType`: `"verify"` and `"reset"`. -/
inductive EmailTokenType where
  | Verify
  | Reset
  deriving DecidableEq, Repr

structure EmailToken where
  ID : UUID
  UserID : UUID
  TokenHash : String
  TokenType : EmailTokenType
  ExpiresAt : Time
  Used : Bool
  deriving DecidableEq, Repr

/-- The eight values of `AuditEventType`. -/
inductive AuditEventType where
  | LoginSuccess
  | LoginFailed
  | Logout
  | PasswordChange
  | RoleChange
  | Register
  | EmailVerified
  | PasswordReset
  deriving DecidableEq, Repr

structure AuditEvent where
  ID : UUID
  UserID : Option UUID
  EventType : AuditEventType
  Payload : String
  IPAddress : String
  UserAgent : String
  CreatedAt : Time
  deriving DecidableEq, Repr

structure RegisterRequest where
  Email : String
  Password : String
  DisplayName : String
  deriving DecidableEq, Repr

structure UserWithRoles where
  User : User
  Roles : List Role
  deriving DecidableEq, Repr

structure CreateUserRequest where
  Email : String
  Password : String
  DisplayName : String
  RoleIDs : List Int
  deriving DecidableEq, Repr

structure UpdateUserRequest where
  Email : Option String
  DisplayName : Option String
  IsActive : Option Bool
  deriving DecidableEq, Repr

/-- The struct `PaginatedResponse`; `Data` is the page of users that
`ListUsers` puts there. -/
structure PaginatedResponse where
  Data : List User
  Page : Int
  PerPage : Int
  Total : Int
  TotalPages : Int
  deriving DecidableEq, Repr

structure LoginRequest where
  Email : String
  Password : String
  deriving DecidableEq, Repr

structure AuthResponse where
  AccessToken : String
  RefreshToken : String
  ExpiresIn : Int
  deriving DecidableEq, Repr

/-! ## internal/config/config.go -/

/-- The fields of `Config` that the services read. -/
structure Config where
  AccessTokenExpiry : Duration
  RefreshTokenExpiry : Duration
  MaxFailedLogins : Int
  LockDuration : Duration
  deriving DecidableEq, Repr

/-- The function `Load`, restricted to the fields above: all four are literal
constants there, independent of the process environment. -/
def Load : Config :=
  { AccessTokenExpiry := 15 * Minute
    RefreshTokenExpiry := 30 * 24 * Hour
    MaxFailedLogins := 5
    LockDuration := 15 * Minute }

/-! ## Errors -/

/-- Error values travelling through the services: the sentinel errors of
`auth_service.go`, `errors.New(msg)`, `sql.ErrNoRows`, and any other error
reported by the database driver or by a helper. -/
inductive Err where
  | ErrUserNotFound
  | ErrInvalidCredentials
  | ErrUserNotVerified
  | ErrAccountLocked
  | ErrDuplicateEmail
  | ErrInvalidToken
  | ErrTokenRevoked
  | errorsNew (msg : String)
  | sqlErrNoRows
  | driver (msg : String)
  deriving DecidableEq, Repr

/-! ## The database and the surroundings of one call -/

/-- A message handed to the mailer goroutine: `SendVerificationEmail` or
`SendPasswordResetEmail` with its arguments. -/
structure Mail where
  isReset : Bool
  recipient : String
  displayName : String
  token : String
  deriving DecidableEq, Repr

/-- The tables behind the repositories, and the mails dispatched so far. -/
structure Store where
  users : List User
  roles : List Role
  userRoles : List UserRole
  refreshTokens : List RefreshToken
  emailTokens : List EmailToken
  auditEvents : List AuditEvent
  outbox : List Mail
  deriving DecidableEq, Repr

/-- The repository methods, as names for the statements they send. -/
inductive Op where
  | UserGetByID
  | UserGetByEmail
  | UserIncrementFailedLogin
  | UserLockAccount
  | UserResetFailedLogin
  | UserCreate
  | UserUpdatePassword
  | UserSetVerified
  | UserUpdate
  | UserDelete
  | UserListCount
  | UserList
  | TokenCreateRefreshToken
  | TokenGetRefreshTokenByHash
  | TokenRevokeRefreshToken
  | TokenRevokeAllUserTokens
  | TokenCreateEmailToken
  | TokenGetEmailTokenByHash
  | TokenMarkEmailTokenUsed
  | RoleGetUserRoles
  | RoleGetByName
  | RoleGetByID
  | RoleAssignRoleToUser
  | RoleUnassignRoleFromUser
  | AuditCreate
  deriving DecidableEq, Repr

/-- What the outside world supplies to one service call: the clock reading
(all `time.Now()` readings of one call are taken to be the same instant), the
values of `uuid.New()` for a user row, a token row and an audit row, the string drawn by
`GenerateRandomToken(32)`, for each repository method whether its statement
fails in the driver (`some msg`) or is executed (`none`), and the meaning the
database gives to `text ILIKE pattern`. -/
structure Env where
  now : Time
  userID : UUID
  tokenID : UUID
  auditID : UUID
  randomToken : String
  fault : Op → Option String
  ilike : String → String → Bool

/-- Helpers of package `utils` and of the Go library whose code is not among
the sources (`password.go`, `token.go`, `jwt.go`, `strings`): taken as given. -/
structure Utils where
  ToLower : String → String
  TrimSpace : String → String
  HashPassword : String → Except Err String
  CheckPassword : String → String → Bool
  HashToken : String → String
  GenerateToken : UUID → String → List String → Time → Except Err String

/-! ## internal/repository/user_repository.go -/

/-- Run an `Exec` statement: on a driver fault the table is untouched and the
error is returned, otherwise the update is applied. -/
def execStmt (env : Env) (op : Op) (st : Store) (upd : Store → Store) : Option Err × Store :=
  match env.fault op with
  | some msg => (some (.driver msg), st)
  | none => (none, upd st)

/-- Run a `QueryRow(...).Scan(...)`: a driver fault, `sql.ErrNoRows`, or the
first matching row. -/
def queryRow {α : Type} (env : Env) (op : Op) (rows : List α) (p : α → Bool) : Except Err α :=
  match env.fault op with
  | some msg => .error (.driver msg)
  | none =>
    match rows.find? p with
    | some row => .ok row
    | none => .error .sqlErrNoRows

/-- `SELECT ... FROM users WHERE id = $1`. -/
def UserRepository.GetByID (env : Env) (st : Store) (id : UUID) : Except Err User :=
  queryRow env .UserGetByID st.users fun u => decide (u.ID = id)

/-- `SELECT ... FROM users WHERE email = $1`. -/
def UserRepository.GetByEmail (env : Env) (st : Store) (email : String) : Except Err User :=
  queryRow env .UserGetByEmail st.users fun u => decide (u.Email = email)

/-- `UPDATE users SET failed_login_count = failed_login_count + 1 WHERE id = $1`. -/
def UserRepository.IncrementFailedLogin (env : Env) (st : Store) (userID : UUID) :
    Option Err × Store :=
  execStmt env .UserIncrementFailedLogin st fun st =>
    { st with users := st.users.map fun u =>
        if u.ID = userID then { u with FailedLoginCount := u.FailedLoginCount + 1 } else u }

/-- `UPDATE users SET locked_until = $1 WHERE id = $2`. -/
def UserRepository.LockAccount (env : Env) (st : Store) (userID : UUID) (lockUntil : Time) :
    Option Err × Store :=
  execStmt env .UserLockAccount st fun st =>
    { st with users := st.users.map fun u =>
        if u.ID = userID then { u with LockedUntil := some lockUntil } else u }

/-- `UPDATE users SET failed_login_count = 0, locked_until = NULL, last_login_at = $1
WHERE id = $2`, with `$1 = time.Now()`. -/
def UserRepository.ResetFailedLogin (env : Env) (st : Store) (userID : UUID) :
    Option Err × Store :=
  execStmt env .UserResetFailedLogin st fun st =>
    { st with users := st.users.map fun u =>
        if u.ID = userID then
          { u with FailedLoginCount := 0, LockedUntil := none, LastLoginAt := some env.now }
        else u }

/-- Modelled from the spec: the column defaults of table `users`, whose schema
is not among the sources.  `Create` does not write `last_login_at`,
`failed_login_count` and `locked_until`; the spec has last-login and lock-until
nullable and "initial state is `Unlocked(0)` at account creation". -/
def usersColumnDefaults (user : User) : User :=
  { user with LastLoginAt := none, FailedLoginCount := 0, LockedUntil := none }

/-- `INSERT INTO users (id, email, password_hash, display_name, is_active,
is_verified, created_at, updated_at) VALUES ...`. -/
def UserRepository.Create (env : Env) (st : Store) (user : User) : Option Err × Store :=
  execStmt env .UserCreate st fun st =>
    { st with users := st.users ++ [usersColumnDefaults user] }

/-- `UPDATE users SET password_hash = $1, updated_at = $2 WHERE id = $3`. -/
def UserRepository.UpdatePassword (env : Env) (st : Store) (userID : UUID)
    (passwordHash : String) : Option Err × Store :=
  execStmt env .UserUpdatePassword st fun st =>
    { st with users := st.users.map fun u =>
        if u.ID = userID then { u with PasswordHash := passwordHash, UpdatedAt := env.now }
        else u }

/-- `UPDATE users SET is_verified = true, updated_at = $1 WHERE id = $2`. -/
def UserRepository.SetVerified (env : Env) (st : Store) (userID : UUID) : Option Err × Store :=
  execStmt env .UserSetVerified st fun st =>
    { st with users := st.users.map fun u =>
        if u.ID = userID then { u with IsVerified := true, UpdatedAt := env.now } else u }

/-- `UPDATE users SET email = $1, display_name = $2, is_active = $3,
is_verified = $4, updated_at = $5, last_login_at = $6, failed_login_count = $7,
locked_until = $8 WHERE id = $9`, with `$5 = time.Now()`. -/
def UserRepository.Update (env : Env) (st : Store) (user : User) : Option Err × Store :=
  execStmt env .UserUpdate st fun st =>
    { st with users := st.users.map fun u =>
        if u.ID = user.ID then
          { u with
            Email := user.Email
            DisplayName := user.DisplayName
            IsActive := user.IsActive
            IsVerified := user.IsVerified
            UpdatedAt := env.now
            LastLoginAt := user.LastLoginAt
            FailedLoginCount := user.FailedLoginCount
            LockedUntil := user.LockedUntil }
        else u }

/-- `DELETE FROM users WHERE id = $1`.  Only the statement is read here;
whatever foreign keys of the absent schema would do to other tables is left
out. -/
def UserRepository.Delete (env : Env) (st : Store) (id : UUID) : Option Err × Store :=
  execStmt env .UserDelete st fun st =>
    { st with users := st.users.filter fun u => decide (u.ID ≠ id) }

/-- A Go `int` product or difference, wrapped to 64 bits. -/
def wrapInt64 (x : Int) : Int :=
  (x + 9223372036854775808) % 18446744073709551616 - 9223372036854775808

/-- The method `UserRepository.List`: the page of rows, the total of the count
query, and the error.  The count query's error is discarded by the code
(`total` stays 0); the row query fails in the driver, or in the database on a
negative `LIMIT` or `OFFSET`.  Rows with equal `created_at` keep their table
order. -/
def UserRepository.List (env : Env) (st : Store) (page perPage : Int) (search : String) :
    List User × Int × Option Err :=
  let offset := wrapInt64 (wrapInt64 (page - 1) * perPage)
  let selected :=
    if search ≠ "" then
      st.users.filter fun u =>
        env.ilike u.Email ("%" ++ search ++ "%") ||
          env.ilike u.DisplayName ("%" ++ search ++ "%")
    else st.users
  let total : Int :=
    match env.fault .UserListCount with
    | some _ => 0
    | none => selected.length
  match env.fault .UserList with
  | some msg => ([], 0, some (.driver msg))
  | none =>
    if perPage < 0 ∨ offset < 0 then
      ([], 0, some (.driver "LIMIT and OFFSET must not be negative"))
    else
      (((selected.insertionSort fun a b => a.CreatedAt ≥ b.CreatedAt).drop
          offset.toNat).take perPage.toNat, total, none)

/-! ## internal/repository/token_repository.go -/

/-- `INSERT INTO refresh_tokens ...`. -/
def TokenRepository.CreateRefreshToken (env : Env) (st : Store) (token : RefreshToken) :
    Option Err × Store :=
  execStmt env .TokenCreateRefreshToken st fun st =>
    { st with refreshTokens := st.refreshTokens ++ [token] }

/-- `SELECT ... FROM refresh_tokens WHERE token_hash = $1`. -/
def TokenRepository.GetRefreshTokenByHash (env : Env) (st : Store) (hash : String) :
    Except Err RefreshToken :=
  queryRow env .TokenGetRefreshTokenByHash st.refreshTokens fun t => decide (t.TokenHash = hash)

/-- `UPDATE refresh_tokens SET revoked = true WHERE id = $1`. -/
def TokenRepository.RevokeRefreshToken (env : Env) (st : Store) (id : UUID) :
    Option Err × Store :=
  execStmt env .TokenRevokeRefreshToken st fun st =>
    { st with refreshTokens := st.refreshTokens.map fun t =>
        if t.ID = id then { t with Revoked := true } else t }

/-- `UPDATE refresh_tokens SET revoked = true WHERE user_id = $1`. -/
def TokenRepository.RevokeAllUserTokens (env : Env) (st : Store) (userID : UUID) :
    Option Err × Store :=
  execStmt env .TokenRevokeAllUserTokens st fun st =>
    { st with refreshTokens := st.refreshTokens.map fun t =>
        if t.UserID = userID then { t with Revoked := true } else t }

/-- `INSERT INTO email_tokens ...`. -/
def TokenRepository.CreateEmailToken (env : Env) (st : Store) (token : EmailToken) :
    Option Err × Store :=
  execStmt env .TokenCreateEmailToken st fun st =>
    { st with emailTokens := st.emailTokens ++ [token] }

/-- `SELECT ... FROM email_tokens WHERE token_hash = $1 AND type = $2`. -/
def TokenRepository.GetEmailTokenByHash (env : Env) (st : Store) (hash : String)
    (tokenType : EmailTokenType) : Except Err EmailToken :=
  queryRow env .TokenGetEmailTokenByHash st.emailTokens fun t =>
    decide (t.TokenHash = hash) && decide (t.TokenType = tokenType)

/-- `UPDATE email_tokens SET used = true WHERE id = $1`. -/
def TokenRepository.MarkEmailTokenUsed (env : Env) (st : Store) (id : UUID) :
    Option Err × Store :=
  execStmt env .TokenMarkEmailTokenUsed st fun st =>
    { st with emailTokens := st.emailTokens.map fun t =>
        if t.ID = id then { t with Used := true } else t }

/-! ## internal/repository/role_repository.go -/

/-- `SELECT id, name, description FROM roles WHERE name = $1`. -/
def RoleRepository.GetByName (env : Env) (st : Store) (name : String) : Except Err Role :=
  queryRow env .RoleGetByName st.roles fun r => decide (r.Name = name)

/-- `SELECT id, name, description FROM roles WHERE id = $1`. -/
def RoleRepository.GetByID (env : Env) (st : Store) (id : Int) : Except Err Role :=
  queryRow env .RoleGetByID st.roles fun r => decide (r.ID = id)

/-- `DELETE FROM user_roles WHERE user_id = $1 AND role_id = $2`. -/
def RoleRepository.UnassignRoleFromUser (env : Env) (st : Store) (userID : UUID)
    (roleID : Int) : Option Err × Store :=
  execStmt env .RoleUnassignRoleFromUser st fun st =>
    { st with userRoles := st.userRoles.filter fun ur =>
        !(decide (ur.UserID = userID) && decide (ur.RoleID = roleID)) }

/-- `INSERT INTO user_roles ... VALUES ($1, $2, $3, NOW()) ON CONFLICT (user_id,
role_id) DO NOTHING`. -/
def RoleRepository.AssignRoleToUser (env : Env) (st : Store) (userID : UUID) (roleID : Int)
    (assignedBy : UUID) : Option Err × Store :=
  execStmt env .RoleAssignRoleToUser st fun st =>
    if st.userRoles.any fun ur => decide (ur.UserID = userID) && decide (ur.RoleID = roleID)
    then st
    else { st with userRoles := st.userRoles ++
      [{ UserID := userID, RoleID := roleID, AssignedBy := assignedBy,
         AssignedAt := env.now }] }


/-- `SELECT r.* FROM roles r INNER JOIN user_roles ur ON r.id = ur.role_id
WHERE ur.user_id = $1`. -/
def RoleRepository.GetUserRoles (env : Env) (st : Store) (userID : UUID) :
    Except Err (List Role) :=
  match env.fault .RoleGetUserRoles with
  | some msg => .error (.driver msg)
  | none =>
    .ok ((st.userRoles.filter fun ur => decide (ur.UserID = userID)).flatMap fun ur =>
      st.roles.filter fun r => decide (r.ID = ur.RoleID))

/-! ## internal/repository/audit_repository.go, internal/services/audit_service.go -/

/-- `INSERT INTO audit_events ...`. -/
def AuditRepository.Create (env : Env) (st : Store) (event : AuditEvent) : Option Err × Store :=
  execStmt env .AuditCreate st fun st =>
    { st with auditEvents := st.auditEvents ++ [event] }

/-- The method `AuditService.LogEvent`; `payload` is the JSON text that
`json.Marshal` makes of the payload map. -/
def AuditService.LogEvent (env : Env) (st : Store) (eventType : AuditEventType)
    (userID : Option UUID) (payload : String) (ip userAgent : String) : Option Err × Store :=
  AuditRepository.Create env st
    { ID := env.auditID
      UserID := userID
      EventType := eventType
      Payload := payload
      IPAddress := ip
      UserAgent := userAgent
      CreatedAt := env.now }

/-! ## internal/services/auth_service.go -/

/-- The role names put into an access token, as `Login` and `RefreshToken` both
compute them: `roles, _ := s.roleRepo.GetUserRoles(user.ID)` followed by the
loop copying `r.Name`; when the query fails the list is empty. -/
def roleNamesFor (env : Env) (st : Store) (userID : UUID) : List String :=
  let roles :=
    match RoleRepository.GetUserRoles env st userID with
    | .ok roles => roles
    | .error _ => []
  roles.map fun r => r.Name

/-- The service value: its configuration and the helpers it calls (the JWT
manager is the `GenerateToken` field of `utils`). -/
structure AuthService where
  cfg : Config
  utils : Utils

/-- The method `AuthService.Login`: the returned value and the store afterwards.
`int64(d.Seconds())` is the duration in whole seconds, rounded towards zero
(exact for the durations of a few minutes that the configuration holds). -/
def AuthService.Login (s : AuthService) (env : Env) (st : Store) (req : LoginRequest)
    (ip userAgent : String) : Except Err AuthResponse × Store :=
  let email := SanitizeEmail s.utils.ToLower s.utils.TrimSpace req.Email
  match UserRepository.GetByEmail env st email with
  | .error err =>
    if err = .sqlErrNoRows then (.error .ErrInvalidCredentials, st) else (.error err, st)
  | .ok user =>
    if user.LockedUntil.any (fun t => decide (env.now < t)) then
      let st1 := (AuditService.LogEvent env st .LoginFailed (some user.ID)
        "\x7b\"reason\":\"account_locked\"\x7d" ip userAgent).2
      (.error .ErrAccountLocked, st1)
    else if !s.utils.CheckPassword req.Password user.PasswordHash then
      let st1 := (UserRepository.IncrementFailedLogin env st user.ID).2
      let st2 :=
        if user.FailedLoginCount + 1 ≥ s.cfg.MaxFailedLogins then
          (UserRepository.LockAccount env st1 user.ID (env.now + s.cfg.LockDuration)).2
        else st1
      let st3 := (AuditService.LogEvent env st2 .LoginFailed (some user.ID)
        "\x7b\"reason\":\"invalid_password\"\x7d" ip userAgent).2
      (.error .ErrInvalidCredentials, st3)
    else if !user.IsVerified then
      (.error .ErrUserNotVerified, st)
    else if !user.IsActive then
      (.error (.errorsNew "account is deactivated"), st)
    else
      let st1 := (UserRepository.ResetFailedLogin env st user.ID).2
      let roleNames := roleNamesFor env st1 user.ID
      match s.utils.GenerateToken user.ID user.Email roleNames env.now with
      | .error err => (.error err, st1)
      | .ok accessToken =>
        let refreshTokenStr := env.randomToken
        let refreshToken : RefreshToken :=
          { ID := env.tokenID
            UserID := user.ID
            TokenHash := s.utils.HashToken refreshTokenStr
            IssuedAt := env.now
            ExpiresAt := env.now + s.cfg.RefreshTokenExpiry
            Revoked := false
            UserAgent := userAgent
            IPAddress := ip }
        match TokenRepository.CreateRefreshToken env st1 refreshToken with
        | (some err, st2) => (.error err, st2)
        | (none, st2) =>
          let st3 := (AuditService.LogEvent env st2 .LoginSuccess (some user.ID)
            "null" ip userAgent).2
          (.ok { AccessToken := accessToken
                 RefreshToken := refreshTokenStr
                 ExpiresIn := Int.tdiv s.cfg.AccessTokenExpiry Second }, st3)

/-- The method `AuthService.RefreshToken`. -/
def AuthService.RefreshToken (s : AuthService) (env : Env) (st : Store) (tokenStr : String)
    (ip userAgent : String) : Except Err AuthResponse × Store :=
  let tokenHash := s.utils.HashToken tokenStr
  match TokenRepository.GetRefreshTokenByHash env st tokenHash with
  | .error _ => (.error .ErrInvalidToken, st)
  | .ok oldToken =>
    if oldToken.Revoked then
      let st1 := (TokenRepository.RevokeAllUserTokens env st oldToken.UserID).2
      (.error .ErrTokenRevoked, st1)
    else if env.now > oldToken.ExpiresAt then
      (.error .ErrInvalidToken, st)
    else
      let st1 := (TokenRepository.RevokeRefreshToken env st oldToken.ID).2
      match UserRepository.GetByID env st1 oldToken.UserID with
      | .error _ => (.error .ErrUserNotFound, st1)
      | .ok user =>
        let roleNames := roleNamesFor env st1 user.ID
        match s.utils.GenerateToken user.ID user.Email roleNames env.now with
        | .error err => (.error err, st1)
        | .ok accessToken =>
          let newRefreshTokenStr := env.randomToken
          let newRefreshToken : AuthBackend.RefreshToken :=
            { ID := env.tokenID
              UserID := user.ID
              TokenHash := s.utils.HashToken newRefreshTokenStr
              IssuedAt := env.now
              ExpiresAt := env.now + s.cfg.RefreshTokenExpiry
              Revoked := false
              UserAgent := userAgent
              IPAddress := ip }
          match TokenRepository.CreateRefreshToken env st1 newRefreshToken with
          | (some err, st2) => (.error err, st2)
          | (none, st2) =>
            (.ok { AccessToken := accessToken
                   RefreshToken := newRefreshTokenStr
                   ExpiresIn := Int.tdiv s.cfg.AccessTokenExpiry Second }, st2)

/-- The method `AuthService.ForgotPassword`: `none` is the returned `nil`. -/
def AuthService.ForgotPassword (s : AuthService) (env : Env) (st : Store) (email : String)
    (_ip _userAgent : String) : Option Err × Store :=
  let email := SanitizeEmail s.utils.ToLower s.utils.TrimSpace email
  match UserRepository.GetByEmail env st email with
  | .error _ => (none, st)
  | .ok user =>
    let token := env.randomToken
    let emailToken : EmailToken :=
      { ID := env.tokenID
        UserID := user.ID
        TokenHash := s.utils.HashToken token
        TokenType := .Reset
        ExpiresAt := env.now + Hour
        Used := false }
    let st1 := (TokenRepository.CreateEmailToken env st emailToken).2
    let st2 := { st1 with outbox := st1.outbox ++
      [{ isReset := true, recipient := user.Email, displayName := user.DisplayName,
         token := token }] }
    (none, st2)

/-- The lines of `Register` that give the new user the role named `user`:
`defaultRole, _ := s.roleRepo.GetByName("user")`, and when a role came back,
`AssignRoleToUser(user.ID, defaultRole.ID, user.ID)` with its error discarded. -/
def assignDefaultRole (env : Env) (st : Store) (userID : UUID) : Store :=
  match RoleRepository.GetByName env st "user" with
  | .ok defaultRole => (RoleRepository.AssignRoleToUser env st userID defaultRole.ID userID).2
  | .error _ => st

/-- The method `AuthService.Register`: the returned user value (the Go struct,
whose unset fields are zero) and the store afterwards. -/
def AuthService.Register (s : AuthService) (env : Env) (st : Store) (req : RegisterRequest)
    (ip userAgent : String) : Except Err User × Store :=
  let email := SanitizeEmail s.utils.ToLower s.utils.TrimSpace req.Email
  if !ValidateEmail email then
    (.error (.errorsNew "invalid email format"), st)
  else if !(ValidatePassword req.Password).1 then
    (.error (.errorsNew (ValidatePassword req.Password).2), st)
  else
    match UserRepository.GetByEmail env st email with
    | .ok _ => (.error .ErrDuplicateEmail, st)
    | .error _ =>
      match s.utils.HashPassword req.Password with
      | .error err => (.error err, st)
      | .ok passwordHash =>
        let user : User :=
          { ID := env.userID
            Email := email
            PasswordHash := passwordHash
            DisplayName := req.DisplayName
            IsActive := true
            IsVerified := false
            CreatedAt := env.now
            UpdatedAt := env.now
            LastLoginAt := none
            FailedLoginCount := 0
            LockedUntil := none }
        match UserRepository.Create env st user with
        | (some err, st1) => (.error err, st1)
        | (none, st1) =>
          let st2 := assignDefaultRole env st1 user.ID
          let token := env.randomToken
          let emailToken : EmailToken :=
            { ID := env.tokenID
              UserID := user.ID
              TokenHash := s.utils.HashToken token
              TokenType := .Verify
              ExpiresAt := env.now + Hour
              Used := false }
          let st3 := (TokenRepository.CreateEmailToken env st2 emailToken).2
          let st4 := { st3 with outbox := st3.outbox ++
            [{ isReset := false, recipient := user.Email, displayName := user.DisplayName,
               token := token }] }
          let st5 := (AuditService.LogEvent env st4 .Register (some user.ID)
            ("\x7b\"email\":\"" ++ user.Email ++ "\"\x7d") ip userAgent).2
          (.ok user, st5)

/-- The method `AuthService.VerifyEmail`: `none` is the returned `nil`. -/
def AuthService.VerifyEmail (s : AuthService) (env : Env) (st : Store) (tokenStr : String)
    (ip userAgent : String) : Option Err × Store :=
  let tokenHash := s.utils.HashToken tokenStr
  match TokenRepository.GetEmailTokenByHash env st tokenHash .Verify with
  | .error _ => (some .ErrInvalidToken, st)
  | .ok emailToken =>
    if emailToken.Used || decide (env.now > emailToken.ExpiresAt) then
      (some .ErrInvalidToken, st)
    else
      match TokenRepository.MarkEmailTokenUsed env st emailToken.ID with
      | (some err, st1) => (some err, st1)
      | (none, st1) =>
        match UserRepository.SetVerified env st1 emailToken.UserID with
        | (some err, st2) => (some err, st2)
        | (none, st2) =>
          let st3 := (AuditService.LogEvent env st2 .EmailVerified (some emailToken.UserID)
            "null" ip userAgent).2
          (none, st3)

/-- The method `AuthService.Logout`. -/
def AuthService.Logout (_s : AuthService) (env : Env) (st : Store) (userID : UUID)
    (ip userAgent : String) : Option Err × Store :=
  match TokenRepository.RevokeAllUserTokens env st userID with
  | (some err, st1) => (some err, st1)
  | (none, st1) =>
    let st2 := (AuditService.LogEvent env st1 .Logout (some userID) "null" ip userAgent).2
    (none, st2)

/-- The method `AuthService.ResetPassword`. -/
def AuthService.ResetPassword (s : AuthService) (env : Env) (st : Store)
    (tokenStr newPassword : String) (ip userAgent : String) : Option Err × Store :=
  if !(ValidatePassword newPassword).1 then
    (some (.errorsNew (ValidatePassword newPassword).2), st)
  else
    let tokenHash := s.utils.HashToken tokenStr
    match TokenRepository.GetEmailTokenByHash env st tokenHash .Reset with
    | .error _ => (some .ErrInvalidToken, st)
    | .ok emailToken =>
      if emailToken.Used || decide (env.now > emailToken.ExpiresAt) then
        (some .ErrInvalidToken, st)
      else
        match s.utils.HashPassword newPassword with
        | .error err => (some err, st)
        | .ok passwordHash =>
          match UserRepository.UpdatePassword env st emailToken.UserID passwordHash with
          | (some err, st1) => (some err, st1)
          | (none, st1) =>
            let st2 := (TokenRepository.MarkEmailTokenUsed env st1 emailToken.ID).2
            let st3 := (TokenRepository.RevokeAllUserTokens env st2 emailToken.UserID).2
            let st4 := (AuditService.LogEvent env st3 .PasswordReset (some emailToken.UserID)
              "null" ip userAgent).2
            (none, st4)

/-- The method `AuthService.ValidateAccessToken`: it hands the string to the
JWT manager's `ValidateToken` (`jwt.go`, not among the sources; a parameter
here) and touches no repository. -/
def AuthService.ValidateAccessToken {Claims : Type} (_s : AuthService)
    (validateToken : String → Except Err Claims) (st : Store) (tokenStr : String) :
    Except Err Claims × Store :=
  (validateToken tokenStr, st)

/-! ## internal/services/user_service.go -/

/-- The service value of `UserService`: the helpers it calls. -/
structure UserService where
  utils : Utils

/-- The method `UserService.GetUser`. -/
def UserService.GetUser (_s : UserService) (env : Env) (st : Store) (id : UUID) :
    Except Err UserWithRoles × Store :=
  match UserRepository.GetByID env st id with
  | .error _ => (.error .ErrUserNotFound, st)
  | .ok user =>
    let roles :=
      match RoleRepository.GetUserRoles env st id with
      | .ok roles => roles
      | .error _ => []
    (.ok { User := user, Roles := roles }, st)

/-- The method `UserService.ListUsers`.  Go's `/` and `%` on `int` round
towards zero. -/
def UserService.ListUsers (_s : UserService) (env : Env) (st : Store) (page perPage : Int)
    (search : String) : Except Err PaginatedResponse × Store :=
  let page := if page < 1 then 1 else page
  let perPage := if perPage < 1 ∨ perPage > 100 then 20 else perPage
  match UserRepository.List env st page perPage search with
  | (_, _, some err) => (.error err, st)
  | (users, total, none) =>
    let totalPages := Int.tdiv total perPage
    let totalPages := if Int.tmod total perPage > 0 then totalPages + 1 else totalPages
    (.ok { Data := users
           Page := page
           PerPage := perPage
           Total := total
           TotalPages := totalPages }, st)

/-- The method `UserService.CreateUser`. -/
def UserService.CreateUser (s : UserService) (env : Env) (st : Store)
    (req : CreateUserRequest) (createdBy : UUID) (_ip _userAgent : String) :
    Except Err User × Store :=
  let email := SanitizeEmail s.utils.ToLower s.utils.TrimSpace req.Email
  if !ValidateEmail email then
    (.error (.errorsNew "invalid email format"), st)
  else if !(ValidatePassword req.Password).1 then
    (.error (.errorsNew (ValidatePassword req.Password).2), st)
  else
    match UserRepository.GetByEmail env st email with
    | .ok _ => (.error .ErrDuplicateEmail, st)
    | .error _ =>
      match s.utils.HashPassword req.Password with
      | .error err => (.error err, st)
      | .ok passwordHash =>
        let user : User :=
          { ID := env.userID
            Email := email
            PasswordHash := passwordHash
            DisplayName := req.DisplayName
            IsActive := true
            IsVerified := true
            CreatedAt := env.now
            UpdatedAt := env.now
            LastLoginAt := none
            FailedLoginCount := 0
            LockedUntil := none }
        match UserRepository.Create env st user with
        | (some err, st1) => (.error err, st1)
        | (none, st1) =>
          let st2 := req.RoleIDs.foldl
            (fun acc roleID => (RoleRepository.AssignRoleToUser env acc user.ID roleID
              createdBy).2) st1
          (.ok user, st2)

/-- The method `UserService.UpdateUser`: the returned value is the Go struct
read by `GetByID` with the requested fields overwritten. -/
def UserService.UpdateUser (s : UserService) (env : Env) (st : Store) (id : UUID)
    (req : UpdateUserRequest) (_updatedBy : UUID) (_ip _userAgent : String) :
    Except Err User × Store :=
  match UserRepository.GetByID env st id with
  | .error _ => (.error .ErrUserNotFound, st)
  | .ok user =>
    let afterEmail : Except Err User :=
      match req.Email with
      | none => .ok user
      | some requested =>
        let email := SanitizeEmail s.utils.ToLower s.utils.TrimSpace requested
        if !ValidateEmail email then .error (.errorsNew "invalid email format")
        else
          match UserRepository.GetByEmail env st email with
          | .ok existingUser =>
            if existingUser.ID ≠ id then .error .ErrDuplicateEmail
            else .ok { user with Email := email }
          | .error _ => .ok { user with Email := email }
    match afterEmail with
    | .error err => (.error err, st)
    | .ok user =>
      let user :=
        match req.DisplayName with
        | some displayName => { user with DisplayName := displayName }
        | none => user
      let user :=
        match req.IsActive with
        | some isActive => { user with IsActive := isActive }
        | none => user
      match UserRepository.Update env st user with
      | (some err, st1) => (.error err, st1)
      | (none, st1) => (.ok user, st1)

/-- The method `UserService.DeleteUser`. -/
def UserService.DeleteUser (_s : UserService) (env : Env) (st : Store) (id : UUID) :
    Option Err × Store :=
  match UserRepository.GetByID env st id with
  | .error _ => (some .ErrUserNotFound, st)
  | .ok _ => UserRepository.Delete env st id

/-- The method `UserService.AssignRole`.  In the payload text a UUID is written
as its number. -/
def UserService.AssignRole (_s : UserService) (env : Env) (st : Store) (userID : UUID)
    (roleID : Int) (assignedBy : UUID) (ip userAgent : String) : Option Err × Store :=
  match UserRepository.GetByID env st userID with
  | .error _ => (some .ErrUserNotFound, st)
  | .ok _ =>
    match RoleRepository.GetByID env st roleID with
    | .error _ => (some (.errorsNew "role not found"), st)
    | .ok _ =>
      match RoleRepository.AssignRoleToUser env st userID roleID assignedBy with
      | (some err, st1) => (some err, st1)
      | (none, st1) =>
        let st2 := (AuditService.LogEvent env st1 .RoleChange (some userID)
          ("\x7b\"action\":\"assign\",\"assigned_by\":\"" ++ toString assignedBy ++
            "\",\"role_id\":" ++ toString roleID ++ "\x7d") ip userAgent).2
        (none, st2)

/-- The method `UserService.UnassignRole`. -/
def UserService.UnassignRole (_s : UserService) (env : Env) (st : Store) (userID : UUID)
    (roleID : Int) (removedBy : UUID) (ip userAgent : String) : Option Err × Store :=
  match RoleRepository.UnassignRoleFromUser env st userID roleID with
  | (some err, st1) => (some err, st1)
  | (none, st1) =>
    let st2 := (AuditService.LogEvent env st1 .RoleChange (some userID)
      ("\x7b\"action\":\"unassign\",\"removed_by\":\"" ++ toString removedBy ++
        "\",\"role_id\":" ++ toString roleID ++ "\x7d") ip userAgent).2
    (none, st2)

/-- The method `UserService.ChangePassword`. -/
def UserService.ChangePassword (s : UserService) (env : Env) (st : Store) (userID : UUID)
    (oldPassword newPassword : String) (ip userAgent : String) : Option Err × Store :=
  match UserRepository.GetByID env st userID with
  | .error _ => (some .ErrUserNotFound, st)
  | .ok user =>
    if !s.utils.CheckPassword oldPassword user.PasswordHash then
      (some .ErrInvalidCredentials, st)
    else if !(ValidatePassword newPassword).1 then
      (some (.errorsNew (ValidatePassword newPassword).2), st)
    else
      match s.utils.HashPassword newPassword with
      | .error err => (some err, st)
      | .ok passwordHash =>
        match UserRepository.UpdatePassword env st userID passwordHash with
        | (some err, st1) => (some err, st1)
        | (none, st1) =>
          let st2 := (AuditService.LogEvent env st1 .PasswordChange (some userID)
            "null" ip userAgent).2
          (none, st2)

/-! ## Sequences of calls -/

/-- One `Login` call: its surroundings and its arguments. -/
structure LoginCall where
  env : Env
  req : LoginRequest
  ip : String
  userAgent : String

/-- The store after a sequence of `Login` calls made one after the other. -/
def consecutiveLogins (s : AuthService) (st : Store) : List LoginCall → Store
  | [] => st
  | c :: rest => consecutiveLogins s (s.Login c.env st c.req c.ip c.userAgent).2 rest

/-- A `Login` call for the address `email` whose password does not verify
against `hash`, made while the user lookup and the two counter statements are
executed by the database. -/
def FailedAttempt (s : AuthService) (email hash : String) (c : LoginCall) : Prop :=
  SanitizeEmail s.utils.ToLower s.utils.TrimSpace c.req.Email = email ∧
    s.utils.CheckPassword c.req.Password hash = false ∧
    c.env.fault .UserGetByEmail = none ∧
    c.env.fault .UserIncrementFailedLogin = none ∧
    c.env.fault .UserLockAccount = none

instance (s : AuthService) (email hash : String) (c : LoginCall) :
    Decidable (FailedAttempt s email hash c) := by
  unfold FailedAttempt
  infer_instance

/-! ## Two `RefreshToken` calls whose store operations interleave -/

/-- Where a `RefreshToken` call stands between two of its store operations:
before the lookup; after a lookup that found a revoked record; after a lookup
that found a live record; after the revoke statement; after the user lookup;
after the role query; returned. -/
inductive RefreshPhase where
  | start
  | foundRevoked (oldToken : RefreshToken)
  | foundLive (oldToken : RefreshToken)
  | revoked (oldToken : RefreshToken)
  | haveUser (user : User)
  | haveRoles (user : User) (roleNames : List String)
  | done (result : Except Err AuthResponse)

/-- One store operation of a `RefreshToken` call, together with the local
computation that follows it up to the next store operation.  The operations
are, in the order of the method body: `GetRefreshTokenByHash`, then
`RevokeAllUserTokens` (revoked record) or `RevokeRefreshToken` (live record),
`GetByID`, `GetUserRoles`, `CreateRefreshToken`.  A call that has returned does
nothing. -/
def AuthService.refreshStep (s : AuthService) (env : Env) (tokenStr ip userAgent : String) :
    RefreshPhase → Store → RefreshPhase × Store
  | .start, st =>
    match TokenRepository.GetRefreshTokenByHash env st (s.utils.HashToken tokenStr) with
    | .error _ => (.done (.error .ErrInvalidToken), st)
    | .ok oldToken =>
      if oldToken.Revoked then (.foundRevoked oldToken, st)
      else if env.now > oldToken.ExpiresAt then (.done (.error .ErrInvalidToken), st)
      else (.foundLive oldToken, st)
  | .foundRevoked oldToken, st =>
    (.done (.error .ErrTokenRevoked),
      (TokenRepository.RevokeAllUserTokens env st oldToken.UserID).2)
  | .foundLive oldToken, st =>
    (.revoked oldToken, (TokenRepository.RevokeRefreshToken env st oldToken.ID).2)
  | .revoked oldToken, st =>
    match UserRepository.GetByID env st oldToken.UserID with
    | .error _ => (.done (.error .ErrUserNotFound), st)
    | .ok user => (.haveUser user, st)
  | .haveUser user, st => (.haveRoles user (roleNamesFor env st user.ID), st)
  | .haveRoles user roleNames, st =>
    match s.utils.GenerateToken user.ID user.Email roleNames env.now with
    | .error err => (.done (.error err), st)
    | .ok accessToken =>
      match TokenRepository.CreateRefreshToken env st
          { ID := env.tokenID
            UserID := user.ID
            TokenHash := s.utils.HashToken env.randomToken
            IssuedAt := env.now
            ExpiresAt := env.now + s.cfg.RefreshTokenExpiry
            Revoked := false
            UserAgent := userAgent
            IPAddress := ip } with
      | (some err, st2) => (.done (.error err), st2)
      | (none, st2) =>
        (.done (.ok { AccessToken := accessToken
                      RefreshToken := env.randomToken
                      ExpiresIn := Int.tdiv s.cfg.AccessTokenExpiry Second }), st2)
  | .done result, st => (.done result, st)

/-- A call run alone for `n` store operations. -/
def AuthService.refreshRun (s : AuthService) (env : Env) (tokenStr ip userAgent : String) :
    Nat → RefreshPhase × Store → RefreshPhase × Store
  | 0, c => c
  | n + 1, c =>
    AuthService.refreshRun s env tokenStr ip userAgent n
      (s.refreshStep env tokenStr ip userAgent c.1 c.2)

/-- A store with every table empty. -/
def emptyStore : Store :=
  { users := [], roles := [], userRoles := [], refreshTokens := [], emailTokens := [],
    auditEvents := [], outbox := [] }

/-- The outcomes of the five calls of the end-to-end run. -/
structure EndToEnd where
  registered : Except Err User
  verified : Option Err
  loggedIn : Except Err AuthResponse
  refreshed : Except Err AuthResponse
  refreshedAgain : Except Err AuthResponse

/-- The refresh secret handed out by a login (the empty string when the login
failed). -/
def issuedRefreshSecret (loggedIn : Except Err AuthResponse) : String :=
  match loggedIn with
  | .ok response => response.RefreshToken
  | .error _ => ""

/-- Register, then `VerifyEmail` with the secret that `Register` mailed, then
`Login` with the same address and password, then `RefreshToken` twice with the
refresh secret returned by the login, each call on the store left by the
previous one. -/
def endToEnd (s : AuthService) (env₁ env₂ env₃ env₄ env₅ : Env) (st : Store)
    (email password displayName ip userAgent : String) : EndToEnd :=
  let r₁ := s.Register env₁ st
    { Email := email, Password := password, DisplayName := displayName } ip userAgent
  let r₂ := s.VerifyEmail env₂ r₁.2 env₁.randomToken ip userAgent
  let r₃ := s.Login env₃ r₂.2 { Email := email, Password := password } ip userAgent
  let r₄ := s.RefreshToken env₄ r₃.2 (issuedRefreshSecret r₃.1) ip userAgent
  let r₅ := s.RefreshToken env₅ r₄.2 (issuedRefreshSecret r₃.1) ip userAgent
  { registered := r₁.1, verified := r₂.1, loggedIn := r₃.1, refreshed := r₄.1,
    refreshedAgain := r₅.1 }

/-! ## The audit trail across one call -/

/-- The audit table of `st'` is that of `st` with at most one row appended:
the rows of `st` are an initial segment of the rows of `st'`, in order and
unchanged. -/
def AuditExtends (st st' : Store) : Prop :=
  st.auditEvents <+: st'.auditEvents ∧ st'.auditEvents.length ≤ st.auditEvents.length + 1

instance (st st' : Store) : Decidable (AuditExtends st st') := by
  unfold AuditExtends
  infer_instance

/-- The surroundings `env` with the outcome of the audit insert replaced:
`none` lets `INSERT INTO audit_events` execute, `some msg` makes it fail in
the driver with `msg`.  Every other statement keeps the outcome it has in
`env`. -/
def Env.withAuditFault (env : Env) (outcome : Option String) : Env :=
  { env with fault := fun op => if op = .AuditCreate then outcome else env.fault op }

/-- The store without its audit table: users, roles, role assignments, refresh
tokens, e-mail tokens and dispatched mails. -/
def Store.withoutAudit (st : Store) : Store :=
  { st with auditEvents := [] }

/-- Two outcomes of a call, each the returned value and the store afterwards,
agree in the returned value and in every table but the audit table. -/
def SameButAudit {α : Type} (x y : α × Store) : Prop :=
  x.1 = y.1 ∧ x.2.withoutAudit = y.2.withoutAudit

/-! ## A small concrete instance -/

/-- Stand-ins for the helpers, simple enough to be evaluated: ASCII lower-casing
and trimming, a password hash that is the tagged plaintext, a token hash that
is the tagged secret, and a signer that always succeeds. -/
def sampleUtils : Utils :=
  { ToLower := fun x => String.mk (x.data.map Char.toLower)
    TrimSpace := fun x =>
      String.mk ((x.data.dropWhile Char.isWhitespace).reverse.dropWhile
        Char.isWhitespace).reverse
    HashPassword := fun password => .ok ("bcrypt:" ++ password)
    CheckPassword := fun password hash => decide (hash = "bcrypt:" ++ password)
    HashToken := fun token => "sha256:" ++ token
    GenerateToken := fun _ email _ _ => .ok ("jwt:" ++ email) }

/-- The service with the configuration of `Load`. -/
def sampleService : AuthService :=
  { cfg := Load, utils := sampleUtils }

/-- Surroundings in which every statement is executed; `ILIKE` is stood in for
by equality up to ASCII case with the pattern stripped of its two `%`. -/
def sampleEnv (now : Time) (tokenID : UUID) (randomToken : String) : Env :=
  { now := now
    userID := 500 + tokenID
    tokenID := tokenID
    auditID := 900 + tokenID
    randomToken := randomToken
    fault := fun _ => none
    ilike := fun text pattern =>
      decide ("%" ++ String.mk (text.data.map Char.toLower) ++ "%" =
        String.mk (pattern.data.map Char.toLower)) }

/-- Surroundings in which the statement of one repository method fails in the
driver and every other statement is executed. -/
def sampleEnvFailing (failing : Op) (now : Time) (tokenID : UUID) (randomToken : String) :
    Env :=
  { sampleEnv now tokenID randomToken with
    fault := fun op => if op = failing then some "connection reset" else none }

/-- The user service with the same helpers. -/
def sampleUserService : UserService :=
  { utils := sampleUtils }

/-- A user row for `alice@example.com` with password `Passw0rd!`. -/
def sampleUser (verified : Bool) (failed : Int) (lockedUntil : Option Time) : User :=
  { ID := 1
    Email := "alice@example.com"
    PasswordHash := "bcrypt:Passw0rd!"
    DisplayName := "Alice"
    IsActive := true
    IsVerified := verified
    CreatedAt := 0
    UpdatedAt := 0
    LastLoginAt := none
    FailedLoginCount := failed
    LockedUntil := lockedUntil }

/-- A store holding one user and the given refresh tokens. -/
def sampleStore (user : User) (tokens : List RefreshToken) : Store :=
  { users := [user]
    roles := [{ ID := 1, Name := "user", Description := "" }]
    userRoles := [{ UserID := 1, RoleID := 1, AssignedBy := 1, AssignedAt := 0 }]
    refreshTokens := tokens
    emailTokens := []
    auditEvents := []
    outbox := [] }

/-- A refresh-token row of user 1 for the secret `s0`, expiring at instant 1000. -/
def sampleToken (id : UUID) (secret : String) (revoked : Bool) : RefreshToken :=
  { ID := id
    UserID := 1
    TokenHash := "sha256:" ++ secret
    IssuedAt := 0
    ExpiresAt := 1000
    Revoked := revoked
    UserAgent := "curl"
    IPAddress := "10.0.0.1" }

/-- An e-mail-token row of user 1 for the secret `e0`, expiring at instant 1000. -/
def sampleEmailToken (tokenType : EmailTokenType) (used : Bool) : EmailToken :=
  { ID := 20
    UserID := 1
    TokenHash := "sha256:e0"
    TokenType := tokenType
    ExpiresAt := 1000
    Used := used }

/-- A `Login` call for Alice with a wrong password at instant `now`. -/
def wrongPasswordCall (now : Time) : LoginCall :=
  { env := sampleEnv now 7 "r"
    req := { Email := " Alice@Example.com ", Password := "guess" }
    ip := "10.0.0.1"
    userAgent := "curl" }

/-! # Properties -/

/-! ## Password policy -/

theorem length_le_utf8Len (cs : List Char) : cs.length ≤ String.utf8Len cs := by
  induction cs with
  | nil => simp
  | cons c cs ih =>
    have hc := Char.utf8Size_pos c
    simp only [List.length_cons, String.utf8Len_cons]
    omega

/-- A string has at most as many characters as bytes. -/
theorem length_le_utf8ByteSize (s : String) : s.length ≤ s.utf8ByteSize := by
  cases s with
  | mk cs => simpa using length_le_utf8Len cs

theorem matchesClass_upper (s : String) : matchesClass 'A' 'Z' s = s.data.any Char.isUpper := rfl

theorem matchesClass_lower (s : String) : matchesClass 'a' 'z' s = s.data.any Char.isLower := rfl

theorem matchesClass_digit (s : String) : matchesClass '0' '9' s = s.data.any Char.isDigit := rfl

/-- The verdict of the policy, spelled out: a password passes exactly when its
UTF-8 encoding has at least 8 bytes and it has a character in each of `A-Z`,
`a-z` and `0-9`. -/
theorem ValidatePassword_fst (password : String) :
    (ValidatePassword password).1 =
      (decide (8 ≤ password.utf8ByteSize) && password.data.any Char.isUpper &&
        password.data.any Char.isLower && password.data.any Char.isDigit) := by
  unfold ValidatePassword
  rw [matchesClass_upper, matchesClass_lower, matchesClass_digit]
  by_cases h : password.utf8ByteSize < 8
  · simp [h]
  · simp only [h, if_false]
    have h8 : 8 ≤ password.utf8ByteSize := by omega
    cases password.data.any Char.isUpper <;> cases password.data.any Char.isLower <;>
      cases password.data.any Char.isDigit <;> simp [h8]

/-- Rejection by byte length or missing class: whenever the UTF-8 encoding is
shorter than 8 bytes, or one of the classes `A-Z`, `a-z`, `0-9` is absent, the
verdict is `false` and the message is not empty. -/
theorem ValidatePassword_rejects (password : String)
    (h : password.utf8ByteSize < 8 ∨ password.data.any Char.isUpper = false ∨
      password.data.any Char.isLower = false ∨ password.data.any Char.isDigit = false) :
    (ValidatePassword password).1 = false ∧ (ValidatePassword password).2 ≠ "" := by
  have hne1 : "Password must be at least 8 characters" ≠ "" := by decide
  have hne2 : "Password must contain uppercase, lowercase, and number" ≠ "" := by decide
  unfold ValidatePassword
  rw [matchesClass_upper, matchesClass_lower, matchesClass_digit]
  by_cases h8 : password.utf8ByteSize < 8
  · rw [if_pos h8]
    exact ⟨rfl, hne1⟩
  · rw [if_neg h8]
    have hcond : (!password.data.any Char.isUpper || !password.data.any Char.isLower ||
        !password.data.any Char.isDigit) = true := by
      rcases h with h | h | h | h
      · exact absurd h h8
      · simp [h]
      · simp [h]
      · simp [h]
    rw [if_pos hcond]
    exact ⟨rfl, hne2⟩

/-- C1 (the code departs from the claim): the password `Aa1ééé` has six
characters, fewer than eight, and contains an uppercase letter, a lowercase
letter and a digit; Go's `len` counts its nine bytes, so `ValidatePassword`
accepts it with an empty message instead of rejecting it. -/
theorem C1_six_character_password_is_accepted :
    "Aa1ééé".length = 6 ∧ "Aa1ééé".utf8ByteSize = 9 ∧
      ValidatePassword "Aa1ééé" = (true, "") := by
  decide

/-- C2: every string of at least 8 characters that contains an uppercase
letter, a lowercase letter and a digit is accepted: `ValidatePassword` returns
`(true, "")`. -/
theorem C2_compliant_password_is_accepted (password : String)
    (hlen : 8 ≤ password.length)
    (hupper : ∃ c ∈ password.data, c.isUpper = true)
    (hlower : ∃ c ∈ password.data, c.isLower = true)
    (hdigit : ∃ c ∈ password.data, c.isDigit = true) :
    ValidatePassword password = (true, "") := by
  have hbytes : ¬ password.utf8ByteSize < 8 := by
    have := length_le_utf8ByteSize password
    omega
  have hU : password.data.any Char.isUpper = true := List.any_eq_true.mpr hupper
  have hL : password.data.any Char.isLower = true := List.any_eq_true.mpr hlower
  have hD : password.data.any Char.isDigit = true := List.any_eq_true.mpr hdigit
  unfold ValidatePassword
  rw [matchesClass_upper, matchesClass_lower, matchesClass_digit]
  simp [hbytes, hU, hL, hD]

theorem C2_compliant_password_is_accepted_witness :
    ValidatePassword "Passw0rd!" = (true, "") :=
  C2_compliant_password_is_accepted "Passw0rd!" (by decide)
    ⟨'P', by decide, by decide⟩ ⟨'a', by decide, by decide⟩ ⟨'0', by decide, by decide⟩

/-! ## Role gate -/

theorem userRolesLoop_eq_true (requiredRole : String) (userRoles : List String) :
    userRolesLoop requiredRole userRoles = true ↔ requiredRole ∈ userRoles := by
  induction userRoles with
  | nil => simp [userRolesLoop]
  | cons userRole rest ih =>
    unfold userRolesLoop
    by_cases h : userRole = requiredRole
    · simp [h]
    · have h2 : ¬ requiredRole = userRole := fun e => h e.symm
      simp [h, h2, ih]

theorem requiredRolesLoop_eq_true (userRoles roles : List String) :
    requiredRolesLoop userRoles roles = true ↔ ∃ r, r ∈ roles ∧ r ∈ userRoles := by
  induction roles with
  | nil => simp [requiredRolesLoop]
  | cons requiredRole rest ih =>
    unfold requiredRolesLoop
    cases h : userRolesLoop requiredRole userRoles with
    | true =>
      have hm := (userRolesLoop_eq_true requiredRole userRoles).mp h
      simp only [if_true, true_iff]
      exact ⟨requiredRole, List.mem_cons_self _ _, hm⟩
    | false =>
      have hm : ¬ requiredRole ∈ userRoles := fun hm => by
        have := (userRolesLoop_eq_true requiredRole userRoles).mpr hm
        simp [h] at this
      simp only [Bool.false_eq_true, if_false, ih]
      constructor
      · rintro ⟨r, hr, hu⟩
        exact ⟨r, List.mem_cons_of_mem _ hr, hu⟩
      · rintro ⟨r, hr, hu⟩
        rcases List.mem_cons.mp hr with heq | hr
        · exact absurd (heq ▸ hu) hm
        · exact ⟨r, hr, hu⟩

/-- C3: with granted roles `granted` in the request context, the handler of
`RequireRoles(required)` passes the request to the next handler exactly when
some role occurs in both lists; in every other case it answers 403 itself
(code FORBIDDEN) and the next handler is not reached.  An empty required list
and an empty granted list both deny. -/
theorem C3_require_roles_any_of (required granted : List String) :
    (RequireRoles required (some granted) = Response.next ↔
        ∃ r, r ∈ required ∧ r ∈ granted) ∧
      (RequireRoles required (some granted) = Response.next ∨
        RequireRoles required (some granted) =
          Response.json 403 "FORBIDDEN" "Insufficient permissions") ∧
      RequireRoles [] (some granted) =
        Response.json 403 "FORBIDDEN" "Insufficient permissions" ∧
      RequireRoles required (some []) =
        Response.json 403 "FORBIDDEN" "Insufficient permissions" := by
  have hnil : requiredRolesLoop [] required = false := by
    cases h : requiredRolesLoop [] required with
    | false => rfl
    | true =>
      obtain ⟨r, _, hr⟩ := (requiredRolesLoop_eq_true [] required).mp h
      exact absurd hr (List.not_mem_nil r)
  refine ⟨?_, ?_, ?_, ?_⟩
  · rw [← requiredRolesLoop_eq_true granted required]
    cases h : requiredRolesLoop granted required <;> simp [RequireRoles, h]
  · cases h : requiredRolesLoop granted required <;> simp [RequireRoles, h, StatusForbidden]
  · simp [RequireRoles, requiredRolesLoop, StatusForbidden]
  · simp [RequireRoles, hnil, StatusForbidden]

/-! ## Store lemmas -/

theorem queryRow_eq_ok {α : Type} (env : Env) (op : Op) (rows : List α) (p : α → Bool)
    (row : α) :
    queryRow env op rows p = .ok row ↔ env.fault op = none ∧ rows.find? p = some row := by
  unfold queryRow
  cases hf : env.fault op with
  | some msg => simp
  | none =>
    cases hr : rows.find? p with
    | some r => simp
    | none => simp

theorem queryRow_of_find {α : Type} (env : Env) (op : Op) (rows : List α) (p : α → Bool)
    (row : α) (hf : env.fault op = none) (hr : rows.find? p = some row) :
    queryRow env op rows p = .ok row :=
  (queryRow_eq_ok env op rows p row).mpr ⟨hf, hr⟩

theorem queryRow_of_find_none {α : Type} (env : Env) (op : Op) (rows : List α) (p : α → Bool)
    (hf : env.fault op = none) (hr : rows.find? p = none) :
    queryRow env op rows p = .error .sqlErrNoRows := by
  unfold queryRow
  simp [hf, hr]

/-- An in-place rewrite of rows that keeps the looked-up column keeps the row
that a lookup finds, rewritten. -/
theorem find?_map_of_stable {α : Type} (rows : List α) (p : α → Bool) (f : α → α)
    (hstable : ∀ x, p (f x) = p x) (row : α) (hr : rows.find? p = some row) :
    (rows.map f).find? p = some (f row) := by
  have hcomp : (p ∘ f) = p := funext hstable
  rw [List.find?_map, hcomp, hr]
  rfl

theorem find?_map_none_of_stable {α : Type} (rows : List α) (p : α → Bool) (f : α → α)
    (hstable : ∀ x, p (f x) = p x) (hr : rows.find? p = none) :
    (rows.map f).find? p = none := by
  have hcomp : (p ∘ f) = p := funext hstable
  rw [List.find?_map, hcomp, hr]
  rfl

/-! ## Login, path by path -/

/-- The store after the audit row of a call has been written (or not, on a
driver fault): only the audit table can differ. -/
theorem LogEvent_users (env : Env) (st : Store) (ty : AuditEventType) (uid : Option UUID)
    (payload ip userAgent : String) :
    (AuditService.LogEvent env st ty uid payload ip userAgent).2.users = st.users ∧
      (AuditService.LogEvent env st ty uid payload ip userAgent).2.refreshTokens =
        st.refreshTokens ∧
      (AuditService.LogEvent env st ty uid payload ip userAgent).2.emailTokens =
        st.emailTokens := by
  unfold AuditService.LogEvent AuditRepository.Create execStmt
  cases env.fault .AuditCreate <;> simp

theorem Login_unknown_email (s : AuthService) (env : Env) (st : Store) (req : LoginRequest)
    (ip userAgent : String)
    (hfault : env.fault .UserGetByEmail = none)
    (hnone : st.users.find? (fun u => decide (u.Email =
      SanitizeEmail s.utils.ToLower s.utils.TrimSpace req.Email)) = none) :
    s.Login env st req ip userAgent = (.error .ErrInvalidCredentials, st) := by
  have hq := queryRow_of_find_none env .UserGetByEmail st.users _ hfault hnone
  unfold AuthService.Login UserRepository.GetByEmail
  simp [hq]

theorem Login_locked (s : AuthService) (env : Env) (st : Store) (req : LoginRequest)
    (ip userAgent : String) (user : User) (t : Time)
    (hfound : UserRepository.GetByEmail env st
      (SanitizeEmail s.utils.ToLower s.utils.TrimSpace req.Email) = .ok user)
    (hlocked : user.LockedUntil = some t) (hnow : env.now < t) :
    s.Login env st req ip userAgent =
      (.error .ErrAccountLocked,
        (AuditService.LogEvent env st .LoginFailed (some user.ID)
          "\x7b\"reason\":\"account_locked\"\x7d" ip userAgent).2) := by
  unfold AuthService.Login
  simp [hfound, hlocked, hnow]

theorem Login_wrong_password (s : AuthService) (env : Env) (st : Store) (req : LoginRequest)
    (ip userAgent : String) (user : User)
    (hfound : UserRepository.GetByEmail env st
      (SanitizeEmail s.utils.ToLower s.utils.TrimSpace req.Email) = .ok user)
    (hunlocked : user.LockedUntil.any (fun t => decide (env.now < t)) = false)
    (hwrong : s.utils.CheckPassword req.Password user.PasswordHash = false) :
    s.Login env st req ip userAgent =
      (.error .ErrInvalidCredentials,
        (AuditService.LogEvent env
          (if user.FailedLoginCount + 1 ≥ s.cfg.MaxFailedLogins then
            (UserRepository.LockAccount env
              (UserRepository.IncrementFailedLogin env st user.ID).2 user.ID
              (env.now + s.cfg.LockDuration)).2
          else (UserRepository.IncrementFailedLogin env st user.ID).2)
          .LoginFailed (some user.ID)
          "\x7b\"reason\":\"invalid_password\"\x7d" ip userAgent).2) := by
  unfold AuthService.Login
  simp [hfound, hunlocked, hwrong]

theorem Login_not_verified (s : AuthService) (env : Env) (st : Store) (req : LoginRequest)
    (ip userAgent : String) (user : User)
    (hfound : UserRepository.GetByEmail env st
      (SanitizeEmail s.utils.ToLower s.utils.TrimSpace req.Email) = .ok user)
    (hunlocked : user.LockedUntil.any (fun t => decide (env.now < t)) = false)
    (hright : s.utils.CheckPassword req.Password user.PasswordHash = true)
    (hunverified : user.IsVerified = false) :
    s.Login env st req ip userAgent = (.error .ErrUserNotVerified, st) := by
  unfold AuthService.Login
  simp [hfound, hunlocked, hright, hunverified]

/-- Not locked at `now`, in the two forms used below. -/
theorem not_locked_iff (lockedUntil : Option Time) (now : Time) :
    lockedUntil.any (fun t => decide (now < t)) = false ↔
      (lockedUntil = none ∨ ∃ t, lockedUntil = some t ∧ t ≤ now) := by
  cases lockedUntil with
  | none => simp
  | some t => simp

/-- The row found under an e-mail address after a failed password check on
`user`, when the two `UPDATE` statements are executed: the counter is one
higher, and the lock is set exactly when the new count reaches the threshold. -/
theorem find_after_wrong_password (s : AuthService) (env : Env) (st : Store)
    (req : LoginRequest) (ip userAgent : String) (user : User) (email : String)
    (hemail : SanitizeEmail s.utils.ToLower s.utils.TrimSpace req.Email = email)
    (hget : env.fault .UserGetByEmail = none)
    (hfind : st.users.find? (fun u => decide (u.Email = email)) = some user)
    (hunlocked : user.LockedUntil.any (fun t => decide (env.now < t)) = false)
    (hwrong : s.utils.CheckPassword req.Password user.PasswordHash = false)
    (hinc : env.fault .UserIncrementFailedLogin = none)
    (hlock : env.fault .UserLockAccount = none) :
    (s.Login env st req ip userAgent).2.users.find? (fun u => decide (u.Email = email)) =
      some { user with
        FailedLoginCount := user.FailedLoginCount + 1
        LockedUntil :=
          if user.FailedLoginCount + 1 ≥ s.cfg.MaxFailedLogins then
            some (env.now + s.cfg.LockDuration)
          else user.LockedUntil } := by
  have hfound : UserRepository.GetByEmail env st
      (SanitizeEmail s.utils.ToLower s.utils.TrimSpace req.Email) = .ok user := by
    rw [hemail]
    exact queryRow_of_find env .UserGetByEmail st.users _ user hget hfind
  rw [Login_wrong_password s env st req ip userAgent user hfound hunlocked hwrong]
  rw [(LogEvent_users env _ _ _ _ _ _).1]
  have h1 : ((UserRepository.IncrementFailedLogin env st user.ID).2.users).find?
      (fun u => decide (u.Email = email)) =
      some { user with FailedLoginCount := user.FailedLoginCount + 1 } := by
    unfold UserRepository.IncrementFailedLogin execStmt
    simp only [hinc]
    rw [find?_map_of_stable st.users _ _ _ user hfind]
    · simp
    · intro x
      by_cases hx : x.ID = user.ID <;> simp [hx]
  by_cases hth : user.FailedLoginCount + 1 ≥ s.cfg.MaxFailedLogins
  · simp only [hth, if_true]
    unfold UserRepository.LockAccount execStmt
    simp only [hlock]
    rw [find?_map_of_stable _ _ _ _ _ h1]
    · simp
    · intro x
      by_cases hx : x.ID = user.ID <;> simp [hx]
  · simp only [hth, if_false]
    rw [h1]

theorem consecutiveLogins_append (s : AuthService) (calls₁ calls₂ : List LoginCall) :
    ∀ st : Store, consecutiveLogins s st (calls₁ ++ calls₂) =
      consecutiveLogins s (consecutiveLogins s st calls₁) calls₂ := by
  induction calls₁ with
  | nil => intro st; rfl
  | cons c rest ih =>
    intro st
    simp only [List.cons_append, consecutiveLogins]
    exact ih _

/-- Below the threshold, consecutive failures only count: after them the row
has its counter raised by their number and is still not locked. -/
theorem find_after_failures_below_threshold (s : AuthService) (email hash : String) :
    ∀ (calls : List LoginCall) (st : Store) (user : User),
      st.users.find? (fun u => decide (u.Email = email)) = some user →
      user.LockedUntil = none → user.PasswordHash = hash →
      (∀ c ∈ calls, FailedAttempt s email hash c) →
      user.FailedLoginCount + calls.length < s.cfg.MaxFailedLogins →
      (consecutiveLogins s st calls).users.find? (fun u => decide (u.Email = email)) =
        some { user with FailedLoginCount := user.FailedLoginCount + calls.length } := by
  intro calls
  induction calls with
  | nil =>
    intro st user hfind _ _ _ _
    simpa [consecutiveLogins] using hfind
  | cons c rest ih =>
    intro st user hfind hnone hhash hall hlt
    obtain ⟨hemail, hwrong, hget, hinc, hlock⟩ := hall c (List.mem_cons_self _ _)
    have hlen : ((c :: rest).length : Int) = (rest.length : Int) + 1 := by
      simp
    have hbelow : ¬ user.FailedLoginCount + 1 ≥ s.cfg.MaxFailedLogins := by
      have : (0 : Int) ≤ (rest.length : Int) := Int.ofNat_nonneg _
      omega
    have hstep := find_after_wrong_password s c.env st c.req c.ip c.userAgent user email
      hemail hget hfind (by simp [hnone]) (by rw [hhash]; exact hwrong) hinc hlock
    simp only [hbelow, if_false] at hstep
    have hrest := ih (s.Login c.env st c.req c.ip c.userAgent).2
      { user with FailedLoginCount := user.FailedLoginCount + 1 } hstep hnone hhash
      (fun c' hc' => hall c' (List.mem_cons_of_mem _ hc'))
      (by
        show user.FailedLoginCount + 1 + (rest.length : Int) < s.cfg.MaxFailedLogins
        omega)
    simp only [consecutiveLogins]
    rw [hrest]
    have harith : user.FailedLoginCount + 1 + (rest.length : Int) =
        user.FailedLoginCount + ((c :: rest).length : Int) := by omega
    simp only [harith]

/-! ## Lockout -/

/-- C4: a `Login` for an existing user who is not locked at `now`, with a
password that does not verify, returns `ErrInvalidCredentials`; the stored
failed-login counter goes up by exactly 1, and `LockedUntil` becomes
`now + LockDuration` exactly when the raised counter is at least
`MaxFailedLogins`, staying as it was otherwise (the two `UPDATE` statements
being executed).  With the configuration of `Load` (threshold 5, lock 15
minutes), fewer than five consecutive failures on a fresh account leave it
unlocked, and the fifth locks it until 15 minutes after that fifth attempt. -/
theorem C4_failed_login_counter_and_lock :
    (∀ (s : AuthService) (env : Env) (st : Store) (req : LoginRequest)
        (ip userAgent : String) (user : User),
        UserRepository.GetByEmail env st
          (SanitizeEmail s.utils.ToLower s.utils.TrimSpace req.Email) = .ok user →
        (user.LockedUntil = none ∨ ∃ t, user.LockedUntil = some t ∧ t ≤ env.now) →
        s.utils.CheckPassword req.Password user.PasswordHash = false →
        env.fault .UserIncrementFailedLogin = none →
        env.fault .UserLockAccount = none →
        (s.Login env st req ip userAgent).1 = .error .ErrInvalidCredentials ∧
          UserRepository.GetByEmail env (s.Login env st req ip userAgent).2
              (SanitizeEmail s.utils.ToLower s.utils.TrimSpace req.Email) =
            .ok { user with
              FailedLoginCount := user.FailedLoginCount + 1
              LockedUntil :=
                if user.FailedLoginCount + 1 ≥ s.cfg.MaxFailedLogins then
                  some (env.now + s.cfg.LockDuration)
                else user.LockedUntil }) ∧
    (∀ (s : AuthService) (st : Store) (email : String) (user : User)
        (calls : List LoginCall),
        s.cfg = Load →
        st.users.find? (fun u => decide (u.Email = email)) = some user →
        user.FailedLoginCount = 0 → user.LockedUntil = none →
        (∀ c ∈ calls, FailedAttempt s email user.PasswordHash c) →
        (calls.length < 5 →
          (consecutiveLogins s st calls).users.find? (fun u => decide (u.Email = email)) =
            some { user with FailedLoginCount := calls.length, LockedUntil := none }) ∧
        (∀ (first : List LoginCall) (fifth : LoginCall),
          calls = first ++ [fifth] → first.length = 4 →
          (consecutiveLogins s st calls).users.find? (fun u => decide (u.Email = email)) =
            some { user with
              FailedLoginCount := 5
              LockedUntil := some (fifth.env.now + 15 * Minute) })) := by
  constructor
  · intro s env st req ip userAgent user hfound hunlocked hwrong hinc hlock
    have hun := (not_locked_iff user.LockedUntil env.now).mpr hunlocked
    obtain ⟨hget, hfind⟩ := (queryRow_eq_ok env .UserGetByEmail st.users _ user).mp hfound
    refine ⟨?_, ?_⟩
    · rw [Login_wrong_password s env st req ip userAgent user hfound hun hwrong]
    · exact queryRow_of_find env .UserGetByEmail _ _ _ hget
        (find_after_wrong_password s env st req ip userAgent user _ rfl hget hfind hun hwrong
          hinc hlock)
  · intro s st email user calls hcfg hfind hzero hnone hall
    have hmax : s.cfg.MaxFailedLogins = 5 := by rw [hcfg]; rfl
    have hdur : s.cfg.LockDuration = 15 * Minute := by rw [hcfg]; rfl
    constructor
    · intro hlen
      have h := find_after_failures_below_threshold s email user.PasswordHash calls st user
        hfind hnone rfl hall (by rw [hmax, hzero]; omega)
      rw [h, hzero, hnone]
      simp
    · intro first fifth hcalls hfour
      subst hcalls
      have hfirst := find_after_failures_below_threshold s email user.PasswordHash first st user
        hfind hnone rfl (fun c hc => hall c (List.mem_append_left _ hc))
        (by rw [hmax, hzero]; omega)
      obtain ⟨hemail, hwrong, hget, hinc, hlock⟩ :=
        hall fifth (List.mem_append_right _ (List.mem_singleton_self _))
      have hstep := find_after_wrong_password s fifth.env (consecutiveLogins s st first)
        fifth.req fifth.ip fifth.userAgent
        { user with FailedLoginCount := user.FailedLoginCount + first.length } email
        hemail hget hfirst (by simp [hnone]) hwrong hinc hlock
      rw [consecutiveLogins_append]
      simp only [consecutiveLogins]
      rw [hstep, hmax, hdur, hzero, hfour]
      simp

theorem C4_failed_login_counter_and_lock_witness :
    ((sampleService.Login (sampleEnv 50 7 "r") (sampleStore (sampleUser true 4 (some 40)) [])
        { Email := " Alice@Example.com ", Password := "guess" } "10.0.0.1" "curl").1 =
        .error .ErrInvalidCredentials ∧
      UserRepository.GetByEmail (sampleEnv 50 7 "r")
          (sampleService.Login (sampleEnv 50 7 "r")
            (sampleStore (sampleUser true 4 (some 40)) [])
            { Email := " Alice@Example.com ", Password := "guess" } "10.0.0.1" "curl").2
          "alice@example.com" =
        .ok (sampleUser true 5 (some (50 + 15 * Minute)))) ∧
      (consecutiveLogins sampleService (sampleStore (sampleUser true 0 none) [])
          [wrongPasswordCall 10, wrongPasswordCall 20, wrongPasswordCall 30,
            wrongPasswordCall 40, wrongPasswordCall 50]).users.find?
          (fun u => decide (u.Email = "alice@example.com")) =
        some (sampleUser true 5 (some (50 + 15 * Minute))) :=
  ⟨C4_failed_login_counter_and_lock.1 sampleService (sampleEnv 50 7 "r")
      (sampleStore (sampleUser true 4 (some 40)) [])
      { Email := " Alice@Example.com ", Password := "guess" } "10.0.0.1" "curl"
      (sampleUser true 4 (some 40)) rfl (Or.inr ⟨40, rfl, by decide⟩) (by decide)
      rfl rfl,
    (C4_failed_login_counter_and_lock.2 sampleService (sampleStore (sampleUser true 0 none) [])
      "alice@example.com" (sampleUser true 0 none)
      [wrongPasswordCall 10, wrongPasswordCall 20, wrongPasswordCall 30,
        wrongPasswordCall 40, wrongPasswordCall 50]
      rfl (by decide) rfl rfl (by decide)).2
      [wrongPasswordCall 10, wrongPasswordCall 20, wrongPasswordCall 30, wrongPasswordCall 40]
      (wrongPasswordCall 50) rfl rfl⟩

theorem Login_success (s : AuthService) (env : Env) (st : Store) (req : LoginRequest)
    (ip userAgent : String) (user : User) (accessToken : String)
    (hfound : UserRepository.GetByEmail env st
      (SanitizeEmail s.utils.ToLower s.utils.TrimSpace req.Email) = .ok user)
    (hunlocked : user.LockedUntil.any (fun t => decide (env.now < t)) = false)
    (hright : s.utils.CheckPassword req.Password user.PasswordHash = true)
    (hverified : user.IsVerified = true) (hactive : user.IsActive = true)
    (hsign : s.utils.GenerateToken user.ID user.Email
      (roleNamesFor env (UserRepository.ResetFailedLogin env st user.ID).2 user.ID) env.now =
        .ok accessToken)
    (hcreate : env.fault .TokenCreateRefreshToken = none) :
    s.Login env st req ip userAgent =
      (.ok { AccessToken := accessToken
             RefreshToken := env.randomToken
             ExpiresIn := Int.tdiv s.cfg.AccessTokenExpiry Second },
        (AuditService.LogEvent env
          { (UserRepository.ResetFailedLogin env st user.ID).2 with
            refreshTokens := (UserRepository.ResetFailedLogin env st user.ID).2.refreshTokens ++
              [{ ID := env.tokenID
                 UserID := user.ID
                 TokenHash := s.utils.HashToken env.randomToken
                 IssuedAt := env.now
                 ExpiresAt := env.now + s.cfg.RefreshTokenExpiry
                 Revoked := false
                 UserAgent := userAgent
                 IPAddress := ip }] }
          .LoginSuccess (some user.ID) "null" ip userAgent).2) := by
  unfold AuthService.Login
  simp [hfound, hunlocked, hright, hverified, hactive, hsign,
    TokenRepository.CreateRefreshToken, execStmt, hcreate]

/-- C5: while the user is locked (`LockedUntil` set and `now` before it),
`Login` returns `ErrAccountLocked` whatever password is presented; no token is
issued (the call fails and the refresh-token table is as before) and the user
table, hence the failed-login counter and `LockedUntil`, is unchanged. -/
theorem C5_locked_account_is_rejected (s : AuthService) (env : Env) (st : Store)
    (req : LoginRequest) (ip userAgent : String) (user : User) (t : Time)
    (hfound : UserRepository.GetByEmail env st
      (SanitizeEmail s.utils.ToLower s.utils.TrimSpace req.Email) = .ok user)
    (hlocked : user.LockedUntil = some t) (hnow : env.now < t) :
    (s.Login env st req ip userAgent).1 = .error .ErrAccountLocked ∧
      (s.Login env st req ip userAgent).2.refreshTokens = st.refreshTokens ∧
      (s.Login env st req ip userAgent).2.users = st.users ∧
      UserRepository.GetByEmail env (s.Login env st req ip userAgent).2
        (SanitizeEmail s.utils.ToLower s.utils.TrimSpace req.Email) = .ok user := by
  rw [Login_locked s env st req ip userAgent user t hfound hlocked hnow]
  have h := LogEvent_users env st .LoginFailed (some user.ID)
    "\x7b\"reason\":\"account_locked\"\x7d" ip userAgent
  refine ⟨rfl, h.2.1, h.1, ?_⟩
  unfold UserRepository.GetByEmail at hfound ⊢
  rw [h.1]
  exact hfound

theorem C5_locked_account_is_rejected_witness :
    (sampleService.Login (sampleEnv 50 7 "r") (sampleStore (sampleUser true 5 (some 100)) [])
        { Email := "alice@example.com", Password := "Passw0rd!" } "10.0.0.1" "curl").1 =
        .error .ErrAccountLocked ∧
      (sampleService.Login (sampleEnv 50 7 "r") (sampleStore (sampleUser true 5 (some 100)) [])
        { Email := "alice@example.com", Password := "Passw0rd!" } "10.0.0.1"
          "curl").2.refreshTokens = [] ∧
      (sampleService.Login (sampleEnv 50 7 "r") (sampleStore (sampleUser true 5 (some 100)) [])
        { Email := "alice@example.com", Password := "Passw0rd!" } "10.0.0.1" "curl").2.users =
        [sampleUser true 5 (some 100)] ∧
      UserRepository.GetByEmail (sampleEnv 50 7 "r")
        (sampleService.Login (sampleEnv 50 7 "r")
          (sampleStore (sampleUser true 5 (some 100)) [])
          { Email := "alice@example.com", Password := "Passw0rd!" } "10.0.0.1" "curl").2
        "alice@example.com" = .ok (sampleUser true 5 (some 100)) :=
  C5_locked_account_is_rejected sampleService (sampleEnv 50 7 "r")
    (sampleStore (sampleUser true 5 (some 100)) [])
    { Email := "alice@example.com", Password := "Passw0rd!" } "10.0.0.1" "curl"
    (sampleUser true 5 (some 100)) 100 rfl rfl (by decide)

/-- C6: for a verified, active user whose lock has expired (`LockedUntil` set,
`now` not before it), `Login` with the correct password succeeds, and
afterwards the stored failed-login counter is 0 and `LockedUntil` is cleared
(the access token being signed and the store statements executed). -/
theorem C6_login_after_lock_expiry_resets (s : AuthService) (env : Env) (st : Store)
    (req : LoginRequest) (ip userAgent : String) (user : User) (t : Time)
    (hfound : UserRepository.GetByEmail env st
      (SanitizeEmail s.utils.ToLower s.utils.TrimSpace req.Email) = .ok user)
    (hlocked : user.LockedUntil = some t) (hexpired : t ≤ env.now)
    (hright : s.utils.CheckPassword req.Password user.PasswordHash = true)
    (hverified : user.IsVerified = true) (hactive : user.IsActive = true)
    (hsign : ∀ roles, ∃ accessToken,
      s.utils.GenerateToken user.ID user.Email roles env.now = .ok accessToken)
    (hreset : env.fault .UserResetFailedLogin = none)
    (hcreate : env.fault .TokenCreateRefreshToken = none) :
    (∃ response, (s.Login env st req ip userAgent).1 = .ok response) ∧
      UserRepository.GetByEmail env (s.Login env st req ip userAgent).2
          (SanitizeEmail s.utils.ToLower s.utils.TrimSpace req.Email) =
        .ok { user with
          FailedLoginCount := 0, LockedUntil := none, LastLoginAt := some env.now } := by
  obtain ⟨accessToken, hsign⟩ := hsign
    (roleNamesFor env (UserRepository.ResetFailedLogin env st user.ID).2 user.ID)
  have hun : user.LockedUntil.any (fun t => decide (env.now < t)) = false := by
    simp [hlocked, hexpired]
  obtain ⟨hget, hfind⟩ := (queryRow_eq_ok env .UserGetByEmail st.users _ user).mp hfound
  rw [Login_success s env st req ip userAgent user accessToken hfound hun hright hverified
    hactive hsign hcreate]
  refine ⟨⟨_, rfl⟩, ?_⟩
  apply queryRow_of_find env .UserGetByEmail _ _ _ hget
  rw [(LogEvent_users env _ _ _ _ _ _).1]
  unfold UserRepository.ResetFailedLogin execStmt
  simp only [hreset]
  rw [find?_map_of_stable st.users _ _ _ user hfind]
  · simp
  · intro x
    by_cases hx : x.ID = user.ID <;> simp [hx]

theorem C6_login_after_lock_expiry_resets_witness :
    (∃ response,
      (sampleService.Login (sampleEnv 200 7 "r") (sampleStore (sampleUser true 5 (some 100)) [])
        { Email := "alice@example.com", Password := "Passw0rd!" } "10.0.0.1" "curl").1 =
        .ok response) ∧
      UserRepository.GetByEmail (sampleEnv 200 7 "r")
        (sampleService.Login (sampleEnv 200 7 "r")
          (sampleStore (sampleUser true 5 (some 100)) [])
          { Email := "alice@example.com", Password := "Passw0rd!" } "10.0.0.1" "curl").2
        "alice@example.com" =
        .ok { sampleUser true 0 none with LastLoginAt := some 200 } :=
  C6_login_after_lock_expiry_resets sampleService (sampleEnv 200 7 "r")
    (sampleStore (sampleUser true 5 (some 100)) [])
    { Email := "alice@example.com", Password := "Passw0rd!" } "10.0.0.1" "curl"
    (sampleUser true 5 (some 100)) 100 rfl rfl (by decide) (by decide) rfl rfl
    (fun _ => ⟨_, rfl⟩) rfl rfl

/-- C7: for an existing user who is not locked and not verified, `Login` with
the correct password returns `ErrUserNotVerified` and changes nothing in the
store: no refresh token is created, and the failed-login counter,
`LockedUntil` and the last-login timestamp stay as they were. -/
theorem C7_unverified_login_changes_nothing (s : AuthService) (env : Env) (st : Store)
    (req : LoginRequest) (ip userAgent : String) (user : User)
    (hfound : UserRepository.GetByEmail env st
      (SanitizeEmail s.utils.ToLower s.utils.TrimSpace req.Email) = .ok user)
    (hunlocked : user.LockedUntil = none ∨ ∃ t, user.LockedUntil = some t ∧ t ≤ env.now)
    (hright : s.utils.CheckPassword req.Password user.PasswordHash = true)
    (hunverified : user.IsVerified = false) :
    (s.Login env st req ip userAgent).1 = .error .ErrUserNotVerified ∧
      (s.Login env st req ip userAgent).2 = st := by
  rw [Login_not_verified s env st req ip userAgent user hfound
    ((not_locked_iff user.LockedUntil env.now).mpr hunlocked) hright hunverified]
  exact ⟨rfl, rfl⟩

theorem C7_unverified_login_changes_nothing_witness :
    (sampleService.Login (sampleEnv 50 7 "r") (sampleStore (sampleUser false 2 none) [])
        { Email := "alice@example.com", Password := "Passw0rd!" } "10.0.0.1" "curl").1 =
        .error .ErrUserNotVerified ∧
      (sampleService.Login (sampleEnv 50 7 "r") (sampleStore (sampleUser false 2 none) [])
        { Email := "alice@example.com", Password := "Passw0rd!" } "10.0.0.1" "curl").2 =
        sampleStore (sampleUser false 2 none) [] :=
  C7_unverified_login_changes_nothing sampleService (sampleEnv 50 7 "r")
    (sampleStore (sampleUser false 2 none) [])
    { Email := "alice@example.com", Password := "Passw0rd!" } "10.0.0.1" "curl"
    (sampleUser false 2 none) rfl (Or.inl rfl) (by decide) rfl

/-! ## Enumeration resistance -/

/-- C8 as stated fails: Alice exists, is locked until instant 100, and at
instant 50 presents a password that does not verify; `Login` answers
`ErrAccountLocked`, not `ErrInvalidCredentials`, while an unknown address gets
`ErrInvalidCredentials`, so the two answers differ. -/
theorem C8_locked_user_counterexample :
    UserRepository.GetByEmail (sampleEnv 50 7 "r")
        (sampleStore (sampleUser true 5 (some 100)) []) "alice@example.com" =
        .ok (sampleUser true 5 (some 100)) ∧
      sampleUtils.CheckPassword "guess" (sampleUser true 5 (some 100)).PasswordHash = false ∧
      (sampleService.Login (sampleEnv 50 7 "r") (sampleStore (sampleUser true 5 (some 100)) [])
        { Email := "alice@example.com", Password := "guess" } "10.0.0.1" "curl").1 =
        .error .ErrAccountLocked ∧
      (sampleService.Login (sampleEnv 50 7 "r") (sampleStore (sampleUser true 5 (some 100)) [])
        { Email := "alice@example.com", Password := "guess" } "10.0.0.1" "curl").1 ≠
        .error .ErrInvalidCredentials ∧
      (sampleService.Login (sampleEnv 50 7 "r") (sampleStore (sampleUser true 5 (some 100)) [])
        { Email := "nobody@example.com", Password := "guess" } "10.0.0.1" "curl").1 =
        .error .ErrInvalidCredentials := by
  refine ⟨rfl, by decide, rfl, ?_, rfl⟩
  intro h
  have h2 : (sampleService.Login (sampleEnv 50 7 "r")
      (sampleStore (sampleUser true 5 (some 100)) [])
      { Email := "alice@example.com", Password := "guess" } "10.0.0.1" "curl").1 =
      .error .ErrAccountLocked := rfl
  rw [h2] at h
  cases h

/-- C8, amended: when the user lookup is executed, `Login` with an address
that belongs to no user returns `ErrInvalidCredentials`, and `Login` with the
address of an existing user who is not locked at `now` and a password that
does not verify returns `ErrInvalidCredentials` as well; for a user who is
locked at `now` the answer is `ErrAccountLocked` instead. -/
theorem C8_unknown_email_and_wrong_password (s : AuthService) (env : Env) (st : Store)
    (req : LoginRequest) (ip userAgent : String)
    (hget : env.fault .UserGetByEmail = none) :
    (st.users.find? (fun u => decide (u.Email =
        SanitizeEmail s.utils.ToLower s.utils.TrimSpace req.Email)) = none →
      (s.Login env st req ip userAgent).1 = .error .ErrInvalidCredentials) ∧
    (∀ user : User,
      st.users.find? (fun u => decide (u.Email =
        SanitizeEmail s.utils.ToLower s.utils.TrimSpace req.Email)) = some user →
      s.utils.CheckPassword req.Password user.PasswordHash = false →
      (user.LockedUntil = none ∨ ∃ t, user.LockedUntil = some t ∧ t ≤ env.now) →
      (s.Login env st req ip userAgent).1 = .error .ErrInvalidCredentials) ∧
    (∀ (user : User) (t : Time),
      st.users.find? (fun u => decide (u.Email =
        SanitizeEmail s.utils.ToLower s.utils.TrimSpace req.Email)) = some user →
      user.LockedUntil = some t → env.now < t →
      (s.Login env st req ip userAgent).1 = .error .ErrAccountLocked) := by
  refine ⟨?_, ?_, ?_⟩
  · intro hnone
    rw [Login_unknown_email s env st req ip userAgent hget hnone]
  · intro user hfind hwrong hunlocked
    have hfound := queryRow_of_find env .UserGetByEmail st.users _ user hget hfind
    rw [Login_wrong_password s env st req ip userAgent user hfound
      ((not_locked_iff user.LockedUntil env.now).mpr hunlocked) hwrong]
  · intro user t hfind hlocked hnow
    have hfound := queryRow_of_find env .UserGetByEmail st.users _ user hget hfind
    rw [Login_locked s env st req ip userAgent user t hfound hlocked hnow]

theorem C8_unknown_email_and_wrong_password_witness :
    (sampleService.Login (sampleEnv 50 7 "r") (sampleStore (sampleUser true 1 none) [])
        { Email := "alice@example.com", Password := "guess" } "10.0.0.1" "curl").1 =
        .error .ErrInvalidCredentials ∧
      (sampleService.Login (sampleEnv 50 7 "r") (sampleStore (sampleUser true 1 none) [])
        { Email := "nobody@example.com", Password := "guess" } "10.0.0.1" "curl").1 =
        .error .ErrInvalidCredentials :=
  ⟨(C8_unknown_email_and_wrong_password sampleService (sampleEnv 50 7 "r")
      (sampleStore (sampleUser true 1 none) [])
      { Email := "alice@example.com", Password := "guess" } "10.0.0.1" "curl" rfl).2.1
      (sampleUser true 1 none) (by decide) (by decide) (Or.inl rfl),
    (C8_unknown_email_and_wrong_password sampleService (sampleEnv 50 7 "r")
      (sampleStore (sampleUser true 1 none) [])
      { Email := "nobody@example.com", Password := "guess" } "10.0.0.1" "curl" rfl).1
      (by decide)⟩

/-- C9: `ForgotPassword` returns `nil` for every address and every store,
whether or not a user has that address.  When the lookup yields no user the
store, and with it the e-mail-token table, is unchanged; when it yields a user
and the `INSERT` is executed, exactly one row is appended to the e-mail-token
table: unused, of kind reset, owned by that user, expiring one hour after
`now`. -/
theorem C9_forgot_password_always_succeeds (s : AuthService) (env : Env) (st : Store)
    (email ip userAgent : String) :
    (s.ForgotPassword env st email ip userAgent).1 = none ∧
    (∀ err, UserRepository.GetByEmail env st
        (SanitizeEmail s.utils.ToLower s.utils.TrimSpace email) = .error err →
      (s.ForgotPassword env st email ip userAgent).2 = st) ∧
    (∀ user, UserRepository.GetByEmail env st
        (SanitizeEmail s.utils.ToLower s.utils.TrimSpace email) = .ok user →
      env.fault .TokenCreateEmailToken = none →
      (s.ForgotPassword env st email ip userAgent).2.emailTokens =
        st.emailTokens ++
          [{ ID := env.tokenID
             UserID := user.ID
             TokenHash := s.utils.HashToken env.randomToken
             TokenType := .Reset
             ExpiresAt := env.now + Hour
             Used := false }]) := by
  refine ⟨?_, ?_, ?_⟩
  · unfold AuthService.ForgotPassword
    cases h : UserRepository.GetByEmail env st
      (SanitizeEmail s.utils.ToLower s.utils.TrimSpace email) <;> simp [h]
  · intro err herr
    unfold AuthService.ForgotPassword
    simp [herr]
  · intro user hfound hcreate
    unfold AuthService.ForgotPassword
    simp [hfound, TokenRepository.CreateEmailToken, execStmt, hcreate]

theorem C9_forgot_password_always_succeeds_witness :
    (sampleService.ForgotPassword (sampleEnv 50 7 "r")
        (sampleStore (sampleUser true 0 none) []) "nobody@example.com" "10.0.0.1" "curl").2 =
        sampleStore (sampleUser true 0 none) [] ∧
      (sampleService.ForgotPassword (sampleEnv 50 7 "r")
        (sampleStore (sampleUser true 0 none) []) " Alice@example.com" "10.0.0.1"
          "curl").2.emailTokens =
        [{ ID := 7, UserID := 1, TokenHash := "sha256:r", TokenType := .Reset,
           ExpiresAt := 50 + Hour, Used := false }] :=
  ⟨(C9_forgot_password_always_succeeds sampleService (sampleEnv 50 7 "r")
      (sampleStore (sampleUser true 0 none) []) "nobody@example.com" "10.0.0.1" "curl").2.1
      .sqlErrNoRows rfl,
    (C9_forgot_password_always_succeeds sampleService (sampleEnv 50 7 "r")
      (sampleStore (sampleUser true 0 none) []) " Alice@example.com" "10.0.0.1" "curl").2.2
      (sampleUser true 0 none) rfl rfl⟩

/-! ## Refresh-token rotation -/

/-- What a successful `RefreshToken` call has done: it found a record that was
neither revoked nor expired, found the owning user after the revoke statement,
and appended the successor row to the table left by that statement. -/
theorem RefreshToken_ok (s : AuthService) (env : Env) (st : Store)
    (tokenStr ip userAgent : String) (response : AuthResponse)
    (hok : (s.RefreshToken env st tokenStr ip userAgent).1 = .ok response) :
    ∃ (oldToken : RefreshToken) (user : User),
      TokenRepository.GetRefreshTokenByHash env st (s.utils.HashToken tokenStr) =
        .ok oldToken ∧
      oldToken.Revoked = false ∧ ¬ env.now > oldToken.ExpiresAt ∧
      UserRepository.GetByID env (TokenRepository.RevokeRefreshToken env st oldToken.ID).2
        oldToken.UserID = .ok user ∧
      env.fault .TokenCreateRefreshToken = none ∧
      response.RefreshToken = env.randomToken ∧
      (s.RefreshToken env st tokenStr ip userAgent).2 =
        { (TokenRepository.RevokeRefreshToken env st oldToken.ID).2 with
          refreshTokens :=
            (TokenRepository.RevokeRefreshToken env st oldToken.ID).2.refreshTokens ++
              [{ ID := env.tokenID
                 UserID := user.ID
                 TokenHash := s.utils.HashToken env.randomToken
                 IssuedAt := env.now
                 ExpiresAt := env.now + s.cfg.RefreshTokenExpiry
                 Revoked := false
                 UserAgent := userAgent
                 IPAddress := ip }] } := by
  unfold AuthService.RefreshToken at hok ⊢
  cases hlook : TokenRepository.GetRefreshTokenByHash env st (s.utils.HashToken tokenStr) with
  | error err => simp [hlook] at hok
  | ok oldToken =>
    simp only [hlook] at hok ⊢
    cases hrev : oldToken.Revoked with
    | true => simp [hrev] at hok
    | false =>
      by_cases hexp : env.now > oldToken.ExpiresAt
      · simp [hrev, hexp] at hok
      · cases hgid : UserRepository.GetByID env
            (TokenRepository.RevokeRefreshToken env st oldToken.ID).2 oldToken.UserID with
        | error err => simp [hrev, hexp, hgid] at hok
        | ok user =>
          cases hsign : s.utils.GenerateToken user.ID user.Email
              (roleNamesFor env (TokenRepository.RevokeRefreshToken env st oldToken.ID).2
                user.ID) env.now with
          | error err => simp [hrev, hexp, hgid, hsign] at hok
          | ok accessToken =>
            cases hcreate : env.fault .TokenCreateRefreshToken with
            | some msg =>
              simp [hrev, hexp, hgid, hsign, TokenRepository.CreateRefreshToken, execStmt,
                hcreate] at hok
            | none =>
              simp only [hrev, hexp, hgid, hsign, TokenRepository.CreateRefreshToken, execStmt,
                hcreate, Bool.false_eq_true, if_false, Except.ok.injEq] at hok
              refine ⟨oldToken, user, rfl, hrev, hexp, hgid, rfl, ?_, ?_⟩
              · rw [← hok]
              · simp [hrev, hexp, hgid, hsign, TokenRepository.CreateRefreshToken, execStmt,
                  hcreate]

/-- Presenting the secret of a revoked record: every token of its owner is
revoked and the call fails with `ErrTokenRevoked`. -/
theorem RefreshToken_revoked (s : AuthService) (env : Env) (st : Store)
    (tokenStr ip userAgent : String) (oldToken : RefreshToken)
    (hlook : TokenRepository.GetRefreshTokenByHash env st (s.utils.HashToken tokenStr) =
      .ok oldToken)
    (hrev : oldToken.Revoked = true) :
    s.RefreshToken env st tokenStr ip userAgent =
      (.error .ErrTokenRevoked,
        (TokenRepository.RevokeAllUserTokens env st oldToken.UserID).2) := by
  unfold AuthService.RefreshToken
  simp [hlook, hrev]

/-- Reuse after a rotation whose revoke was executed: let the secret identify a
stored record of user `u`, and let a first `RefreshToken` with it succeed (so
the record was live) with its revoke statement executed.  A second
`RefreshToken` with the same secret, at any later moment, then returns
`ErrTokenRevoked`; when its own statements are
executed, afterwards every refresh token stored for `u` is revoked, among them
the successor issued by the first call, and the table holds the same rows as
before the second call apart from these revocations: no token is created. -/
theorem RefreshToken_reuse_after_executed_revoke (s : AuthService) (env₁ env₂ : Env)
    (st : Store) (secret ip₁ userAgent₁ ip₂ userAgent₂ : String) (record : RefreshToken)
    (response : AuthResponse)
    (hrecord : TokenRepository.GetRefreshTokenByHash env₁ st (s.utils.HashToken secret) =
      .ok record)
    (hfirst : (s.RefreshToken env₁ st secret ip₁ userAgent₁).1 = .ok response)
    (hrevoke : env₁.fault .TokenRevokeRefreshToken = none)
    (hget : env₂.fault .TokenGetRefreshTokenByHash = none)
    (hrevokeAll : env₂.fault .TokenRevokeAllUserTokens = none) :
    (s.RefreshToken env₂ (s.RefreshToken env₁ st secret ip₁ userAgent₁).2 secret ip₂
        userAgent₂).1 = .error .ErrTokenRevoked ∧
      (∀ t ∈ (s.RefreshToken env₂ (s.RefreshToken env₁ st secret ip₁ userAgent₁).2 secret ip₂
          userAgent₂).2.refreshTokens, t.UserID = record.UserID → t.Revoked = true) ∧
      (∃ successor ∈ (s.RefreshToken env₁ st secret ip₁ userAgent₁).2.refreshTokens,
        successor.TokenHash = s.utils.HashToken response.RefreshToken ∧
        successor.UserID = record.UserID ∧ successor.Revoked = false ∧
        { successor with Revoked := true } ∈
          (s.RefreshToken env₂ (s.RefreshToken env₁ st secret ip₁ userAgent₁).2 secret ip₂
            userAgent₂).2.refreshTokens) ∧
      (s.RefreshToken env₂ (s.RefreshToken env₁ st secret ip₁ userAgent₁).2 secret ip₂
          userAgent₂).2.refreshTokens =
        (s.RefreshToken env₁ st secret ip₁ userAgent₁).2.refreshTokens.map fun t =>
          if t.UserID = record.UserID then { t with Revoked := true } else t := by
  obtain ⟨oldToken, user, hlook, hlive, _, hgid, _, hresp, hst⟩ :=
    RefreshToken_ok s env₁ st secret ip₁ userAgent₁ response hfirst
  have hsame : oldToken = record := by
    rw [hlook] at hrecord
    exact Except.ok.inj hrecord
  subst hsame
  -- the owner found by id is the owner of the record
  have huser : user.ID = oldToken.UserID := by
    obtain ⟨_, hf⟩ := (queryRow_eq_ok env₁ .UserGetByID _ _ user).mp hgid
    simpa using List.find?_some hf
  -- the table after the first call
  have htable : (s.RefreshToken env₁ st secret ip₁ userAgent₁).2.refreshTokens =
      (st.refreshTokens.map fun t =>
        if t.ID = oldToken.ID then { t with Revoked := true } else t) ++
        [{ ID := env₁.tokenID
           UserID := oldToken.UserID
           TokenHash := s.utils.HashToken env₁.randomToken
           IssuedAt := env₁.now
           ExpiresAt := env₁.now + s.cfg.RefreshTokenExpiry
           Revoked := false
           UserAgent := userAgent₁
           IPAddress := ip₁ }] := by
    rw [hst, huser]
    simp [TokenRepository.RevokeRefreshToken, execStmt, hrevoke]
  -- the second lookup finds the presented record, now revoked
  obtain ⟨_, hfind⟩ := (queryRow_eq_ok env₁ .TokenGetRefreshTokenByHash _ _ oldToken).mp hlook
  have hlook₂ : TokenRepository.GetRefreshTokenByHash env₂
      (s.RefreshToken env₁ st secret ip₁ userAgent₁).2 (s.utils.HashToken secret) =
      .ok { oldToken with Revoked := true } := by
    unfold TokenRepository.GetRefreshTokenByHash
    apply queryRow_of_find env₂ _ _ _ _ hget
    rw [htable, List.find?_append]
    rw [find?_map_of_stable st.refreshTokens _ _ _ oldToken hfind]
    · simp
    · intro x
      by_cases hx : x.ID = oldToken.ID <;> simp [hx]
  have hsecond : s.RefreshToken env₂ (s.RefreshToken env₁ st secret ip₁ userAgent₁).2 secret
      ip₂ userAgent₂ =
      (.error .ErrTokenRevoked,
        (TokenRepository.RevokeAllUserTokens env₂
          (s.RefreshToken env₁ st secret ip₁ userAgent₁).2 oldToken.UserID).2) := by
    exact RefreshToken_revoked s env₂ _ secret ip₂ userAgent₂
      { oldToken with Revoked := true } hlook₂ rfl
  have htable₂ : (TokenRepository.RevokeAllUserTokens env₂
      (s.RefreshToken env₁ st secret ip₁ userAgent₁).2 oldToken.UserID).2.refreshTokens =
      (s.RefreshToken env₁ st secret ip₁ userAgent₁).2.refreshTokens.map fun t =>
        if t.UserID = oldToken.UserID then { t with Revoked := true } else t := by
    simp [TokenRepository.RevokeAllUserTokens, execStmt, hrevokeAll]
  rw [hsecond]
  refine ⟨rfl, ?_, ?_, htable₂⟩
  · intro t ht hu
    rw [htable₂] at ht
    obtain ⟨t₀, _, ht₀⟩ := List.mem_map.mp ht
    by_cases h₀ : t₀.UserID = oldToken.UserID
    · rw [if_pos h₀] at ht₀
      rw [← ht₀]
    · rw [if_neg h₀] at ht₀
      rw [ht₀] at h₀
      exact absurd hu h₀
  · refine ⟨{ ID := env₁.tokenID
              UserID := oldToken.UserID
              TokenHash := s.utils.HashToken env₁.randomToken
              IssuedAt := env₁.now
              ExpiresAt := env₁.now + s.cfg.RefreshTokenExpiry
              Revoked := false
              UserAgent := userAgent₁
              IPAddress := ip₁ }, ?_, ?_, rfl, rfl, ?_⟩
    · rw [htable]
      exact List.mem_append_right _ (List.mem_singleton_self _)
    · rw [hresp]
    · rw [htable₂, htable]
      apply List.mem_map.mpr
      refine ⟨_, List.mem_append_right _ (List.mem_singleton_self _), ?_⟩
      simp

theorem RefreshToken_reuse_after_executed_revoke_example :
    (sampleService.RefreshToken (sampleEnv 200 12 "s2")
        (sampleService.RefreshToken (sampleEnv 100 11 "s1")
          (sampleStore (sampleUser true 0 none) [sampleToken 10 "s0" false])
          "s0" "10.0.0.1" "curl").2 "s0" "10.0.0.2" "wget").1 = .error .ErrTokenRevoked ∧
      (sampleService.RefreshToken (sampleEnv 200 12 "s2")
        (sampleService.RefreshToken (sampleEnv 100 11 "s1")
          (sampleStore (sampleUser true 0 none) [sampleToken 10 "s0" false])
          "s0" "10.0.0.1" "curl").2 "s0" "10.0.0.2" "wget").2.refreshTokens =
        [sampleToken 10 "s0" true,
          { sampleToken 11 "s1" true with
            IssuedAt := 100, ExpiresAt := 100 + 30 * 24 * Hour }] :=
  have h := RefreshToken_reuse_after_executed_revoke sampleService (sampleEnv 100 11 "s1")
    (sampleEnv 200 12 "s2") (sampleStore (sampleUser true 0 none) [sampleToken 10 "s0" false])
    "s0" "10.0.0.1" "curl" "10.0.0.2" "wget" (sampleToken 10 "s0" false)
    { AccessToken := "jwt:alice@example.com", RefreshToken := "s1", ExpiresIn := 900 }
    rfl rfl rfl rfl rfl
  ⟨h.1, h.2.2.2.trans rfl⟩

/-- C10 (the code departs from the claim): `RefreshToken` discards the error
of its revoke statement.  The live secret `s0` is presented while that
statement fails in the driver: the call succeeds all the same and leaves the
presented record live.  A second call with `s0` then succeeds as well, where
the claim has `ErrTokenRevoked`: it mints one more successor, and the successor
of the first call stays live.  When the `INSERT` of the successor fails, the
same method does return the error. -/
theorem C10_reuse_goes_undetected_after_failed_revoke :
    (sampleService.RefreshToken (sampleEnvFailing .TokenRevokeRefreshToken 100 11 "s1")
        (sampleStore (sampleUser true 0 none) [sampleToken 10 "s0" false])
        "s0" "10.0.0.1" "curl").1 =
        .ok { AccessToken := "jwt:alice@example.com", RefreshToken := "s1", ExpiresIn := 900 } ∧
      (sampleService.RefreshToken (sampleEnv 200 12 "s2")
        (sampleService.RefreshToken (sampleEnvFailing .TokenRevokeRefreshToken 100 11 "s1")
          (sampleStore (sampleUser true 0 none) [sampleToken 10 "s0" false])
          "s0" "10.0.0.1" "curl").2 "s0" "10.0.0.2" "wget").1 =
        .ok { AccessToken := "jwt:alice@example.com", RefreshToken := "s2", ExpiresIn := 900 } ∧
      (sampleService.RefreshToken (sampleEnv 200 12 "s2")
        (sampleService.RefreshToken (sampleEnvFailing .TokenRevokeRefreshToken 100 11 "s1")
          (sampleStore (sampleUser true 0 none) [sampleToken 10 "s0" false])
          "s0" "10.0.0.1" "curl").2 "s0" "10.0.0.2" "wget").2.refreshTokens =
        [sampleToken 10 "s0" true,
          { sampleToken 11 "s1" false with
            IssuedAt := 100, ExpiresAt := 100 + 30 * 24 * Hour },
          { sampleToken 12 "s2" false with
            IssuedAt := 200, ExpiresAt := 200 + 30 * 24 * Hour, UserAgent := "wget",
            IPAddress := "10.0.0.2" }] ∧
      (sampleService.RefreshToken (sampleEnvFailing .TokenCreateRefreshToken 100 11 "s1")
        (sampleStore (sampleUser true 0 none) [sampleToken 10 "s0" false])
        "s0" "10.0.0.1" "curl").1 = .error (.driver "connection reset") :=
  ⟨rfl, rfl, rfl, rfl⟩

/-- Rewriting the rows that carry the key of `row`, in a table whose keys are
pairwise distinct, rewrites `row` alone. -/
theorem map_update_of_nodup {α κ : Type} [DecidableEq κ] (key : α → κ) (f : α → α)
    (rows : List α) (row : α) (hkey : (rows.map key).Nodup) (hmem : row ∈ rows) :
    ∃ before after, rows = before ++ row :: after ∧
      rows.map (fun t => if key t = key row then f t else t) = before ++ f row :: after := by
  obtain ⟨before, after, rfl⟩ := List.append_of_mem hmem
  refine ⟨before, after, rfl, ?_⟩
  rw [List.map_append, List.map_cons, List.nodup_append] at hkey
  obtain ⟨_, hafter, hdisj⟩ := hkey
  have hnotAfter : key row ∉ after.map key := (List.nodup_cons.mp hafter).1
  have hnotBefore : key row ∉ before.map key := fun h =>
    hdisj h (List.mem_cons_self _ _)
  have hid : ∀ l : List α, key row ∉ l.map key →
      l.map (fun t => if key t = key row then f t else t) = l := by
    intro l hl
    induction l with
    | nil => rfl
    | cons x xs ih =>
      have hx : key x ≠ key row := fun h =>
        hl (by rw [List.map_cons, ← h]; exact List.mem_cons_self _ _)
      have hxs : key row ∉ xs.map key := fun h =>
        hl (by rw [List.map_cons]; exact List.mem_cons_of_mem _ h)
      rw [List.map_cons, if_neg hx, ih hxs]
  rw [List.map_append, List.map_cons, if_pos rfl, hid before hnotBefore, hid after hnotAfter]

/-- The refresh-token table after a successful rotation whose revoke statement
was executed: the rows with the presented id are revoked and the successor,
owned by the owner of the presented record, is appended. -/
theorem RefreshToken_ok_table (s : AuthService) (env : Env) (st : Store)
    (tokenStr ip userAgent : String) (record : RefreshToken) (response : AuthResponse)
    (hrecord : TokenRepository.GetRefreshTokenByHash env st (s.utils.HashToken tokenStr) =
      .ok record)
    (hok : (s.RefreshToken env st tokenStr ip userAgent).1 = .ok response)
    (hrevoke : env.fault .TokenRevokeRefreshToken = none) :
    (s.RefreshToken env st tokenStr ip userAgent).2.refreshTokens =
      (st.refreshTokens.map fun t =>
        if t.ID = record.ID then { t with Revoked := true } else t) ++
        [{ ID := env.tokenID
           UserID := record.UserID
           TokenHash := s.utils.HashToken response.RefreshToken
           IssuedAt := env.now
           ExpiresAt := env.now + s.cfg.RefreshTokenExpiry
           Revoked := false
           UserAgent := userAgent
           IPAddress := ip }] := by
  obtain ⟨oldToken, user, hlook, _, _, hgid, _, hresp, hst⟩ :=
    RefreshToken_ok s env st tokenStr ip userAgent response hok
  have hsame : oldToken = record := by
    rw [hlook] at hrecord
    exact Except.ok.inj hrecord
  subst hsame
  have huser : user.ID = oldToken.UserID := by
    obtain ⟨_, hf⟩ := (queryRow_eq_ok env .UserGetByID _ _ user).mp hgid
    simpa using List.find?_some hf
  rw [hst, huser, hresp]
  simp [TokenRepository.RevokeRefreshToken, execStmt, hrevoke]

/-- A successful `RefreshToken` (its revoke statement executed, ids being
the key of the table) changes the refresh-token table in exactly two ways: the
presented record is now revoked, and one record is appended, owned by the same
user, not revoked, expiring `RefreshTokenExpiry` after `now`, whose `TokenHash`
is the fingerprint of the secret handed back to the caller.  Every other record
is as before. -/
theorem RefreshToken_rotation_table (s : AuthService) (env : Env) (st : Store)
    (secret ip userAgent : String) (record : RefreshToken) (response : AuthResponse)
    (hrecord : TokenRepository.GetRefreshTokenByHash env st (s.utils.HashToken secret) =
      .ok record)
    (hok : (s.RefreshToken env st secret ip userAgent).1 = .ok response)
    (hrevoke : env.fault .TokenRevokeRefreshToken = none)
    (hkey : (st.refreshTokens.map fun t => t.ID).Nodup) :
    ∃ before after,
      st.refreshTokens = before ++ record :: after ∧
      (s.RefreshToken env st secret ip userAgent).2.refreshTokens =
        (before ++ { record with Revoked := true } :: after) ++
          [{ ID := env.tokenID
             UserID := record.UserID
             TokenHash := s.utils.HashToken response.RefreshToken
             IssuedAt := env.now
             ExpiresAt := env.now + s.cfg.RefreshTokenExpiry
             Revoked := false
             UserAgent := userAgent
             IPAddress := ip }] := by
  obtain ⟨_, hfind⟩ :=
    (queryRow_eq_ok env .TokenGetRefreshTokenByHash _ _ record).mp hrecord
  obtain ⟨before, after, hsplit, hmap⟩ :=
    map_update_of_nodup (fun t : RefreshToken => t.ID) (fun t => { t with Revoked := true })
      st.refreshTokens record hkey (List.mem_of_find?_eq_some hfind)
  refine ⟨before, after, hsplit, ?_⟩
  rw [RefreshToken_ok_table s env st secret ip userAgent record response hrecord hok hrevoke,
    hmap]

theorem RefreshToken_rotation_table_example :
    ∃ before after,
      [sampleToken 9 "other" false, sampleToken 10 "s0" false] =
        before ++ sampleToken 10 "s0" false :: after ∧
      (sampleService.RefreshToken (sampleEnv 100 11 "s1")
        (sampleStore (sampleUser true 0 none)
          [sampleToken 9 "other" false, sampleToken 10 "s0" false])
        "s0" "10.0.0.2" "wget").2.refreshTokens =
        (before ++ { sampleToken 10 "s0" false with Revoked := true } :: after) ++
          [{ ID := 11
             UserID := 1
             TokenHash := "sha256:s1"
             IssuedAt := 100
             ExpiresAt := 100 + sampleService.cfg.RefreshTokenExpiry
             Revoked := false
             UserAgent := "wget"
             IPAddress := "10.0.0.2" }] :=
  RefreshToken_rotation_table sampleService (sampleEnv 100 11 "s1")
    (sampleStore (sampleUser true 0 none)
      [sampleToken 9 "other" false, sampleToken 10 "s0" false])
    "s0" "10.0.0.2" "wget" (sampleToken 10 "s0" false)
    { AccessToken := "jwt:alice@example.com", RefreshToken := "s1", ExpiresIn := 900 }
    rfl rfl rfl (by decide)

/-- C11 (the code departs from the claim): a successful `RefreshToken` whose
revoke statement failed in the driver adds the successor but does not mark the
presented record revoked: afterwards the table holds the presented record,
still live, and the new one. -/
theorem C11_successful_rotation_leaves_record_live :
    (sampleService.RefreshToken (sampleEnvFailing .TokenRevokeRefreshToken 100 11 "s1")
        (sampleStore (sampleUser true 0 none) [sampleToken 10 "s0" false])
        "s0" "10.0.0.1" "curl").1 =
        .ok { AccessToken := "jwt:alice@example.com", RefreshToken := "s1", ExpiresIn := 900 } ∧
      (sampleService.RefreshToken (sampleEnvFailing .TokenRevokeRefreshToken 100 11 "s1")
        (sampleStore (sampleUser true 0 none) [sampleToken 10 "s0" false])
        "s0" "10.0.0.1" "curl").2.refreshTokens =
        [sampleToken 10 "s0" false,
          { sampleToken 11 "s1" false with
            IssuedAt := 100, ExpiresAt := 100 + 30 * 24 * Hour }] :=
  ⟨rfl, rfl⟩

/-- Presenting the secret of a record that is not revoked but expired. -/
theorem RefreshToken_expired (s : AuthService) (env : Env) (st : Store)
    (tokenStr ip userAgent : String) (oldToken : RefreshToken)
    (hlook : TokenRepository.GetRefreshTokenByHash env st (s.utils.HashToken tokenStr) =
      .ok oldToken)
    (hrev : oldToken.Revoked = false) (hexp : env.now > oldToken.ExpiresAt) :
    s.RefreshToken env st tokenStr ip userAgent = (.error .ErrInvalidToken, st) := by
  unfold AuthService.RefreshToken
  simp [hlook, hrev, hexp]

/-- Presenting a secret whose lookup fails. -/
theorem RefreshToken_lookup_error (s : AuthService) (env : Env) (st : Store)
    (tokenStr ip userAgent : String) (err : Err)
    (hlook : TokenRepository.GetRefreshTokenByHash env st (s.utils.HashToken tokenStr) =
      .error err) :
    s.RefreshToken env st tokenStr ip userAgent = (.error .ErrInvalidToken, st) := by
  unfold AuthService.RefreshToken
  simp [hlook]

/-- A lookup in a table none of whose rows satisfies the condition is an error. -/
theorem queryRow_error_of_no_match {α : Type} (env : Env) (op : Op) (rows : List α)
    (p : α → Bool) (hno : ∀ row ∈ rows, p row = false) :
    ∃ err, queryRow env op rows p = .error err := by
  unfold queryRow
  cases env.fault op with
  | some msg => exact ⟨_, rfl⟩
  | none =>
    have hnone : rows.find? p = none := by
      rw [List.find?_eq_none]
      intro row hrow
      simp [hno row hrow]
    simp only [hnone]
    exact ⟨_, rfl⟩

/-- C12: `RefreshToken` returns `ErrInvalidToken` and leaves the store as it
was when no stored record carries the fingerprint of the presented secret,
and when the record found is not revoked and `now` is after its `ExpiresAt`. -/
theorem C12_unknown_or_expired_secret_is_invalid (s : AuthService) (env : Env) (st : Store)
    (secret ip userAgent : String) :
    ((∀ t ∈ st.refreshTokens, t.TokenHash ≠ s.utils.HashToken secret) →
      s.RefreshToken env st secret ip userAgent = (.error .ErrInvalidToken, st)) ∧
    (∀ record : RefreshToken,
      TokenRepository.GetRefreshTokenByHash env st (s.utils.HashToken secret) = .ok record →
      record.Revoked = false → env.now > record.ExpiresAt →
      s.RefreshToken env st secret ip userAgent = (.error .ErrInvalidToken, st)) := by
  constructor
  · intro hno
    obtain ⟨err, herr⟩ := queryRow_error_of_no_match env .TokenGetRefreshTokenByHash
      st.refreshTokens (fun t => decide (t.TokenHash = s.utils.HashToken secret))
      (fun t ht => by simpa using hno t ht)
    exact RefreshToken_lookup_error s env st secret ip userAgent err herr
  · intro record hlook hrev hexp
    exact RefreshToken_expired s env st secret ip userAgent record hlook hrev hexp

theorem C12_unknown_or_expired_secret_is_invalid_witness :
    sampleService.RefreshToken (sampleEnv 100 11 "s1")
        (sampleStore (sampleUser true 0 none) [sampleToken 10 "s0" false])
        "forged" "10.0.0.2" "wget" =
        (.error .ErrInvalidToken,
          sampleStore (sampleUser true 0 none) [sampleToken 10 "s0" false]) ∧
      sampleService.RefreshToken (sampleEnv 2000 11 "s1")
        (sampleStore (sampleUser true 0 none) [sampleToken 10 "s0" false])
        "s0" "10.0.0.2" "wget" =
        (.error .ErrInvalidToken,
          sampleStore (sampleUser true 0 none) [sampleToken 10 "s0" false]) :=
  ⟨(C12_unknown_or_expired_secret_is_invalid sampleService (sampleEnv 100 11 "s1")
      (sampleStore (sampleUser true 0 none) [sampleToken 10 "s0" false])
      "forged" "10.0.0.2" "wget").1 (by decide),
    (C12_unknown_or_expired_secret_is_invalid sampleService (sampleEnv 2000 11 "s1")
      (sampleStore (sampleUser true 0 none) [sampleToken 10 "s0" false])
      "s0" "10.0.0.2" "wget").2 (sampleToken 10 "s0" false) rfl rfl (by decide)⟩

/-- Rotation of a live record whose revoke statement is executed, outcome by
outcome: the table afterwards is the revoked table with the successor appended
when the call succeeds, and the revoked table alone when it fails. -/
theorem RefreshToken_live_cases (s : AuthService) (env : Env) (st : Store)
    (tokenStr ip userAgent : String) (record : RefreshToken)
    (hrecord : TokenRepository.GetRefreshTokenByHash env st (s.utils.HashToken tokenStr) =
      .ok record)
    (hrev : record.Revoked = false) (hexp : ¬ env.now > record.ExpiresAt)
    (hrevoke : env.fault .TokenRevokeRefreshToken = none) :
    (∃ response, (s.RefreshToken env st tokenStr ip userAgent).1 = .ok response) ∨
    (∃ err, (s.RefreshToken env st tokenStr ip userAgent).1 = .error err ∧
      (s.RefreshToken env st tokenStr ip userAgent).2.refreshTokens =
        st.refreshTokens.map fun t =>
          if t.ID = record.ID then { t with Revoked := true } else t) := by
  have htable : (TokenRepository.RevokeRefreshToken env st record.ID).2.refreshTokens =
      st.refreshTokens.map fun t =>
        if t.ID = record.ID then { t with Revoked := true } else t := by
    simp [TokenRepository.RevokeRefreshToken, execStmt, hrevoke]
  unfold AuthService.RefreshToken
  simp only [hrecord, hrev, hexp, Bool.false_eq_true, if_false]
  cases hgid : UserRepository.GetByID env
      (TokenRepository.RevokeRefreshToken env st record.ID).2 record.UserID with
  | error err =>
    right
    exact ⟨_, rfl, htable⟩
  | ok user =>
    simp only []
    cases hsign : s.utils.GenerateToken user.ID user.Email
        (roleNamesFor env (TokenRepository.RevokeRefreshToken env st record.ID).2 user.ID)
        env.now with
    | error err =>
      right
      exact ⟨_, rfl, htable⟩
    | ok accessToken =>
      simp only []
      cases hcreate : env.fault .TokenCreateRefreshToken with
      | some msg =>
        right
        simp only [TokenRepository.CreateRefreshToken, execStmt, hcreate]
        exact ⟨_, rfl, htable⟩
      | none =>
        left
        simp only [TokenRepository.CreateRefreshToken, execStmt, hcreate]
        exact ⟨_, rfl⟩

/-- C13 as stated fails.  A live record (not revoked, expiring at 1000, presented
at 100) whose owner has no row: the call returns `ErrUserNotFound`, yet the
presented record is revoked afterwards.  The same record with its owner
present, when the `INSERT` of the successor fails: the call returns the driver
error, no successor is stored, and the presented record is revoked as well. -/
theorem C13_failed_rotation_counterexample :
    TokenRepository.GetRefreshTokenByHash (sampleEnv 100 11 "s1")
        { sampleStore (sampleUser true 0 none) [sampleToken 10 "s0" false] with users := [] }
        "sha256:s0" = .ok (sampleToken 10 "s0" false) ∧
      (sampleService.RefreshToken (sampleEnv 100 11 "s1")
        { sampleStore (sampleUser true 0 none) [sampleToken 10 "s0" false] with users := [] }
        "s0" "10.0.0.2" "wget").1 = .error .ErrUserNotFound ∧
      (sampleService.RefreshToken (sampleEnv 100 11 "s1")
        { sampleStore (sampleUser true 0 none) [sampleToken 10 "s0" false] with users := [] }
        "s0" "10.0.0.2" "wget").2.refreshTokens = [sampleToken 10 "s0" true] ∧
      (sampleService.RefreshToken (sampleEnvFailing .TokenCreateRefreshToken 100 11 "s1")
        (sampleStore (sampleUser true 0 none) [sampleToken 10 "s0" false])
        "s0" "10.0.0.2" "wget").1 = .error (.driver "connection reset") ∧
      (sampleService.RefreshToken (sampleEnvFailing .TokenCreateRefreshToken 100 11 "s1")
        (sampleStore (sampleUser true 0 none) [sampleToken 10 "s0" false])
        "s0" "10.0.0.2" "wget").2.refreshTokens = [sampleToken 10 "s0" true] :=
  ⟨rfl, rfl, rfl, rfl, rfl⟩

/-- C13, amended: rotation of a live record (not revoked, not expired), its
revoke statement being executed, ends in one of two ways.  Either the call
succeeds, the presented record is revoked and its successor is stored; or the
call returns an error and no successor is stored.  In both cases the presented
record is revoked afterwards: the revoke is not undone when a later step
fails. -/
theorem C13_rotation_revokes_before_it_can_fail (s : AuthService) (env : Env) (st : Store)
    (secret ip userAgent : String) (record : RefreshToken)
    (hrecord : TokenRepository.GetRefreshTokenByHash env st (s.utils.HashToken secret) =
      .ok record)
    (hrev : record.Revoked = false) (hexp : ¬ env.now > record.ExpiresAt)
    (hrevoke : env.fault .TokenRevokeRefreshToken = none) :
    { record with Revoked := true } ∈
        (s.RefreshToken env st secret ip userAgent).2.refreshTokens ∧
      ((∃ response, (s.RefreshToken env st secret ip userAgent).1 = .ok response ∧
          (s.RefreshToken env st secret ip userAgent).2.refreshTokens =
            (st.refreshTokens.map fun t =>
              if t.ID = record.ID then { t with Revoked := true } else t) ++
              [{ ID := env.tokenID
                 UserID := record.UserID
                 TokenHash := s.utils.HashToken response.RefreshToken
                 IssuedAt := env.now
                 ExpiresAt := env.now + s.cfg.RefreshTokenExpiry
                 Revoked := false
                 UserAgent := userAgent
                 IPAddress := ip }]) ∨
        (∃ err, (s.RefreshToken env st secret ip userAgent).1 = .error err ∧
          (s.RefreshToken env st secret ip userAgent).2.refreshTokens =
            st.refreshTokens.map fun t =>
              if t.ID = record.ID then { t with Revoked := true } else t)) := by
  obtain ⟨_, hfind⟩ :=
    (queryRow_eq_ok env .TokenGetRefreshTokenByHash _ _ record).mp hrecord
  have hmem : { record with Revoked := true } ∈
      st.refreshTokens.map fun t =>
        if t.ID = record.ID then { t with Revoked := true } else t := by
    apply List.mem_map.mpr
    exact ⟨record, List.mem_of_find?_eq_some hfind, by simp⟩
  rcases RefreshToken_live_cases s env st secret ip userAgent record hrecord hrev hexp hrevoke
    with ⟨response, hok⟩ | ⟨err, herr, htable⟩
  · have htable := RefreshToken_ok_table s env st secret ip userAgent record response hrecord
      hok hrevoke
    refine ⟨?_, Or.inl ⟨response, hok, htable⟩⟩
    rw [htable]
    exact List.mem_append_left _ hmem
  · refine ⟨?_, Or.inr ⟨err, herr, htable⟩⟩
    rw [htable]
    exact hmem

theorem C13_rotation_revokes_before_it_can_fail_witness :
    sampleToken 10 "s0" true ∈
      (sampleService.RefreshToken (sampleEnvFailing .UserGetByID 100 11 "s1")
        (sampleStore (sampleUser true 0 none) [sampleToken 10 "s0" false])
        "s0" "10.0.0.2" "wget").2.refreshTokens :=
  (C13_rotation_revokes_before_it_can_fail sampleService
    (sampleEnvFailing .UserGetByID 100 11 "s1")
    (sampleStore (sampleUser true 0 none) [sampleToken 10 "s0" false])
    "s0" "10.0.0.2" "wget" (sampleToken 10 "s0" false) rfl rfl (by decide) rfl).1

/-! ## Concurrent rotation -/

/-- The step-by-step reading of `RefreshToken` agrees with the method: run
alone, a call has returned after at most five store operations, with the
result and the store of `AuthService.RefreshToken`. -/
theorem refreshRun_eq_RefreshToken (s : AuthService) (env : Env) (st : Store)
    (tokenStr ip userAgent : String) :
    s.refreshRun env tokenStr ip userAgent 5 (.start, st) =
      (.done (s.RefreshToken env st tokenStr ip userAgent).1,
        (s.RefreshToken env st tokenStr ip userAgent).2) := by
  unfold AuthService.RefreshToken
  simp only [AuthService.refreshRun, AuthService.refreshStep]
  cases hlook : TokenRepository.GetRefreshTokenByHash env st (s.utils.HashToken tokenStr) with
  | error err => simp [AuthService.refreshStep]
  | ok oldToken =>
    simp only []
    cases hrev : oldToken.Revoked with
    | true => simp [AuthService.refreshStep]
    | false =>
      by_cases hexp : env.now > oldToken.ExpiresAt
      · simp [hexp, AuthService.refreshStep]
      · simp only [hexp, Bool.false_eq_true, if_false, AuthService.refreshStep]
        cases hgid : UserRepository.GetByID env
            (TokenRepository.RevokeRefreshToken env st oldToken.ID).2 oldToken.UserID with
        | error err => simp [AuthService.refreshStep]
        | ok user =>
          simp only [AuthService.refreshStep]
          cases hsign : s.utils.GenerateToken user.ID user.Email
              (roleNamesFor env (TokenRepository.RevokeRefreshToken env st oldToken.ID).2
                user.ID) env.now with
          | error err => simp
          | ok accessToken =>
            simp only []
            cases hcreate : TokenRepository.CreateRefreshToken env
                (TokenRepository.RevokeRefreshToken env st oldToken.ID).2
                { ID := env.tokenID
                  UserID := user.ID
                  TokenHash := s.utils.HashToken env.randomToken
                  IssuedAt := env.now
                  ExpiresAt := env.now + s.cfg.RefreshTokenExpiry
                  Revoked := false
                  UserAgent := userAgent
                  IPAddress := ip } with
            | mk err st2 =>
              cases err <;> simp

/-- The lookup of an e-mail token after its row has been marked used. -/
theorem find_emailToken_after_mark (rows : List EmailToken) (hash : String)
    (tokenType : EmailTokenType) (token : EmailToken)
    (hfind : rows.find? (fun t => decide (t.TokenHash = hash) &&
      decide (t.TokenType = tokenType)) = some token) :
    (rows.map fun t => if t.ID = token.ID then { t with Used := true } else t).find?
        (fun t => decide (t.TokenHash = hash) && decide (t.TokenType = tokenType)) =
      some { token with Used := true } := by
  rw [find?_map_of_stable rows _ _ _ token hfind]
  · simp
  · intro x
    by_cases hx : x.ID = token.ID <;> simp [hx]

theorem VerifyEmail_ok (s : AuthService) (env : Env) (st : Store)
    (tokenStr ip userAgent : String) (token : EmailToken)
    (htoken : TokenRepository.GetEmailTokenByHash env st (s.utils.HashToken tokenStr)
      .Verify = .ok token)
    (hunused : token.Used = false) (hunexpired : ¬ env.now > token.ExpiresAt)
    (hmark : env.fault .TokenMarkEmailTokenUsed = none)
    (hset : env.fault .UserSetVerified = none) :
    s.VerifyEmail env st tokenStr ip userAgent =
      (none,
        (AuditService.LogEvent env
          { st with
            emailTokens := st.emailTokens.map fun t =>
              if t.ID = token.ID then { t with Used := true } else t
            users := st.users.map fun u =>
              if u.ID = token.UserID then { u with IsVerified := true, UpdatedAt := env.now }
              else u }
          .EmailVerified (some token.UserID) "null" ip userAgent).2) := by
  unfold AuthService.VerifyEmail
  simp [htoken, hunused, hunexpired, TokenRepository.MarkEmailTokenUsed,
    UserRepository.SetVerified, execStmt, hmark, hset]

/-- A `VerifyEmail` whose lookup fails or finds a used token. -/
theorem VerifyEmail_rejects_used (s : AuthService) (env : Env) (st : Store)
    (tokenStr ip userAgent : String)
    (hused : ∀ token, st.emailTokens.find? (fun t =>
      decide (t.TokenHash = s.utils.HashToken tokenStr) &&
        decide (t.TokenType = .Verify)) = some token → token.Used = true) :
    s.VerifyEmail env st tokenStr ip userAgent = (some .ErrInvalidToken, st) := by
  cases hlook : TokenRepository.GetEmailTokenByHash env st (s.utils.HashToken tokenStr)
      .Verify with
  | error err =>
    unfold AuthService.VerifyEmail
    simp [hlook]
  | ok token =>
    obtain ⟨_, hfind⟩ := (queryRow_eq_ok env .TokenGetEmailTokenByHash _ _ token).mp hlook
    unfold AuthService.VerifyEmail
    simp [hlook, hused token hfind]

/-- C15: for an unused, unexpired token of kind verify owned by user `u`, the
first `VerifyEmail` with its secret succeeds (its two `UPDATE` statements being
executed), sets the verified flag of `u` and marks the token used; a later
`VerifyEmail` with the same secret, at whatever instant, returns
`ErrInvalidToken` and leaves the store as it is. -/
theorem C15_verify_token_is_single_use (s : AuthService) (env₁ env₂ : Env) (st : Store)
    (secret ip₁ userAgent₁ ip₂ userAgent₂ : String) (token : EmailToken)
    (htoken : TokenRepository.GetEmailTokenByHash env₁ st (s.utils.HashToken secret)
      .Verify = .ok token)
    (hunused : token.Used = false) (hunexpired : ¬ env₁.now > token.ExpiresAt)
    (hmark : env₁.fault .TokenMarkEmailTokenUsed = none)
    (hset : env₁.fault .UserSetVerified = none) :
    (s.VerifyEmail env₁ st secret ip₁ userAgent₁).1 = none ∧
      (s.VerifyEmail env₁ st secret ip₁ userAgent₁).2.users =
        (st.users.map fun u =>
          if u.ID = token.UserID then { u with IsVerified := true, UpdatedAt := env₁.now }
          else u) ∧
      (∀ u ∈ (s.VerifyEmail env₁ st secret ip₁ userAgent₁).2.users,
        u.ID = token.UserID → u.IsVerified = true) ∧
      (s.VerifyEmail env₁ st secret ip₁ userAgent₁).2.emailTokens.find?
          (fun t => decide (t.TokenHash = s.utils.HashToken secret) &&
            decide (t.TokenType = .Verify)) = some { token with Used := true } ∧
      s.VerifyEmail env₂ (s.VerifyEmail env₁ st secret ip₁ userAgent₁).2 secret ip₂
          userAgent₂ =
        (some .ErrInvalidToken, (s.VerifyEmail env₁ st secret ip₁ userAgent₁).2) := by
  obtain ⟨_, hfind⟩ := (queryRow_eq_ok env₁ .TokenGetEmailTokenByHash _ _ token).mp htoken
  have hfirst := VerifyEmail_ok s env₁ st secret ip₁ userAgent₁ token htoken hunused
    hunexpired hmark hset
  have husers := (LogEvent_users env₁
    { st with
      emailTokens := st.emailTokens.map fun t =>
        if t.ID = token.ID then { t with Used := true } else t
      users := st.users.map fun u =>
        if u.ID = token.UserID then { u with IsVerified := true, UpdatedAt := env₁.now }
        else u }
    .EmailVerified (some token.UserID) "null" ip₁ userAgent₁)
  have hfind₁ : (s.VerifyEmail env₁ st secret ip₁ userAgent₁).2.emailTokens.find?
      (fun t => decide (t.TokenHash = s.utils.HashToken secret) &&
        decide (t.TokenType = .Verify)) = some { token with Used := true } := by
    rw [hfirst, husers.2.2]
    exact find_emailToken_after_mark st.emailTokens _ _ token hfind
  refine ⟨by rw [hfirst], by rw [hfirst, husers.1], ?_, hfind₁, ?_⟩
  · intro u hu hid
    rw [hfirst, husers.1] at hu
    obtain ⟨u₀, _, hu₀⟩ := List.mem_map.mp hu
    by_cases h₀ : u₀.ID = token.UserID
    · rw [if_pos h₀] at hu₀
      rw [← hu₀]
    · rw [if_neg h₀] at hu₀
      rw [hu₀] at h₀
      exact absurd hid h₀
  · apply VerifyEmail_rejects_used
    intro token' hfind'
    rw [hfind₁] at hfind'
    rw [← Option.some.inj hfind']

theorem C15_verify_token_is_single_use_witness :
    (sampleService.VerifyEmail (sampleEnv 100 7 "r")
        { sampleStore (sampleUser false 0 none) [] with
          emailTokens := [sampleEmailToken .Verify false] }
        "e0" "10.0.0.1" "curl").2.users = [{ sampleUser true 0 none with UpdatedAt := 100 }] ∧
      sampleService.VerifyEmail (sampleEnv 200 8 "r")
          (sampleService.VerifyEmail (sampleEnv 100 7 "r")
            { sampleStore (sampleUser false 0 none) [] with
              emailTokens := [sampleEmailToken .Verify false] }
            "e0" "10.0.0.1" "curl").2 "e0" "10.0.0.1" "curl" =
        (some .ErrInvalidToken,
          (sampleService.VerifyEmail (sampleEnv 100 7 "r")
            { sampleStore (sampleUser false 0 none) [] with
              emailTokens := [sampleEmailToken .Verify false] }
            "e0" "10.0.0.1" "curl").2) :=
  have h := C15_verify_token_is_single_use sampleService (sampleEnv 100 7 "r")
    (sampleEnv 200 8 "r")
    { sampleStore (sampleUser false 0 none) [] with
      emailTokens := [sampleEmailToken .Verify false] }
    "e0" "10.0.0.1" "curl" "10.0.0.1" "curl" (sampleEmailToken .Verify false)
    rfl rfl (by decide) rfl rfl
  ⟨h.2.1.trans rfl, h.2.2.2.2⟩

/-! ## Password reset -/

/-- What a successful `ResetPassword` has done. -/
theorem ResetPassword_ok (s : AuthService) (env : Env) (st : Store)
    (tokenStr newPassword ip userAgent : String)
    (hok : (s.ResetPassword env st tokenStr newPassword ip userAgent).1 = none) :
    ∃ (token : EmailToken) (passwordHash : String),
      TokenRepository.GetEmailTokenByHash env st (s.utils.HashToken tokenStr) .Reset =
        .ok token ∧
      token.Used = false ∧ ¬ env.now > token.ExpiresAt ∧
      s.utils.HashPassword newPassword = .ok passwordHash ∧
      env.fault .UserUpdatePassword = none ∧
      (s.ResetPassword env st tokenStr newPassword ip userAgent).2 =
        (AuditService.LogEvent env
          (TokenRepository.RevokeAllUserTokens env
            (TokenRepository.MarkEmailTokenUsed env
              { st with users := st.users.map fun u =>
                  if u.ID = token.UserID then
                    { u with PasswordHash := passwordHash, UpdatedAt := env.now }
                  else u }
              token.ID).2
            token.UserID).2
          .PasswordReset (some token.UserID) "null" ip userAgent).2 := by
  by_cases hvalid : (ValidatePassword newPassword).1 = true
  · cases hlook : TokenRepository.GetEmailTokenByHash env st (s.utils.HashToken tokenStr)
        .Reset with
    | error err =>
      unfold AuthService.ResetPassword at hok
      simp [hvalid, hlook] at hok
    | ok token =>
      by_cases hstale : (token.Used || decide (env.now > token.ExpiresAt)) = true
      · unfold AuthService.ResetPassword at hok
        simp only [hvalid, hlook, hstale] at hok
        simp at hok
      · cases hhash : s.utils.HashPassword newPassword with
        | error err =>
          unfold AuthService.ResetPassword at hok
          simp only [hvalid, hlook, hstale, hhash] at hok
          simp at hok
        | ok passwordHash =>
          cases hupd : env.fault .UserUpdatePassword with
          | some msg =>
            unfold AuthService.ResetPassword at hok
            simp only [hvalid, hlook, hstale, hhash, UserRepository.UpdatePassword, execStmt,
              hupd] at hok
            simp at hok
          | none =>
            have hu : token.Used = false := by
              cases h : token.Used with
              | false => rfl
              | true => simp [h] at hstale
            have he : ¬ env.now > token.ExpiresAt := by
              intro h
              simp [h] at hstale
            refine ⟨token, passwordHash, rfl, hu, he, rfl, rfl, ?_⟩
            unfold AuthService.ResetPassword
            simp only [hvalid, hlook, hstale, hhash, UserRepository.UpdatePassword, execStmt,
              hupd]
            simp
  · unfold AuthService.ResetPassword at hok
    simp [hvalid] at hok

theorem MarkEmailTokenUsed_frame (env : Env) (st : Store) (id : UUID) :
    (TokenRepository.MarkEmailTokenUsed env st id).2.users = st.users ∧
      (TokenRepository.MarkEmailTokenUsed env st id).2.refreshTokens = st.refreshTokens := by
  unfold TokenRepository.MarkEmailTokenUsed execStmt
  cases env.fault .TokenMarkEmailTokenUsed <;> simp

theorem RevokeAllUserTokens_frame (env : Env) (st : Store) (userID : UUID) :
    (TokenRepository.RevokeAllUserTokens env st userID).2.users = st.users ∧
      (TokenRepository.RevokeAllUserTokens env st userID).2.emailTokens = st.emailTokens := by
  unfold TokenRepository.RevokeAllUserTokens execStmt
  cases env.fault .TokenRevokeAllUserTokens <;> simp

/-- After a successful `ResetPassword` with a reset token of user `u`
(the revoke-all statement being executed), every row of `u` in the user table
carries the hash computed from the new password and every refresh token of `u`
is revoked; the rows of other users, in both tables, are as before. -/
theorem ResetPassword_hash_and_sessions (s : AuthService) (env : Env) (st : Store)
    (secret newPassword ip userAgent : String) (token : EmailToken)
    (htoken : TokenRepository.GetEmailTokenByHash env st (s.utils.HashToken secret) .Reset =
      .ok token)
    (hok : (s.ResetPassword env st secret newPassword ip userAgent).1 = none)
    (hrevokeAll : env.fault .TokenRevokeAllUserTokens = none) :
    ∃ passwordHash, s.utils.HashPassword newPassword = .ok passwordHash ∧
      (s.ResetPassword env st secret newPassword ip userAgent).2.users =
        (st.users.map fun u =>
          if u.ID = token.UserID then
            { u with PasswordHash := passwordHash, UpdatedAt := env.now }
          else u) ∧
      (s.ResetPassword env st secret newPassword ip userAgent).2.refreshTokens =
        (st.refreshTokens.map fun t =>
          if t.UserID = token.UserID then { t with Revoked := true } else t) ∧
      (∀ u ∈ (s.ResetPassword env st secret newPassword ip userAgent).2.users,
        u.ID = token.UserID → u.PasswordHash = passwordHash) ∧
      (∀ t ∈ (s.ResetPassword env st secret newPassword ip userAgent).2.refreshTokens,
        t.UserID = token.UserID → t.Revoked = true) := by
  obtain ⟨token', passwordHash, hlook, _, _, hhash, _, hst⟩ :=
    ResetPassword_ok s env st secret newPassword ip userAgent hok
  have hsame : token' = token := by
    rw [hlook] at htoken
    exact Except.ok.inj htoken
  subst hsame
  have husers : (s.ResetPassword env st secret newPassword ip userAgent).2.users =
      (st.users.map fun u =>
        if u.ID = token'.UserID then
          { u with PasswordHash := passwordHash, UpdatedAt := env.now }
        else u) := by
    rw [hst, (LogEvent_users env _ _ _ _ _ _).1, (RevokeAllUserTokens_frame env _ _).1,
      (MarkEmailTokenUsed_frame env _ _).1]
  have htokens : (s.ResetPassword env st secret newPassword ip userAgent).2.refreshTokens =
      (st.refreshTokens.map fun t =>
        if t.UserID = token'.UserID then { t with Revoked := true } else t) := by
    rw [hst, (LogEvent_users env _ _ _ _ _ _).2.1]
    simp only [TokenRepository.RevokeAllUserTokens, execStmt, hrevokeAll]
    rw [(MarkEmailTokenUsed_frame env _ _).2]
  refine ⟨passwordHash, hhash, husers, htokens, ?_, ?_⟩
  · intro u hu hid
    rw [husers] at hu
    obtain ⟨u₀, _, hu₀⟩ := List.mem_map.mp hu
    by_cases h₀ : u₀.ID = token'.UserID
    · rw [if_pos h₀] at hu₀
      rw [← hu₀]
    · rw [if_neg h₀] at hu₀
      rw [hu₀] at h₀
      exact absurd hid h₀
  · intro t ht hid
    rw [htokens] at ht
    obtain ⟨t₀, _, ht₀⟩ := List.mem_map.mp ht
    by_cases h₀ : t₀.UserID = token'.UserID
    · rw [if_pos h₀] at ht₀
      rw [← ht₀]
    · rw [if_neg h₀] at ht₀
      rw [ht₀] at h₀
      exact absurd hid h₀

theorem ResetPassword_hash_and_sessions_example :
    ∃ passwordHash, sampleUtils.HashPassword "N3wPassword" = .ok passwordHash ∧
      (sampleService.ResetPassword (sampleEnv 100 7 "r")
        { sampleStore (sampleUser true 0 none) [sampleToken 10 "s0" false] with
          emailTokens := [sampleEmailToken .Reset false] }
        "e0" "N3wPassword" "10.0.0.1" "curl").2.users =
        [{ sampleUser true 0 none with PasswordHash := passwordHash, UpdatedAt := 100 }] ∧
      (sampleService.ResetPassword (sampleEnv 100 7 "r")
        { sampleStore (sampleUser true 0 none) [sampleToken 10 "s0" false] with
          emailTokens := [sampleEmailToken .Reset false] }
        "e0" "N3wPassword" "10.0.0.1" "curl").2.refreshTokens = [sampleToken 10 "s0" true] :=
  have h := ResetPassword_hash_and_sessions sampleService (sampleEnv 100 7 "r")
    { sampleStore (sampleUser true 0 none) [sampleToken 10 "s0" false] with
      emailTokens := [sampleEmailToken .Reset false] }
    "e0" "N3wPassword" "10.0.0.1" "curl" (sampleEmailToken .Reset false) rfl rfl rfl
  h.elim fun passwordHash hp => ⟨passwordHash, hp.1, hp.2.1.trans rfl, hp.2.2.1.trans rfl⟩

/-- C16 (the code departs from the claim): `ResetPassword` discards the error
of `RevokeAllUserTokens`.  With that statement failing in the driver the reset
returns `nil` and stores the new hash, and the refresh token of the user is
still live afterwards.  `Logout`, which sends the same statement, returns its
error. -/
theorem C16_reset_succeeds_with_sessions_live :
    (sampleService.ResetPassword (sampleEnvFailing .TokenRevokeAllUserTokens 100 7 "r")
        { sampleStore (sampleUser true 0 none) [sampleToken 10 "s0" false] with
          emailTokens := [sampleEmailToken .Reset false] }
        "e0" "N3wPassword" "10.0.0.1" "curl").1 = none ∧
      (sampleService.ResetPassword (sampleEnvFailing .TokenRevokeAllUserTokens 100 7 "r")
        { sampleStore (sampleUser true 0 none) [sampleToken 10 "s0" false] with
          emailTokens := [sampleEmailToken .Reset false] }
        "e0" "N3wPassword" "10.0.0.1" "curl").2.users =
        [{ sampleUser true 0 none with PasswordHash := "bcrypt:N3wPassword", UpdatedAt := 100 }] ∧
      (sampleService.ResetPassword (sampleEnvFailing .TokenRevokeAllUserTokens 100 7 "r")
        { sampleStore (sampleUser true 0 none) [sampleToken 10 "s0" false] with
          emailTokens := [sampleEmailToken .Reset false] }
        "e0" "N3wPassword" "10.0.0.1" "curl").2.refreshTokens = [sampleToken 10 "s0" false] ∧
      sampleService.Logout (sampleEnvFailing .TokenRevokeAllUserTokens 100 7 "r")
        (sampleStore (sampleUser true 0 none) [sampleToken 10 "s0" false]) 1 "10.0.0.1" "curl" =
        (some (.driver "connection reset"),
          sampleStore (sampleUser true 0 none) [sampleToken 10 "s0" false]) :=
  ⟨rfl, rfl, rfl, rfl⟩

/-- A `ResetPassword` whose lookup fails or finds a used token. -/
theorem ResetPassword_rejects_used (s : AuthService) (env : Env) (st : Store)
    (tokenStr newPassword ip userAgent : String)
    (hpolicy : (ValidatePassword newPassword).1 = true)
    (hused : ∀ token, st.emailTokens.find? (fun t =>
      decide (t.TokenHash = s.utils.HashToken tokenStr) &&
        decide (t.TokenType = .Reset)) = some token → token.Used = true) :
    s.ResetPassword env st tokenStr newPassword ip userAgent = (some .ErrInvalidToken, st) := by
  cases hlook : TokenRepository.GetEmailTokenByHash env st (s.utils.HashToken tokenStr)
      .Reset with
  | error err =>
    unfold AuthService.ResetPassword
    simp [hpolicy, hlook]
  | ok token =>
    obtain ⟨_, hfind⟩ := (queryRow_eq_ok env .TokenGetEmailTokenByHash _ _ token).mp hlook
    unfold AuthService.ResetPassword
    simp [hpolicy, hlook, hused token hfind]

/-- Once `ResetPassword` with a secret has succeeded (its mark-used
statement being executed), a later `ResetPassword` with the same secret and
any policy-compliant new password, at whatever instant, returns
`ErrInvalidToken` and leaves the store, hence every stored password hash, as
it is. -/
theorem ResetPassword_single_use_after_executed_mark (s : AuthService) (env₁ env₂ : Env)
    (st : Store)
    (secret password₁ password₂ ip₁ userAgent₁ ip₂ userAgent₂ : String)
    (hok : (s.ResetPassword env₁ st secret password₁ ip₁ userAgent₁).1 = none)
    (hmark : env₁.fault .TokenMarkEmailTokenUsed = none)
    (hpolicy : (ValidatePassword password₂).1 = true) :
    s.ResetPassword env₂ (s.ResetPassword env₁ st secret password₁ ip₁ userAgent₁).2 secret
        password₂ ip₂ userAgent₂ =
      (some .ErrInvalidToken, (s.ResetPassword env₁ st secret password₁ ip₁ userAgent₁).2) := by
  obtain ⟨token, passwordHash, hlook, _, _, _, _, hst⟩ :=
    ResetPassword_ok s env₁ st secret password₁ ip₁ userAgent₁ hok
  obtain ⟨_, hfind⟩ := (queryRow_eq_ok env₁ .TokenGetEmailTokenByHash _ _ token).mp hlook
  have hfind₁ : (s.ResetPassword env₁ st secret password₁ ip₁ userAgent₁).2.emailTokens.find?
      (fun t => decide (t.TokenHash = s.utils.HashToken secret) &&
        decide (t.TokenType = .Reset)) = some { token with Used := true } := by
    rw [hst, (LogEvent_users env₁ _ _ _ _ _ _).2.2, (RevokeAllUserTokens_frame env₁ _ _).2]
    simp only [TokenRepository.MarkEmailTokenUsed, execStmt, hmark]
    exact find_emailToken_after_mark st.emailTokens _ _ token hfind
  apply ResetPassword_rejects_used s env₂ _ secret password₂ ip₂ userAgent₂ hpolicy
  intro token' hfind'
  rw [hfind₁] at hfind'
  rw [← Option.some.inj hfind']

theorem ResetPassword_single_use_after_executed_mark_example :
    sampleService.ResetPassword (sampleEnv 200 8 "r")
        (sampleService.ResetPassword (sampleEnv 100 7 "r")
          { sampleStore (sampleUser true 0 none) [] with
            emailTokens := [sampleEmailToken .Reset false] }
          "e0" "N3wPassword" "10.0.0.1" "curl").2 "e0" "An0therPassword" "10.0.0.1" "curl" =
      (some .ErrInvalidToken,
        (sampleService.ResetPassword (sampleEnv 100 7 "r")
          { sampleStore (sampleUser true 0 none) [] with
            emailTokens := [sampleEmailToken .Reset false] }
          "e0" "N3wPassword" "10.0.0.1" "curl").2) :=
  ResetPassword_single_use_after_executed_mark sampleService (sampleEnv 100 7 "r")
    (sampleEnv 200 8 "r")
    { sampleStore (sampleUser true 0 none) [] with
      emailTokens := [sampleEmailToken .Reset false] }
    "e0" "N3wPassword" "An0therPassword" "10.0.0.1" "curl" "10.0.0.1" "curl"
    rfl rfl (by decide)

/-- C17 (the code departs from the claim): `ResetPassword` discards the error
of `MarkEmailTokenUsed`.  With that statement failing in the driver the reset
returns `nil` and the token stays unused; a later `ResetPassword` with the same
secret and another compliant password returns `nil` again, where the claim has
`ErrInvalidToken`, and replaces the stored hash.  `VerifyEmail`, which sends
the same statement, returns its error. -/
theorem C17_reset_token_is_accepted_twice :
    (sampleService.ResetPassword (sampleEnvFailing .TokenMarkEmailTokenUsed 100 7 "r")
        { sampleStore (sampleUser true 0 none) [] with
          emailTokens := [sampleEmailToken .Reset false] }
        "e0" "N3wPassword" "10.0.0.1" "curl").1 = none ∧
      (sampleService.ResetPassword (sampleEnvFailing .TokenMarkEmailTokenUsed 100 7 "r")
        { sampleStore (sampleUser true 0 none) [] with
          emailTokens := [sampleEmailToken .Reset false] }
        "e0" "N3wPassword" "10.0.0.1" "curl").2.emailTokens = [sampleEmailToken .Reset false] ∧
      (sampleService.ResetPassword (sampleEnv 200 8 "r")
        (sampleService.ResetPassword (sampleEnvFailing .TokenMarkEmailTokenUsed 100 7 "r")
          { sampleStore (sampleUser true 0 none) [] with
            emailTokens := [sampleEmailToken .Reset false] }
          "e0" "N3wPassword" "10.0.0.1" "curl").2
        "e0" "An0therPassword" "10.0.0.1" "curl").1 = none ∧
      (sampleService.ResetPassword (sampleEnv 200 8 "r")
        (sampleService.ResetPassword (sampleEnvFailing .TokenMarkEmailTokenUsed 100 7 "r")
          { sampleStore (sampleUser true 0 none) [] with
            emailTokens := [sampleEmailToken .Reset false] }
          "e0" "N3wPassword" "10.0.0.1" "curl").2
        "e0" "An0therPassword" "10.0.0.1" "curl").2.users =
        [{ sampleUser true 0 none with
           PasswordHash := "bcrypt:An0therPassword", UpdatedAt := 200 }] ∧
      sampleService.VerifyEmail (sampleEnvFailing .TokenMarkEmailTokenUsed 100 7 "r")
        { sampleStore (sampleUser false 0 none) [] with
          emailTokens := [sampleEmailToken .Verify false] }
        "e0" "10.0.0.1" "curl" =
        (some (.driver "connection reset"),
          { sampleStore (sampleUser false 0 none) [] with
            emailTokens := [sampleEmailToken .Verify false] }) :=
  ⟨rfl, rfl, rfl, rfl, rfl⟩

/-! ## Sessions: change of password, logout -/

theorem UpdatePassword_refreshTokens (env : Env) (st : Store) (userID : UUID)
    (passwordHash : String) :
    (UserRepository.UpdatePassword env st userID passwordHash).2.refreshTokens =
      st.refreshTokens := by
  unfold UserRepository.UpdatePassword execStmt
  cases env.fault .UserUpdatePassword <;> simp

/-- C18: `ChangePassword` leaves the refresh-token table exactly as it was, for
every user id, old and new password, whatever the call returns and whichever
statements fail: the records and their revoked flags are the same, so sessions
that were live stay live. -/
theorem C18_change_password_keeps_sessions (s : UserService) (env : Env) (st : Store)
    (userID : UUID) (oldPassword newPassword ip userAgent : String) :
    (s.ChangePassword env st userID oldPassword newPassword ip userAgent).2.refreshTokens =
      st.refreshTokens := by
  unfold UserService.ChangePassword
  cases UserRepository.GetByID env st userID with
  | error err => rfl
  | ok user =>
    simp only []
    by_cases hold : s.utils.CheckPassword oldPassword user.PasswordHash = true
    · by_cases hvalid : (ValidatePassword newPassword).1 = true
      · simp only [hold, hvalid, Bool.not_true, Bool.false_eq_true, if_false]
        cases s.utils.HashPassword newPassword with
        | error err => rfl
        | ok passwordHash =>
          simp only []
          have hframe := UpdatePassword_refreshTokens env st userID passwordHash
          cases hupd : UserRepository.UpdatePassword env st userID passwordHash with
          | mk err st1 =>
            rw [hupd] at hframe
            cases err with
            | some e => exact hframe
            | none =>
              simp only []
              rw [(LogEvent_users env st1 _ _ _ _ _).2.1]
              exact hframe
      · simp [hold, hvalid]
    · simp [hold]

/-- C19: after a successful `Logout` of user `u` the refresh-token table is the
old one with every record of `u` revoked and the records of all other users
untouched; a later `RefreshToken` with a secret that resolves to a record of
`u` fails, with `ErrTokenRevoked` or `ErrInvalidToken`. -/
theorem C19_logout_revokes_all_sessions (s : AuthService) (env : Env) (st : Store)
    (userID : UUID) (ip userAgent : String)
    (hok : (s.Logout env st userID ip userAgent).1 = none) :
    (s.Logout env st userID ip userAgent).2.refreshTokens =
        (st.refreshTokens.map fun t =>
          if t.UserID = userID then { t with Revoked := true } else t) ∧
      (∀ t ∈ (s.Logout env st userID ip userAgent).2.refreshTokens,
        t.UserID = userID → t.Revoked = true) ∧
      (∀ (env₂ : Env) (secret ip₂ userAgent₂ : String) (record : RefreshToken),
        (s.Logout env st userID ip userAgent).2.refreshTokens.find?
          (fun t => decide (t.TokenHash = s.utils.HashToken secret)) = some record →
        record.UserID = userID →
        (s.RefreshToken env₂ (s.Logout env st userID ip userAgent).2 secret ip₂
            userAgent₂).1 = .error .ErrTokenRevoked ∨
          (s.RefreshToken env₂ (s.Logout env st userID ip userAgent).2 secret ip₂
            userAgent₂).1 = .error .ErrInvalidToken) := by
  have htable : (s.Logout env st userID ip userAgent).2.refreshTokens =
      (st.refreshTokens.map fun t =>
        if t.UserID = userID then { t with Revoked := true } else t) := by
    unfold AuthService.Logout TokenRepository.RevokeAllUserTokens execStmt at hok ⊢
    cases hf : env.fault .TokenRevokeAllUserTokens with
    | some msg => simp [hf] at hok
    | none =>
      simp only []
      rw [(LogEvent_users env _ _ _ _ _ _).2.1]
  have hrevoked : ∀ t ∈ (s.Logout env st userID ip userAgent).2.refreshTokens,
      t.UserID = userID → t.Revoked = true := by
    intro t ht hid
    rw [htable] at ht
    obtain ⟨t₀, _, ht₀⟩ := List.mem_map.mp ht
    by_cases h₀ : t₀.UserID = userID
    · rw [if_pos h₀] at ht₀
      rw [← ht₀]
    · rw [if_neg h₀] at ht₀
      rw [ht₀] at h₀
      exact absurd hid h₀
  refine ⟨htable, hrevoked, ?_⟩
  intro env₂ secret ip₂ userAgent₂ record hfind hid
  have hrec : record.Revoked = true :=
    hrevoked record (List.mem_of_find?_eq_some hfind) hid
  cases hlook : TokenRepository.GetRefreshTokenByHash env₂
      (s.Logout env st userID ip userAgent).2 (s.utils.HashToken secret) with
  | error err =>
    right
    rw [RefreshToken_lookup_error s env₂ _ secret ip₂ userAgent₂ err hlook]
  | ok record' =>
    left
    obtain ⟨_, hfind'⟩ :=
      (queryRow_eq_ok env₂ .TokenGetRefreshTokenByHash _ _ record').mp hlook
    rw [hfind] at hfind'
    have hsame : record = record' := Option.some.inj hfind'
    subst hsame
    rw [RefreshToken_revoked s env₂ _ secret ip₂ userAgent₂ record hlook hrec]

theorem C19_logout_revokes_all_sessions_witness :
    (sampleService.Logout (sampleEnv 100 7 "r")
        (sampleStore (sampleUser true 0 none)
          [sampleToken 10 "s0" false, { sampleToken 11 "other" false with UserID := 2 }])
        1 "10.0.0.1" "curl").2.refreshTokens =
        [sampleToken 10 "s0" true, { sampleToken 11 "other" false with UserID := 2 }] ∧
      ((sampleService.RefreshToken (sampleEnv 200 12 "s2")
          (sampleService.Logout (sampleEnv 100 7 "r")
            (sampleStore (sampleUser true 0 none)
              [sampleToken 10 "s0" false, { sampleToken 11 "other" false with UserID := 2 }])
            1 "10.0.0.1" "curl").2 "s0" "10.0.0.1" "curl").1 = .error .ErrTokenRevoked ∨
        (sampleService.RefreshToken (sampleEnv 200 12 "s2")
          (sampleService.Logout (sampleEnv 100 7 "r")
            (sampleStore (sampleUser true 0 none)
              [sampleToken 10 "s0" false, { sampleToken 11 "other" false with UserID := 2 }])
            1 "10.0.0.1" "curl").2 "s0" "10.0.0.1" "curl").1 = .error .ErrInvalidToken) :=
  have h := C19_logout_revokes_all_sessions sampleService (sampleEnv 100 7 "r")
    (sampleStore (sampleUser true 0 none)
      [sampleToken 10 "s0" false, { sampleToken 11 "other" false with UserID := 2 }])
    1 "10.0.0.1" "curl" rfl
  ⟨h.1.trans rfl,
    h.2.2 (sampleEnv 200 12 "s2") "s0" "10.0.0.1" "curl" (sampleToken 10 "s0" true) rfl rfl⟩

/-! ## Registration -/

theorem assignDefaultRole_frame (env : Env) (st : Store) (userID : UUID) :
    (assignDefaultRole env st userID).users = st.users ∧
      (assignDefaultRole env st userID).emailTokens = st.emailTokens := by
  unfold assignDefaultRole
  cases RoleRepository.GetByName env st "user" with
  | error err => exact ⟨rfl, rfl⟩
  | ok defaultRole =>
    simp only [RoleRepository.AssignRoleToUser, execStmt]
    cases env.fault .RoleAssignRoleToUser with
    | some msg => exact ⟨rfl, rfl⟩
    | none =>
      simp only []
      split <;> exact ⟨rfl, rfl⟩

theorem CreateEmailToken_users (env : Env) (st : Store) (token : EmailToken) :
    (TokenRepository.CreateEmailToken env st token).2.users = st.users := by
  unfold TokenRepository.CreateEmailToken execStmt
  cases env.fault .TokenCreateEmailToken <;> rfl

/-- The path of `Register` on which every check passes and the user row is
inserted. -/
theorem Register_success (s : AuthService) (env : Env) (st : Store) (req : RegisterRequest)
    (ip userAgent : String) (err : Err) (passwordHash : String)
    (hemail : ValidateEmail (SanitizeEmail s.utils.ToLower s.utils.TrimSpace req.Email) = true)
    (hpolicy : (ValidatePassword req.Password).1 = true)
    (hlook : UserRepository.GetByEmail env st
      (SanitizeEmail s.utils.ToLower s.utils.TrimSpace req.Email) = .error err)
    (hhash : s.utils.HashPassword req.Password = .ok passwordHash)
    (hcreate : env.fault .UserCreate = none) :
    s.Register env st req ip userAgent =
      (.ok { ID := env.userID
             Email := SanitizeEmail s.utils.ToLower s.utils.TrimSpace req.Email
             PasswordHash := passwordHash
             DisplayName := req.DisplayName
             IsActive := true
             IsVerified := false
             CreatedAt := env.now
             UpdatedAt := env.now
             LastLoginAt := none
             FailedLoginCount := 0
             LockedUntil := none },
        (AuditService.LogEvent env
          { (TokenRepository.CreateEmailToken env
              (assignDefaultRole env
                { st with users := st.users ++
                    [usersColumnDefaults
                      { ID := env.userID
                        Email := SanitizeEmail s.utils.ToLower s.utils.TrimSpace req.Email
                        PasswordHash := passwordHash
                        DisplayName := req.DisplayName
                        IsActive := true
                        IsVerified := false
                        CreatedAt := env.now
                        UpdatedAt := env.now
                        LastLoginAt := none
                        FailedLoginCount := 0
                        LockedUntil := none }] }
                env.userID)
              { ID := env.tokenID
                UserID := env.userID
                TokenHash := s.utils.HashToken env.randomToken
                TokenType := .Verify
                ExpiresAt := env.now + Hour
                Used := false }).2 with
            outbox := (TokenRepository.CreateEmailToken env
              (assignDefaultRole env
                { st with users := st.users ++
                    [usersColumnDefaults
                      { ID := env.userID
                        Email := SanitizeEmail s.utils.ToLower s.utils.TrimSpace req.Email
                        PasswordHash := passwordHash
                        DisplayName := req.DisplayName
                        IsActive := true
                        IsVerified := false
                        CreatedAt := env.now
                        UpdatedAt := env.now
                        LastLoginAt := none
                        FailedLoginCount := 0
                        LockedUntil := none }] }
                env.userID)
              { ID := env.tokenID
                UserID := env.userID
                TokenHash := s.utils.HashToken env.randomToken
                TokenType := .Verify
                ExpiresAt := env.now + Hour
                Used := false }).2.outbox ++
              [{ isReset := false
                 recipient := SanitizeEmail s.utils.ToLower s.utils.TrimSpace req.Email
                 displayName := req.DisplayName
                 token := env.randomToken }] }
          .Register (some env.userID)
          ("\x7b\"email\":\"" ++ SanitizeEmail s.utils.ToLower s.utils.TrimSpace req.Email ++
            "\"\x7d") ip userAgent).2) := by
  unfold AuthService.Register
  simp only [hemail, hpolicy, hlook, hhash, UserRepository.Create, execStmt, hcreate,
    Bool.not_true, Bool.false_eq_true, if_false]

/-- What a successful `Register` has done: the address passed validation and
its lookup returned no user, the password was hashed, and the user row with
the column defaults was appended; when the token `INSERT` is executed, one
verify token is appended as well. -/
theorem Register_ok (s : AuthService) (env : Env) (st : Store) (req : RegisterRequest)
    (ip userAgent : String) (user : User)
    (hok : (s.Register env st req ip userAgent).1 = .ok user) :
    (∃ err, UserRepository.GetByEmail env st
        (SanitizeEmail s.utils.ToLower s.utils.TrimSpace req.Email) = .error err) ∧
      s.utils.HashPassword req.Password = .ok user.PasswordHash ∧
      user =
        { ID := env.userID
          Email := SanitizeEmail s.utils.ToLower s.utils.TrimSpace req.Email
          PasswordHash := user.PasswordHash
          DisplayName := req.DisplayName
          IsActive := true
          IsVerified := false
          CreatedAt := env.now
          UpdatedAt := env.now
          LastLoginAt := none
          FailedLoginCount := 0
          LockedUntil := none } ∧
      (s.Register env st req ip userAgent).2.users = st.users ++ [usersColumnDefaults user] ∧
      (env.fault .TokenCreateEmailToken = none →
        (s.Register env st req ip userAgent).2.emailTokens =
          st.emailTokens ++
            [{ ID := env.tokenID
               UserID := env.userID
               TokenHash := s.utils.HashToken env.randomToken
               TokenType := .Verify
               ExpiresAt := env.now + Hour
               Used := false }]) := by
  by_cases hemail :
      ValidateEmail (SanitizeEmail s.utils.ToLower s.utils.TrimSpace req.Email) = true
  · by_cases hpolicy : (ValidatePassword req.Password).1 = true
    · cases hlook : UserRepository.GetByEmail env st
          (SanitizeEmail s.utils.ToLower s.utils.TrimSpace req.Email) with
      | ok existing =>
        unfold AuthService.Register at hok
        simp [hemail, hpolicy, hlook] at hok
      | error err =>
        cases hhash : s.utils.HashPassword req.Password with
        | error err' =>
          unfold AuthService.Register at hok
          simp [hemail, hpolicy, hlook, hhash] at hok
        | ok passwordHash =>
          cases hcreate : env.fault .UserCreate with
          | some msg =>
            unfold AuthService.Register at hok
            simp [hemail, hpolicy, hlook, hhash, UserRepository.Create, execStmt,
              hcreate] at hok
          | none =>
            have hreg := Register_success s env st req ip userAgent err passwordHash hemail
              hpolicy hlook hhash hcreate
            rw [hreg] at hok ⊢
            have huser := (Except.ok.inj hok).symm
            subst huser
            refine ⟨⟨err, rfl⟩, rfl, rfl, ?_, ?_⟩
            · rw [(LogEvent_users env _ _ _ _ _ _).1]
              show (TokenRepository.CreateEmailToken env _ _).2.users = _
              rw [CreateEmailToken_users, (assignDefaultRole_frame env _ _).1]
            · intro htoken
              rw [(LogEvent_users env _ _ _ _ _ _).2.2]
              show (TokenRepository.CreateEmailToken env _ _).2.emailTokens = _
              simp only [TokenRepository.CreateEmailToken, execStmt, htoken]
              rw [(assignDefaultRole_frame env _ _).2]
    · unfold AuthService.Register at hok
      simp [hemail, hpolicy] at hok
  · unfold AuthService.Register at hok
    simp [hemail] at hok

theorem find_none_of_queryRow_error {α : Type} (env : Env) (op : Op) (rows : List α)
    (p : α → Bool) (err : Err) (hf : env.fault op = none)
    (hq : queryRow env op rows p = .error err) :
    rows.find? p = none := by
  unfold queryRow at hq
  simp only [hf] at hq
  cases hr : rows.find? p with
  | none => rfl
  | some row => simp [hr] at hq

/-- A successful `Register` appends exactly one row to the user table:
its e-mail is the sanitized (trimmed, lower-cased) request address, it is
active, not verified, has failed-login counter 0 and no lock.  When the token
`INSERT` is executed it also appends exactly one e-mail token: unused, of kind
verify, owned by the new user, expiring one hour after `now`.  A `Login` on
the resulting store with the same address and the registered password (which
verifies against the stored hash) returns `ErrUserNotVerified`. -/
theorem Register_creates_unverified_user (s : AuthService) (env : Env) (st : Store)
    (req : RegisterRequest) (ip userAgent : String) (user : User)
    (hok : (s.Register env st req ip userAgent).1 = .ok user)
    (htoken : env.fault .TokenCreateEmailToken = none) :
    (s.Register env st req ip userAgent).2.users =
        st.users ++
          [{ ID := env.userID
             Email := SanitizeEmail s.utils.ToLower s.utils.TrimSpace req.Email
             PasswordHash := user.PasswordHash
             DisplayName := req.DisplayName
             IsActive := true
             IsVerified := false
             CreatedAt := env.now
             UpdatedAt := env.now
             LastLoginAt := none
             FailedLoginCount := 0
             LockedUntil := none }] ∧
      (s.Register env st req ip userAgent).2.emailTokens =
        st.emailTokens ++
          [{ ID := env.tokenID
             UserID := env.userID
             TokenHash := s.utils.HashToken env.randomToken
             TokenType := .Verify
             ExpiresAt := env.now + Hour
             Used := false }] ∧
      (∀ (env₂ : Env) (loginReq : LoginRequest) (ip₂ userAgent₂ : String),
        env.fault .UserGetByEmail = none → env₂.fault .UserGetByEmail = none →
        SanitizeEmail s.utils.ToLower s.utils.TrimSpace loginReq.Email =
          SanitizeEmail s.utils.ToLower s.utils.TrimSpace req.Email →
        loginReq.Password = req.Password →
        s.utils.CheckPassword req.Password user.PasswordHash = true →
        (s.Login env₂ (s.Register env st req ip userAgent).2 loginReq ip₂ userAgent₂).1 =
          .error .ErrUserNotVerified) := by
  obtain ⟨⟨err, hlook⟩, _, huser, husers, htokens⟩ :=
    Register_ok s env st req ip userAgent user hok
  have hrow : usersColumnDefaults user =
      { ID := env.userID
        Email := SanitizeEmail s.utils.ToLower s.utils.TrimSpace req.Email
        PasswordHash := user.PasswordHash
        DisplayName := req.DisplayName
        IsActive := true
        IsVerified := false
        CreatedAt := env.now
        UpdatedAt := env.now
        LastLoginAt := none
        FailedLoginCount := 0
        LockedUntil := none } := by
    conv => lhs; rw [huser]
    rfl
  rw [hrow] at husers
  refine ⟨husers, htokens htoken, ?_⟩
  intro env₂ loginReq ip₂ userAgent₂ hget hget₂ hsame hpassword hcheck
  have hnone := find_none_of_queryRow_error env .UserGetByEmail st.users _ err hget hlook
  have hfound : UserRepository.GetByEmail env₂ (s.Register env st req ip userAgent).2
      (SanitizeEmail s.utils.ToLower s.utils.TrimSpace loginReq.Email) =
      .ok { ID := env.userID
            Email := SanitizeEmail s.utils.ToLower s.utils.TrimSpace req.Email
            PasswordHash := user.PasswordHash
            DisplayName := req.DisplayName
            IsActive := true
            IsVerified := false
            CreatedAt := env.now
            UpdatedAt := env.now
            LastLoginAt := none
            FailedLoginCount := 0
            LockedUntil := none } := by
    unfold UserRepository.GetByEmail
    apply queryRow_of_find env₂ _ _ _ _ hget₂
    rw [husers, hsame, List.find?_append, hnone]
    simp
  rw [Login_not_verified s env₂ _ loginReq ip₂ userAgent₂ _ hfound rfl
    (by rw [hpassword]; exact hcheck) rfl]

theorem Register_creates_unverified_user_example :
    (sampleService.Register (sampleEnv 100 7 "e1")
        { sampleStore (sampleUser true 0 none) [] with users := [] }
        { Email := "  Bob@Example.COM ", Password := "Passw0rd!", DisplayName := "Bob" }
        "10.0.0.1" "curl").2.users =
        [{ ID := 507
           Email := "bob@example.com"
           PasswordHash := "bcrypt:Passw0rd!"
           DisplayName := "Bob"
           IsActive := true
           IsVerified := false
           CreatedAt := 100
           UpdatedAt := 100
           LastLoginAt := none
           FailedLoginCount := 0
           LockedUntil := none }] ∧
      (sampleService.Register (sampleEnv 100 7 "e1")
        { sampleStore (sampleUser true 0 none) [] with users := [] }
        { Email := "  Bob@Example.COM ", Password := "Passw0rd!", DisplayName := "Bob" }
        "10.0.0.1" "curl").2.emailTokens =
        [{ ID := 7, UserID := 507, TokenHash := "sha256:e1", TokenType := .Verify,
           ExpiresAt := 100 + Hour, Used := false }] ∧
      (sampleService.Login (sampleEnv 200 8 "r")
        (sampleService.Register (sampleEnv 100 7 "e1")
          { sampleStore (sampleUser true 0 none) [] with users := [] }
          { Email := "  Bob@Example.COM ", Password := "Passw0rd!", DisplayName := "Bob" }
          "10.0.0.1" "curl").2
        { Email := "bob@example.com", Password := "Passw0rd!" } "10.0.0.1" "curl").1 =
        .error .ErrUserNotVerified :=
  have h := Register_creates_unverified_user sampleService (sampleEnv 100 7 "e1")
    { sampleStore (sampleUser true 0 none) [] with users := [] }
    { Email := "  Bob@Example.COM ", Password := "Passw0rd!", DisplayName := "Bob" }
    "10.0.0.1" "curl"
    { ID := 507
      Email := "bob@example.com"
      PasswordHash := "bcrypt:Passw0rd!"
      DisplayName := "Bob"
      IsActive := true
      IsVerified := false
      CreatedAt := 100
      UpdatedAt := 100
      LastLoginAt := none
      FailedLoginCount := 0
      LockedUntil := none }
    rfl rfl
  ⟨h.1.trans rfl, h.2.1.trans rfl,
    h.2.2 (sampleEnv 200 8 "r") { Email := "bob@example.com", Password := "Passw0rd!" }
      "10.0.0.1" "curl" rfl rfl (by decide) rfl (by decide)⟩

/-- C20 (the code departs from the claim): `Register` discards the error of
`CreateEmailToken`.  With that `INSERT` failing in the driver the call returns
the new user and stores its row, no e-mail token is stored, and the secret `e1`
is mailed all the same, so that `VerifyEmail` with the mailed secret returns
`ErrInvalidToken`.  When the `INSERT` of the user row fails, the same method
does return the error. -/
theorem C20_register_succeeds_without_token :
    (sampleService.Register (sampleEnvFailing .TokenCreateEmailToken 100 7 "e1")
        { sampleStore (sampleUser true 0 none) [] with users := [] }
        { Email := "  Bob@Example.COM ", Password := "Passw0rd!", DisplayName := "Bob" }
        "10.0.0.1" "curl").1 =
        .ok { ID := 507
              Email := "bob@example.com"
              PasswordHash := "bcrypt:Passw0rd!"
              DisplayName := "Bob"
              IsActive := true
              IsVerified := false
              CreatedAt := 100
              UpdatedAt := 100
              LastLoginAt := none
              FailedLoginCount := 0
              LockedUntil := none } ∧
      (sampleService.Register (sampleEnvFailing .TokenCreateEmailToken 100 7 "e1")
        { sampleStore (sampleUser true 0 none) [] with users := [] }
        { Email := "  Bob@Example.COM ", Password := "Passw0rd!", DisplayName := "Bob" }
        "10.0.0.1" "curl").2.users.length = 1 ∧
      (sampleService.Register (sampleEnvFailing .TokenCreateEmailToken 100 7 "e1")
        { sampleStore (sampleUser true 0 none) [] with users := [] }
        { Email := "  Bob@Example.COM ", Password := "Passw0rd!", DisplayName := "Bob" }
        "10.0.0.1" "curl").2.emailTokens = [] ∧
      (sampleService.Register (sampleEnvFailing .TokenCreateEmailToken 100 7 "e1")
        { sampleStore (sampleUser true 0 none) [] with users := [] }
        { Email := "  Bob@Example.COM ", Password := "Passw0rd!", DisplayName := "Bob" }
        "10.0.0.1" "curl").2.outbox =
        [{ isReset := false, recipient := "bob@example.com", displayName := "Bob",
           token := "e1" }] ∧
      (sampleService.VerifyEmail (sampleEnv 200 8 "x")
        (sampleService.Register (sampleEnvFailing .TokenCreateEmailToken 100 7 "e1")
          { sampleStore (sampleUser true 0 none) [] with users := [] }
          { Email := "  Bob@Example.COM ", Password := "Passw0rd!", DisplayName := "Bob" }
          "10.0.0.1" "curl").2 "e1" "10.0.0.1" "curl").1 = some .ErrInvalidToken ∧
      (sampleService.Register (sampleEnvFailing .UserCreate 100 7 "e1")
        { sampleStore (sampleUser true 0 none) [] with users := [] }
        { Email := "  Bob@Example.COM ", Password := "Passw0rd!", DisplayName := "Bob" }
        "10.0.0.1" "curl").1 = .error (.driver "connection reset") :=
  ⟨rfl, rfl, rfl, rfl, rfl, rfl⟩

/-- C21: when the sanitized (trimmed, lower-cased) request address passes
e-mail validation, the password passes the policy, and the lookup of that
address finds an existing user, `Register` returns `ErrDuplicateEmail` and the
store is exactly as before: no user, no e-mail token and no audit event is
created. -/
theorem C21_register_rejects_duplicate_email (s : AuthService) (env : Env) (st : Store)
    (req : RegisterRequest) (ip userAgent : String) (existing : User)
    (hemail : ValidateEmail (SanitizeEmail s.utils.ToLower s.utils.TrimSpace req.Email) = true)
    (hpolicy : (ValidatePassword req.Password).1 = true)
    (hexisting : UserRepository.GetByEmail env st
      (SanitizeEmail s.utils.ToLower s.utils.TrimSpace req.Email) = .ok existing) :
    s.Register env st req ip userAgent = (.error .ErrDuplicateEmail, st) := by
  unfold AuthService.Register
  simp [hemail, hpolicy, hexisting]

theorem C21_register_rejects_duplicate_email_witness :
    sampleService.Register (sampleEnv 100 7 "e1") (sampleStore (sampleUser true 0 none) [])
        { Email := " ALICE@example.com  ", Password := "0therPassw0rd", DisplayName := "A2" }
        "10.0.0.1" "curl" =
      (.error .ErrDuplicateEmail, sampleStore (sampleUser true 0 none) []) :=
  C21_register_rejects_duplicate_email sampleService (sampleEnv 100 7 "e1")
    (sampleStore (sampleUser true 0 none) [])
    { Email := " ALICE@example.com  ", Password := "0therPassw0rd", DisplayName := "A2" }
    "10.0.0.1" "curl" (sampleUser true 0 none) (by decide) (by decide) rfl

/-! ## Lockout after expiry, precedence of the revoked check -/

/-- C28: the expiry of a lock does not touch the failed-login counter.  For a
user whose lock has expired (`LockedUntil` set, `now` not before it) and whose
counter is at least `MaxFailedLogins - 1`, a single `Login` with a wrong
password (the two `UPDATE` statements being executed) raises the counter by
one and sets `LockedUntil` to `now + LockDuration` again. -/
theorem C28_wrong_password_after_expiry_relocks (s : AuthService) (env : Env) (st : Store)
    (req : LoginRequest) (ip userAgent : String) (user : User) (t : Time)
    (hfound : UserRepository.GetByEmail env st
      (SanitizeEmail s.utils.ToLower s.utils.TrimSpace req.Email) = .ok user)
    (hlocked : user.LockedUntil = some t) (hexpired : t ≤ env.now)
    (hcount : s.cfg.MaxFailedLogins - 1 ≤ user.FailedLoginCount)
    (hwrong : s.utils.CheckPassword req.Password user.PasswordHash = false)
    (hinc : env.fault .UserIncrementFailedLogin = none)
    (hlock : env.fault .UserLockAccount = none) :
    (s.Login env st req ip userAgent).1 = .error .ErrInvalidCredentials ∧
      UserRepository.GetByEmail env (s.Login env st req ip userAgent).2
          (SanitizeEmail s.utils.ToLower s.utils.TrimSpace req.Email) =
        .ok { user with
          FailedLoginCount := user.FailedLoginCount + 1
          LockedUntil := some (env.now + s.cfg.LockDuration) } := by
  have hun : user.LockedUntil.any (fun t => decide (env.now < t)) = false := by
    simp [hlocked, hexpired]
  obtain ⟨hget, hfind⟩ := (queryRow_eq_ok env .UserGetByEmail st.users _ user).mp hfound
  have hth : user.FailedLoginCount + 1 ≥ s.cfg.MaxFailedLogins := by omega
  refine ⟨?_, ?_⟩
  · rw [Login_wrong_password s env st req ip userAgent user hfound hun hwrong]
  · have h := find_after_wrong_password s env st req ip userAgent user _ rfl hget hfind hun
      hwrong hinc hlock
    simp only [hth, if_true] at h
    exact queryRow_of_find env .UserGetByEmail _ _ _ hget h

theorem C28_wrong_password_after_expiry_relocks_witness :
    (sampleService.Login (sampleEnv 5000 7 "r") (sampleStore (sampleUser true 5 (some 100)) [])
        { Email := "alice@example.com", Password := "guess" } "10.0.0.1" "curl").1 =
        .error .ErrInvalidCredentials ∧
      UserRepository.GetByEmail (sampleEnv 5000 7 "r")
        (sampleService.Login (sampleEnv 5000 7 "r")
          (sampleStore (sampleUser true 5 (some 100)) [])
          { Email := "alice@example.com", Password := "guess" } "10.0.0.1" "curl").2
        "alice@example.com" =
        .ok (sampleUser true 6 (some (5000 + 15 * Minute))) :=
  C28_wrong_password_after_expiry_relocks sampleService (sampleEnv 5000 7 "r")
    (sampleStore (sampleUser true 5 (some 100)) [])
    { Email := "alice@example.com", Password := "guess" } "10.0.0.1" "curl"
    (sampleUser true 5 (some 100)) 100 rfl rfl (by decide) (by decide) (by decide) rfl rfl

/-- C29: for a stored record that is both revoked and expired (`now` after
`ExpiresAt`), presenting its secret returns `ErrTokenRevoked`, not
`ErrInvalidToken`, and (the statement being executed) every refresh token of
the owning user is revoked. -/
theorem C29_revoked_check_precedes_expiry (s : AuthService) (env : Env) (st : Store)
    (secret ip userAgent : String) (record : RefreshToken)
    (hrecord : TokenRepository.GetRefreshTokenByHash env st (s.utils.HashToken secret) =
      .ok record)
    (hrevoked : record.Revoked = true) (_hexpired : env.now > record.ExpiresAt)
    (hrevokeAll : env.fault .TokenRevokeAllUserTokens = none) :
    (s.RefreshToken env st secret ip userAgent).1 = .error .ErrTokenRevoked ∧
      (s.RefreshToken env st secret ip userAgent).2.refreshTokens =
        (st.refreshTokens.map fun t =>
          if t.UserID = record.UserID then { t with Revoked := true } else t) ∧
      (∀ t ∈ (s.RefreshToken env st secret ip userAgent).2.refreshTokens,
        t.UserID = record.UserID → t.Revoked = true) := by
  rw [RefreshToken_revoked s env st secret ip userAgent record hrecord hrevoked]
  have htable : (TokenRepository.RevokeAllUserTokens env st record.UserID).2.refreshTokens =
      (st.refreshTokens.map fun t =>
        if t.UserID = record.UserID then { t with Revoked := true } else t) := by
    simp [TokenRepository.RevokeAllUserTokens, execStmt, hrevokeAll]
  refine ⟨rfl, htable, ?_⟩
  intro t ht hid
  rw [htable] at ht
  obtain ⟨t₀, _, ht₀⟩ := List.mem_map.mp ht
  by_cases h₀ : t₀.UserID = record.UserID
  · rw [if_pos h₀] at ht₀
    rw [← ht₀]
  · rw [if_neg h₀] at ht₀
    rw [ht₀] at h₀
    exact absurd hid h₀

theorem C29_revoked_check_precedes_expiry_witness :
    (sampleService.RefreshToken (sampleEnv 2000 11 "s1")
        (sampleStore (sampleUser true 0 none)
          [sampleToken 10 "s0" true, sampleToken 12 "s2" false])
        "s0" "10.0.0.1" "curl").1 = .error .ErrTokenRevoked ∧
      (sampleService.RefreshToken (sampleEnv 2000 11 "s1")
        (sampleStore (sampleUser true 0 none)
          [sampleToken 10 "s0" true, sampleToken 12 "s2" false])
        "s0" "10.0.0.1" "curl").2.refreshTokens =
        [sampleToken 10 "s0" true, sampleToken 12 "s2" true] :=
  have h := C29_revoked_check_precedes_expiry sampleService (sampleEnv 2000 11 "s1")
    (sampleStore (sampleUser true 0 none)
      [sampleToken 10 "s0" true, sampleToken 12 "s2" false])
    "s0" "10.0.0.1" "curl" (sampleToken 10 "s0" true) rfl rfl (by decide) rfl
  ⟨h.1, h.2.1.trans rfl⟩

/-! ## Store failures in the lookup, kinds of e-mail tokens -/

/-- C26 (the code departs from the claim): when the lookup of the presented
secret fails in the driver with `connection reset`, an error other than
`sql.ErrNoRows`, `RefreshToken` does not hand that error to its caller; it
returns `ErrInvalidToken`, the same value as for a secret that matches no
record. -/
theorem C26_lookup_failure_is_reported_as_invalid_token :
    TokenRepository.GetRefreshTokenByHash
        (sampleEnvFailing .TokenGetRefreshTokenByHash 100 11 "s1")
        (sampleStore (sampleUser true 0 none) [sampleToken 10 "s0" false]) "sha256:s0" =
        .error (.driver "connection reset") ∧
      sampleService.RefreshToken (sampleEnvFailing .TokenGetRefreshTokenByHash 100 11 "s1")
        (sampleStore (sampleUser true 0 none) [sampleToken 10 "s0" false])
        "s0" "10.0.0.1" "curl" =
        (.error .ErrInvalidToken,
          sampleStore (sampleUser true 0 none) [sampleToken 10 "s0" false]) ∧
      sampleService.RefreshToken (sampleEnv 100 11 "s1")
        (sampleStore (sampleUser true 0 none) [sampleToken 10 "s0" false])
        "forged" "10.0.0.1" "curl" =
        (.error .ErrInvalidToken,
          sampleStore (sampleUser true 0 none) [sampleToken 10 "s0" false]) :=
  ⟨rfl, rfl, rfl⟩

/-- A lookup by fingerprint and kind fails when every row with that fingerprint
is of another kind. -/
theorem GetEmailTokenByHash_other_kind (env : Env) (st : Store) (hash : String)
    (kind : EmailTokenType)
    (hkind : ∀ t ∈ st.emailTokens, t.TokenHash = hash → t.TokenType ≠ kind) :
    ∃ err, TokenRepository.GetEmailTokenByHash env st hash kind = .error err := by
  unfold TokenRepository.GetEmailTokenByHash
  apply queryRow_error_of_no_match
  intro t ht
  by_cases hh : t.TokenHash = hash
  · simp [hh, hkind t ht hh]
  · simp [hh]

/-- C27 as stated fails: the secret `e0` belongs to an unused, unexpired token
of kind verify, and `ResetPassword` with it and the new password `short`
returns the password-policy error, not `ErrInvalidToken`. -/
theorem C27_policy_error_counterexample :
    TokenRepository.GetEmailTokenByHash (sampleEnv 100 7 "r")
        { sampleStore (sampleUser true 0 none) [] with
          emailTokens := [sampleEmailToken .Verify false] }
        "sha256:e0" .Verify = .ok (sampleEmailToken .Verify false) ∧
      sampleService.ResetPassword (sampleEnv 100 7 "r")
        { sampleStore (sampleUser true 0 none) [] with
          emailTokens := [sampleEmailToken .Verify false] }
        "e0" "short" "10.0.0.1" "curl" =
        (some (.errorsNew "Password must be at least 8 characters"),
          { sampleStore (sampleUser true 0 none) [] with
            emailTokens := [sampleEmailToken .Verify false] }) ∧
      Err.errorsNew "Password must be at least 8 characters" ≠ Err.ErrInvalidToken := by
  refine ⟨rfl, rfl, ?_⟩
  intro h
  cases h

/-- C27, amended: when the tokens that carry the fingerprint of a secret are of
kind reset, `VerifyEmail` with that secret returns `ErrInvalidToken`; when they
are of kind verify, `ResetPassword` with that secret and a policy-compliant
new password returns `ErrInvalidToken` (with a new password that violates the
policy it returns the policy error instead).  In all three cases the store is
exactly as before: no user is verified, no password is changed, and the token
stays unused. -/
theorem C27_email_tokens_are_bound_to_their_kind (s : AuthService) (env : Env) (st : Store)
    (secret newPassword ip userAgent : String) :
    ((∀ t ∈ st.emailTokens, t.TokenHash = s.utils.HashToken secret → t.TokenType = .Reset) →
      s.VerifyEmail env st secret ip userAgent = (some .ErrInvalidToken, st)) ∧
    ((∀ t ∈ st.emailTokens, t.TokenHash = s.utils.HashToken secret → t.TokenType = .Verify) →
      (ValidatePassword newPassword).1 = true →
      s.ResetPassword env st secret newPassword ip userAgent = (some .ErrInvalidToken, st)) ∧
    ((ValidatePassword newPassword).1 = false →
      s.ResetPassword env st secret newPassword ip userAgent =
        (some (.errorsNew (ValidatePassword newPassword).2), st)) := by
  refine ⟨?_, ?_, ?_⟩
  · intro hkind
    obtain ⟨err, herr⟩ := GetEmailTokenByHash_other_kind env st (s.utils.HashToken secret)
      .Verify (fun t ht hh => by rw [hkind t ht hh]; decide)
    unfold AuthService.VerifyEmail
    simp [herr]
  · intro hkind hpolicy
    obtain ⟨err, herr⟩ := GetEmailTokenByHash_other_kind env st (s.utils.HashToken secret)
      .Reset (fun t ht hh => by rw [hkind t ht hh]; decide)
    unfold AuthService.ResetPassword
    simp [hpolicy, herr]
  · intro hpolicy
    unfold AuthService.ResetPassword
    simp [hpolicy]

theorem C27_email_tokens_are_bound_to_their_kind_witness :
    sampleService.VerifyEmail (sampleEnv 100 7 "r")
        { sampleStore (sampleUser false 0 none) [] with
          emailTokens := [sampleEmailToken .Reset false] }
        "e0" "10.0.0.1" "curl" =
        (some .ErrInvalidToken,
          { sampleStore (sampleUser false 0 none) [] with
            emailTokens := [sampleEmailToken .Reset false] }) ∧
      sampleService.ResetPassword (sampleEnv 100 7 "r")
        { sampleStore (sampleUser false 0 none) [] with
          emailTokens := [sampleEmailToken .Verify false] }
        "e0" "N3wPassword" "10.0.0.1" "curl" =
        (some .ErrInvalidToken,
          { sampleStore (sampleUser false 0 none) [] with
            emailTokens := [sampleEmailToken .Verify false] }) :=
  ⟨(C27_email_tokens_are_bound_to_their_kind sampleService (sampleEnv 100 7 "r")
      { sampleStore (sampleUser false 0 none) [] with
        emailTokens := [sampleEmailToken .Reset false] }
      "e0" "N3wPassword" "10.0.0.1" "curl").1 (by decide),
    (C27_email_tokens_are_bound_to_their_kind sampleService (sampleEnv 100 7 "r")
      { sampleStore (sampleUser false 0 none) [] with
        emailTokens := [sampleEmailToken .Verify false] }
      "e0" "N3wPassword" "10.0.0.1" "curl").2.1 (by decide) (by decide)⟩

/-! ## Role assignment -/

/-- C25 (the code departs from the claim): `UnassignRole` makes no existence
check.  For user id 99, which belongs to no user, and for role id 42, which
belongs to no role, it returns `nil` and appends a `role_change` audit event,
where `AssignRole` on the same arguments returns `ErrUserNotFound` and
`role not found` and records nothing. -/
theorem C25_unassign_role_skips_existence_checks :
    sampleUserService.UnassignRole (sampleEnv 100 7 "r")
        (sampleStore (sampleUser true 0 none) []) 99 1 1 "10.0.0.1" "curl" =
        (none,
          { sampleStore (sampleUser true 0 none) [] with
            auditEvents :=
              [{ ID := 907
                 UserID := some 99
                 EventType := .RoleChange
                 Payload := "\x7b\"action\":\"unassign\",\"removed_by\":\"1\",\"role_id\":1\x7d"
                 IPAddress := "10.0.0.1"
                 UserAgent := "curl"
                 CreatedAt := 100 }] }) ∧
      (sampleUserService.UnassignRole (sampleEnv 100 7 "r")
        (sampleStore (sampleUser true 0 none) []) 1 42 1 "10.0.0.1" "curl").1 = none ∧
      (sampleUserService.UnassignRole (sampleEnv 100 7 "r")
        (sampleStore (sampleUser true 0 none) []) 1 42 1 "10.0.0.1"
          "curl").2.auditEvents.length = 1 ∧
      sampleUserService.AssignRole (sampleEnv 100 7 "r")
        (sampleStore (sampleUser true 0 none) []) 99 1 1 "10.0.0.1" "curl" =
        (some .ErrUserNotFound, sampleStore (sampleUser true 0 none) []) ∧
      sampleUserService.AssignRole (sampleEnv 100 7 "r")
        (sampleStore (sampleUser true 0 none) []) 1 42 1 "10.0.0.1" "curl" =
        (some (.errorsNew "role not found"), sampleStore (sampleUser true 0 none) []) := by
  refine ⟨?_, rfl, rfl, rfl, rfl⟩
  decide

/-! ## Pagination -/

/-- The page count computed by `ListUsers` is the ceiling of `total / perPage`:
the least `n ≥ 0` with `n * perPage ≥ total`. -/
theorem totalPages_is_ceiling (total perPage : Int) (htotal : 0 ≤ total)
    (hperPage : 1 ≤ perPage) :
    0 ≤ (if Int.tmod total perPage > 0 then Int.tdiv total perPage + 1
        else Int.tdiv total perPage) ∧
      total ≤ (if Int.tmod total perPage > 0 then Int.tdiv total perPage + 1
        else Int.tdiv total perPage) * perPage ∧
      ∀ n : Int, 0 ≤ n → total ≤ n * perPage →
        (if Int.tmod total perPage > 0 then Int.tdiv total perPage + 1
          else Int.tdiv total perPage) ≤ n := by
  have hp0 : (0 : Int) ≤ perPage := by omega
  have hpos : (0 : Int) < perPage := by omega
  rw [Int.tdiv_eq_ediv htotal hp0, Int.tmod_eq_emod htotal hp0]
  have hq : 0 ≤ total / perPage := Int.ediv_nonneg htotal hp0
  have hr0 : 0 ≤ total % perPage := Int.emod_nonneg total (by omega)
  have hr1 : total % perPage < perPage := Int.emod_lt_of_pos total hpos
  have hsum : total / perPage * perPage + total % perPage = total :=
    Int.ediv_add_emod' total perPage
  by_cases hr : total % perPage > 0
  · simp only [hr, if_true]
    refine ⟨by omega, by nlinarith, ?_⟩
    intro n _ hle
    by_contra hlt
    have hn : n ≤ total / perPage := by omega
    have : n * perPage ≤ total / perPage * perPage :=
      Int.mul_le_mul_of_nonneg_right hn hp0
    omega
  · simp only [hr, if_false]
    have hzero : total % perPage = 0 := by omega
    refine ⟨hq, by omega, ?_⟩
    intro n _ hle
    by_contra hlt
    have hn : n + 1 ≤ total / perPage := by omega
    have : (n + 1) * perPage ≤ total / perPage * perPage :=
      Int.mul_le_mul_of_nonneg_right hn hp0
    have hexp : (n + 1) * perPage = n * perPage + perPage := by
      rw [Int.add_mul, Int.one_mul]
    omega

theorem List_total_nonneg (env : Env) (st : Store) (page perPage : Int) (search : String) :
    0 ≤ (UserRepository.List env st page perPage search).2.1 := by
  unfold UserRepository.List
  simp only []
  cases env.fault .UserList with
  | some msg => simp
  | none =>
    simp only []
    split
    · simp
    · cases env.fault .UserListCount with
      | some msg => simp
      | none => exact Int.ofNat_nonneg _

/-- The fields of an answer of `ListUsers`. -/
theorem ListUsers_pagination (s : UserService) (env : Env) (st : Store)
    (page perPage : Int) (search : String) (response : PaginatedResponse)
    (hok : (s.ListUsers env st page perPage search).1 = .ok response) :
    response.Page = max page 1 ∧
      response.PerPage = (if 1 ≤ perPage ∧ perPage ≤ 100 then perPage else 20) ∧
      1 ≤ response.PerPage ∧
      response.Total =
        (UserRepository.List env st response.Page response.PerPage search).2.1 ∧
      0 ≤ response.Total ∧
      0 ≤ response.TotalPages ∧
      response.Total ≤ response.TotalPages * response.PerPage ∧
      (∀ n : Int, 0 ≤ n → response.Total ≤ n * response.PerPage →
        response.TotalPages ≤ n) := by
  have hpage : (if page < 1 then 1 else page) = max page 1 := by
    by_cases h : page < 1
    · rw [if_pos h]; omega
    · rw [if_neg h]; omega
  have hper : (if perPage < 1 ∨ perPage > 100 then 20 else perPage) =
      (if 1 ≤ perPage ∧ perPage ≤ 100 then perPage else 20) := by
    by_cases h : perPage < 1 ∨ perPage > 100
    · rw [if_pos h, if_neg (by omega)]
    · rw [if_neg h, if_pos (by omega)]
  have hper1 : 1 ≤ (if 1 ≤ perPage ∧ perPage ≤ 100 then perPage else 20) := by
    by_cases h : 1 ≤ perPage ∧ perPage ≤ 100
    · rw [if_pos h]; exact h.1
    · rw [if_neg h]; decide
  have hnonneg := List_total_nonneg env st (max page 1)
    (if 1 ≤ perPage ∧ perPage ≤ 100 then perPage else 20) search
  unfold UserService.ListUsers at hok
  simp only [hpage, hper] at hok
  cases hlist : UserRepository.List env st (max page 1)
      (if 1 ≤ perPage ∧ perPage ≤ 100 then perPage else 20) search with
  | mk users rest =>
    cases rest with
    | mk total err =>
      rw [hlist] at hok hnonneg
      cases err with
      | some e => simp at hok
      | none =>
        simp only [Except.ok.injEq] at hok
        subst hok
        obtain ⟨h1, h2, h3⟩ := totalPages_is_ceiling total
          (if 1 ≤ perPage ∧ perPage ≤ 100 then perPage else 20) hnonneg hper1
        exact ⟨rfl, rfl, hper1, by rw [hlist], hnonneg, h1, h2, h3⟩

theorem wrapInt64_of_small (x : Int) (h0 : 0 ≤ x) (h1 : x < 9223372036854775808) :
    wrapInt64 x = x := by
  unfold wrapInt64
  omega

theorem ListUsers_answers (s : UserService) (env : Env) (st : Store)
    (page perPage : Int) (search : String)
    (hexec : env.fault .UserList = none) (hpage : page ≤ 2 ^ 56) :
    ∃ response, (s.ListUsers env st page perPage search).1 = .ok response := by
  have hpg : ∀ pg pp : Int, 1 ≤ pg → pg ≤ 2 ^ 56 → 1 ≤ pp → pp ≤ 100 →
      ¬ (pp < 0 ∨ wrapInt64 (wrapInt64 (pg - 1) * pp) < 0) := by
    intro pg pp h1 h2 h3 h4
    have ha : wrapInt64 (pg - 1) = pg - 1 := wrapInt64_of_small _ (by omega) (by omega)
    have hb0 : 0 ≤ (pg - 1) * pp := Int.mul_nonneg (by omega) (by omega)
    have hb1 : (pg - 1) * pp ≤ (2 ^ 56 - 1) * 100 :=
      Int.mul_le_mul (by omega) h4 (by omega) (by norm_num)
    rw [ha, wrapInt64_of_small _ hb0 (by omega)]
    omega
  have hpage1 : 1 ≤ (if page < 1 then 1 else page) ∧ (if page < 1 then 1 else page) ≤ 2 ^ 56 := by
    by_cases h : page < 1
    · rw [if_pos h]; norm_num
    · rw [if_neg h]; omega
  have hper1 : 1 ≤ (if perPage < 1 ∨ perPage > 100 then 20 else perPage) ∧
      (if perPage < 1 ∨ perPage > 100 then 20 else perPage) ≤ 100 := by
    by_cases h : perPage < 1 ∨ perPage > 100
    · rw [if_pos h]; norm_num
    · rw [if_neg h]; omega
  have hno := hpg _ _ hpage1.1 hpage1.2 hper1.1 hper1.2
  unfold UserService.ListUsers UserRepository.List
  simp only [hexec, if_neg hno]
  exact ⟨_, rfl⟩

/-- C30: for all integers `page` and `perPage`, `ListUsers` answers when the
row query is executed and `page` is at most `2 ^ 56` (beyond that the offset
`(page - 1) * perPage` may wrap to a negative number, which the database
rejects), and every answer it gives, whatever total (never negative) the store
reports, has `Page = max(page, 1)`; `PerPage = perPage` when
`1 ≤ perPage ≤ 100` and 20 otherwise, hence at least 1, so the division has no
zero divisor; and `TotalPages` the ceiling of `Total / PerPage`, the least
`n ≥ 0` with `n * PerPage ≥ Total`. -/
theorem C30_list_users_pagination (s : UserService) (env : Env) (st : Store)
    (page perPage : Int) (search : String) :
    (env.fault .UserList = none → page ≤ 2 ^ 56 →
      ∃ response, (s.ListUsers env st page perPage search).1 = .ok response) ∧
    (∀ response, (s.ListUsers env st page perPage search).1 = .ok response →
      response.Page = max page 1 ∧
      response.PerPage = (if 1 ≤ perPage ∧ perPage ≤ 100 then perPage else 20) ∧
      1 ≤ response.PerPage ∧
      response.Total =
        (UserRepository.List env st response.Page response.PerPage search).2.1 ∧
      0 ≤ response.Total ∧
      0 ≤ response.TotalPages ∧
      response.Total ≤ response.TotalPages * response.PerPage ∧
      (∀ n : Int, 0 ≤ n → response.Total ≤ n * response.PerPage →
        response.TotalPages ≤ n)) :=
  ⟨ListUsers_answers s env st page perPage search,
    ListUsers_pagination s env st page perPage search⟩

theorem C30_list_users_pagination_witness :
    (∃ response, (sampleUserService.ListUsers (sampleEnv 100 7 "r")
        (sampleStore (sampleUser true 0 none) []) 0 250 "").1 = .ok response) ∧
      (1 : Int) = max 0 1 ∧
      (20 : Int) = (if (1 : Int) ≤ 250 ∧ (250 : Int) ≤ 100 then 250 else 20) ∧
      (1 : Int) ≤ 20 ∧
      (1 : Int) = (UserRepository.List (sampleEnv 100 7 "r")
        (sampleStore (sampleUser true 0 none) []) 1 20 "").2.1 ∧
      (0 : Int) ≤ 1 ∧ (0 : Int) ≤ 1 ∧ (1 : Int) ≤ 1 * 20 ∧
      (∀ n : Int, 0 ≤ n → 1 ≤ n * 20 → 1 ≤ n) :=
  ⟨(C30_list_users_pagination sampleUserService (sampleEnv 100 7 "r")
      (sampleStore (sampleUser true 0 none) []) 0 250 "").1 rfl (by decide),
    (C30_list_users_pagination sampleUserService (sampleEnv 100 7 "r")
      (sampleStore (sampleUser true 0 none) []) 0 250 "").2
      { Data := [sampleUser true 0 none], Page := 1, PerPage := 20, Total := 1,
        TotalPages := 1 } rfl⟩

/-! ## End to end -/

/-- C24: from the empty store, with the configuration of `Load`, helpers that
leave `alice@example.com` as it is when sanitizing, hash `Passw0rd!` to a
digest the password verifies against and sign every access token, and with
every statement of the first four calls executed in time (verification within
the hour, refresh within the refresh lifetime): `Register` succeeds,
`VerifyEmail` with the issued token succeeds, `Login` succeeds and returns an
access token and a refresh secret with `ExpiresIn = 900`, `RefreshToken` with
that secret succeeds, and a second `RefreshToken` with the same secret fails. -/
theorem C24_end_to_end_run (s : AuthService) (env₁ env₂ env₃ env₄ env₅ : Env)
    (ip userAgent passwordHash : String)
    (hcfg : s.cfg = Load)
    (hsanitize : SanitizeEmail s.utils.ToLower s.utils.TrimSpace "alice@example.com" =
      "alice@example.com")
    (hhash : s.utils.HashPassword "Passw0rd!" = .ok passwordHash)
    (hcheck : s.utils.CheckPassword "Passw0rd!" passwordHash = true)
    (hsign : ∀ id email roles now, ∃ accessToken,
      s.utils.GenerateToken id email roles now = .ok accessToken)
    (hrun₁ : ∀ op, env₁.fault op = none) (hrun₂ : ∀ op, env₂.fault op = none)
    (hrun₃ : ∀ op, env₃.fault op = none) (hrun₄ : ∀ op, env₄.fault op = none)
    (hintime₂ : env₂.now ≤ env₁.now + Hour)
    (hintime₄ : env₄.now ≤ env₃.now + 30 * 24 * Hour) :
    (∃ user, (endToEnd s env₁ env₂ env₃ env₄ env₅ emptyStore "alice@example.com"
        "Passw0rd!" "Alice" ip userAgent).registered = .ok user) ∧
      (endToEnd s env₁ env₂ env₃ env₄ env₅ emptyStore "alice@example.com"
        "Passw0rd!" "Alice" ip userAgent).verified = none ∧
      (∃ accessToken, (endToEnd s env₁ env₂ env₃ env₄ env₅ emptyStore "alice@example.com"
        "Passw0rd!" "Alice" ip userAgent).loggedIn =
          .ok { AccessToken := accessToken, RefreshToken := env₃.randomToken,
                ExpiresIn := 900 }) ∧
      (∃ response, (endToEnd s env₁ env₂ env₃ env₄ env₅ emptyStore "alice@example.com"
        "Passw0rd!" "Alice" ip userAgent).refreshed = .ok response) ∧
      ((endToEnd s env₁ env₂ env₃ env₄ env₅ emptyStore "alice@example.com"
        "Passw0rd!" "Alice" ip userAgent).refreshedAgain = .error .ErrTokenRevoked ∨
        (endToEnd s env₁ env₂ env₃ env₄ env₅ emptyStore "alice@example.com"
          "Passw0rd!" "Alice" ip userAgent).refreshedAgain = .error .ErrInvalidToken) := by
  obtain ⟨accessToken₃, hsign₃⟩ := hsign env₁.userID "alice@example.com" [] env₃.now
  obtain ⟨accessToken₄, hsign₄⟩ := hsign env₁.userID "alice@example.com" [] env₄.now
  have hemail : ValidateEmail "alice@example.com" = true := by decide
  have hpolicy : (ValidatePassword "Passw0rd!").1 = true := by decide
  have hlife : s.cfg.RefreshTokenExpiry = 30 * 24 * Hour := by rw [hcfg]; rfl
  have h₂ : ¬ env₁.now + Hour < env₂.now := Int.not_lt.mpr hintime₂
  have h₄ : ¬ env₃.now + 720 * Hour < env₄.now := Int.not_lt.mpr hintime₄
  have h900 : Int.tdiv s.cfg.AccessTokenExpiry Second = 900 := by rw [hcfg]; decide
  cases h₅ : env₅.fault .TokenGetRefreshTokenByHash <;>
    simp [endToEnd, AuthService.Register, AuthService.VerifyEmail, AuthService.Login,
      AuthService.RefreshToken, issuedRefreshSecret, hsanitize, hemail, hpolicy, hhash,
      hcheck, hsign₃, hsign₄, hrun₁, hrun₂, hrun₃, hrun₄, h₂, h₄, h₅, h900, hlife,
      UserRepository.GetByEmail, UserRepository.GetByID, queryRow, UserRepository.Create,
      UserRepository.SetVerified, UserRepository.ResetFailedLogin, execStmt, emptyStore,
      assignDefaultRole, RoleRepository.GetByName, RoleRepository.GetUserRoles, roleNamesFor,
      TokenRepository.CreateEmailToken, TokenRepository.GetEmailTokenByHash,
      TokenRepository.MarkEmailTokenUsed, TokenRepository.CreateRefreshToken,
      TokenRepository.GetRefreshTokenByHash, TokenRepository.RevokeRefreshToken,
      AuditService.LogEvent, AuditRepository.Create, usersColumnDefaults]

theorem C24_end_to_end_run_witness :
    (endToEnd sampleService (sampleEnv 100 7 "e1") (sampleEnv 200 8 "x")
        (sampleEnv 300 9 "s1") (sampleEnv 400 10 "s2") (sampleEnv 500 11 "s3") emptyStore
        "alice@example.com" "Passw0rd!" "Alice" "10.0.0.1" "curl").verified = none ∧
      (∃ accessToken, (endToEnd sampleService (sampleEnv 100 7 "e1") (sampleEnv 200 8 "x")
        (sampleEnv 300 9 "s1") (sampleEnv 400 10 "s2") (sampleEnv 500 11 "s3") emptyStore
        "alice@example.com" "Passw0rd!" "Alice" "10.0.0.1" "curl").loggedIn =
          .ok { AccessToken := accessToken, RefreshToken := "s1", ExpiresIn := 900 }) :=
  have h := C24_end_to_end_run sampleService (sampleEnv 100 7 "e1") (sampleEnv 200 8 "x")
    (sampleEnv 300 9 "s1") (sampleEnv 400 10 "s2") (sampleEnv 500 11 "s3")
    "10.0.0.1" "curl" "bcrypt:Passw0rd!" rfl (by decide) rfl (by decide)
    (fun _ _ _ _ => ⟨_, rfl⟩) (fun _ => rfl) (fun _ => rfl) (fun _ => rfl) (fun _ => rfl)
    (by decide) (by decide)
  ⟨h.2.1, h.2.2.1⟩

/-! ## Failures of the audit insert -/

theorem withAuditFault_now (env : Env) (f : Option String) :
    (env.withAuditFault f).now = env.now := rfl

theorem withAuditFault_userID (env : Env) (f : Option String) :
    (env.withAuditFault f).userID = env.userID := rfl

theorem withAuditFault_tokenID (env : Env) (f : Option String) :
    (env.withAuditFault f).tokenID = env.tokenID := rfl

theorem withAuditFault_randomToken (env : Env) (f : Option String) :
    (env.withAuditFault f).randomToken = env.randomToken := rfl

theorem withAuditFault_fault (env : Env) (f : Option String) (op : Op) (h : op ≠ .AuditCreate) :
    (env.withAuditFault f).fault op = env.fault op := by
  simp [Env.withAuditFault, h]

theorem execStmt_withAuditFault (env : Env) (f : Option String) (op : Op) (st : Store)
    (upd : Store → Store) (h : op ≠ .AuditCreate) :
    execStmt (env.withAuditFault f) op st upd = execStmt env op st upd := by
  simp [execStmt, withAuditFault_fault env f op h]

theorem queryRow_withAuditFault {α : Type} (env : Env) (f : Option String) (op : Op)
    (rows : List α) (p : α → Bool) (h : op ≠ .AuditCreate) :
    queryRow (env.withAuditFault f) op rows p = queryRow env op rows p := by
  simp [queryRow, withAuditFault_fault env f op h]

theorem GetByID_withAuditFault (env : Env) (f : Option String) (st : Store) (id : UUID) :
    UserRepository.GetByID (env.withAuditFault f) st id = UserRepository.GetByID env st id :=
  queryRow_withAuditFault env f _ _ _ (by decide)

theorem GetByEmail_withAuditFault (env : Env) (f : Option String) (st : Store) (e : String) :
    UserRepository.GetByEmail (env.withAuditFault f) st e = UserRepository.GetByEmail env st e :=
  queryRow_withAuditFault env f _ _ _ (by decide)

theorem IncrementFailedLogin_withAuditFault (env : Env) (f : Option String) (st : Store)
    (u : UUID) :
    UserRepository.IncrementFailedLogin (env.withAuditFault f) st u =
      UserRepository.IncrementFailedLogin env st u :=
  execStmt_withAuditFault env f _ _ _ (by decide)

theorem LockAccount_withAuditFault (env : Env) (f : Option String) (st : Store)
    (u : UUID) (t : Time) :
    UserRepository.LockAccount (env.withAuditFault f) st u t =
      UserRepository.LockAccount env st u t :=
  execStmt_withAuditFault env f _ _ _ (by decide)

theorem ResetFailedLogin_withAuditFault (env : Env) (f : Option String) (st : Store)
    (u : UUID) :
    UserRepository.ResetFailedLogin (env.withAuditFault f) st u =
      UserRepository.ResetFailedLogin env st u :=
  execStmt_withAuditFault env f _ _ _ (by decide)

theorem Create_withAuditFault (env : Env) (f : Option String) (st : Store) (user : User) :
    UserRepository.Create (env.withAuditFault f) st user = UserRepository.Create env st user :=
  execStmt_withAuditFault env f _ _ _ (by decide)

theorem UpdatePassword_withAuditFault (env : Env) (f : Option String) (st : Store)
    (u : UUID) (h : String) :
    UserRepository.UpdatePassword (env.withAuditFault f) st u h =
      UserRepository.UpdatePassword env st u h :=
  execStmt_withAuditFault env f _ _ _ (by decide)

theorem SetVerified_withAuditFault (env : Env) (f : Option String) (st : Store) (u : UUID) :
    UserRepository.SetVerified (env.withAuditFault f) st u =
      UserRepository.SetVerified env st u :=
  execStmt_withAuditFault env f _ _ _ (by decide)

theorem CreateRefreshToken_withAuditFault (env : Env) (f : Option String) (st : Store)
    (t : RefreshToken) :
    TokenRepository.CreateRefreshToken (env.withAuditFault f) st t =
      TokenRepository.CreateRefreshToken env st t :=
  execStmt_withAuditFault env f _ _ _ (by decide)

theorem RevokeAllUserTokens_withAuditFault (env : Env) (f : Option String) (st : Store)
    (u : UUID) :
    TokenRepository.RevokeAllUserTokens (env.withAuditFault f) st u =
      TokenRepository.RevokeAllUserTokens env st u :=
  execStmt_withAuditFault env f _ _ _ (by decide)

theorem CreateEmailToken_withAuditFault (env : Env) (f : Option String) (st : Store)
    (t : EmailToken) :
    TokenRepository.CreateEmailToken (env.withAuditFault f) st t =
      TokenRepository.CreateEmailToken env st t :=
  execStmt_withAuditFault env f _ _ _ (by decide)

theorem GetEmailTokenByHash_withAuditFault (env : Env) (f : Option String) (st : Store)
    (h : String) (ty : EmailTokenType) :
    TokenRepository.GetEmailTokenByHash (env.withAuditFault f) st h ty =
      TokenRepository.GetEmailTokenByHash env st h ty :=
  queryRow_withAuditFault env f _ _ _ (by decide)

theorem MarkEmailTokenUsed_withAuditFault (env : Env) (f : Option String) (st : Store)
    (u : UUID) :
    TokenRepository.MarkEmailTokenUsed (env.withAuditFault f) st u =
      TokenRepository.MarkEmailTokenUsed env st u :=
  execStmt_withAuditFault env f _ _ _ (by decide)

theorem GetByName_withAuditFault (env : Env) (f : Option String) (st : Store) (n : String) :
    RoleRepository.GetByName (env.withAuditFault f) st n = RoleRepository.GetByName env st n :=
  queryRow_withAuditFault env f _ _ _ (by decide)

theorem RoleGetByID_withAuditFault (env : Env) (f : Option String) (st : Store) (id : Int) :
    RoleRepository.GetByID (env.withAuditFault f) st id = RoleRepository.GetByID env st id :=
  queryRow_withAuditFault env f _ _ _ (by decide)

theorem AssignRoleToUser_withAuditFault (env : Env) (f : Option String) (st : Store)
    (u : UUID) (r : Int) (b : UUID) :
    RoleRepository.AssignRoleToUser (env.withAuditFault f) st u r b =
      RoleRepository.AssignRoleToUser env st u r b :=
  execStmt_withAuditFault env f _ _ _ (by decide)

theorem GetUserRoles_withAuditFault (env : Env) (f : Option String) (st : Store) (u : UUID) :
    RoleRepository.GetUserRoles (env.withAuditFault f) st u =
      RoleRepository.GetUserRoles env st u := by
  simp [RoleRepository.GetUserRoles, withAuditFault_fault env f .RoleGetUserRoles (by decide)]

theorem roleNamesFor_withAuditFault (env : Env) (f : Option String) (st : Store) (u : UUID) :
    roleNamesFor (env.withAuditFault f) st u = roleNamesFor env st u := by
  simp [roleNamesFor, GetUserRoles_withAuditFault]

theorem assignDefaultRole_withAuditFault (env : Env) (f : Option String) (st : Store)
    (u : UUID) :
    assignDefaultRole (env.withAuditFault f) st u = assignDefaultRole env st u := by
  simp [assignDefaultRole, GetByName_withAuditFault, AssignRoleToUser_withAuditFault]

theorem sameButAudit_trans {α : Type} (x y z : α × Store) (hxy : SameButAudit x y)
    (hzy : SameButAudit z y) : SameButAudit x z :=
  ⟨hxy.1.trans hzy.1.symm, hxy.2.trans hzy.2.symm⟩

theorem LogEvent_withoutAudit (env : Env) (st : Store) (ty : AuditEventType)
    (uid : Option UUID) (payload ip userAgent : String) :
    (AuditService.LogEvent env st ty uid payload ip userAgent).2.withoutAudit =
      st.withoutAudit := by
  unfold AuditService.LogEvent AuditRepository.Create execStmt
  cases env.fault .AuditCreate <;> rfl

theorem Register_auditFault (s : AuthService) (env : Env) (f : Option String) (st : Store)
    (req : RegisterRequest) (ip userAgent : String) :
    SameButAudit (s.Register (env.withAuditFault f) st req ip userAgent)
      (s.Register env st req ip userAgent) := by
  unfold SameButAudit AuthService.Register
  simp only [withAuditFault_now, withAuditFault_userID, withAuditFault_tokenID,
    withAuditFault_randomToken, GetByID_withAuditFault, GetByEmail_withAuditFault,
    IncrementFailedLogin_withAuditFault, LockAccount_withAuditFault,
    ResetFailedLogin_withAuditFault, Create_withAuditFault, UpdatePassword_withAuditFault,
    SetVerified_withAuditFault, CreateRefreshToken_withAuditFault,
    RevokeAllUserTokens_withAuditFault, CreateEmailToken_withAuditFault,
    GetEmailTokenByHash_withAuditFault, MarkEmailTokenUsed_withAuditFault,
    RoleGetByID_withAuditFault, AssignRoleToUser_withAuditFault, roleNamesFor_withAuditFault,
    assignDefaultRole_withAuditFault]
  repeat' split
  all_goals simp [LogEvent_withoutAudit]

theorem VerifyEmail_auditFault (s : AuthService) (env : Env) (f : Option String) (st : Store)
    (tokenStr ip userAgent : String) :
    SameButAudit (s.VerifyEmail (env.withAuditFault f) st tokenStr ip userAgent)
      (s.VerifyEmail env st tokenStr ip userAgent) := by
  unfold SameButAudit AuthService.VerifyEmail
  simp only [withAuditFault_now, withAuditFault_userID, withAuditFault_tokenID,
    withAuditFault_randomToken, GetByID_withAuditFault, GetByEmail_withAuditFault,
    IncrementFailedLogin_withAuditFault, LockAccount_withAuditFault,
    ResetFailedLogin_withAuditFault, Create_withAuditFault, UpdatePassword_withAuditFault,
    SetVerified_withAuditFault, CreateRefreshToken_withAuditFault,
    RevokeAllUserTokens_withAuditFault, CreateEmailToken_withAuditFault,
    GetEmailTokenByHash_withAuditFault, MarkEmailTokenUsed_withAuditFault,
    RoleGetByID_withAuditFault, AssignRoleToUser_withAuditFault, roleNamesFor_withAuditFault,
    assignDefaultRole_withAuditFault]
  repeat' split
  all_goals simp [LogEvent_withoutAudit]

theorem Login_auditFault (s : AuthService) (env : Env) (f : Option String) (st : Store)
    (req : LoginRequest) (ip userAgent : String) :
    SameButAudit (s.Login (env.withAuditFault f) st req ip userAgent)
      (s.Login env st req ip userAgent) := by
  unfold SameButAudit AuthService.Login
  simp only [withAuditFault_now, withAuditFault_userID, withAuditFault_tokenID,
    withAuditFault_randomToken, GetByID_withAuditFault, GetByEmail_withAuditFault,
    IncrementFailedLogin_withAuditFault, LockAccount_withAuditFault,
    ResetFailedLogin_withAuditFault, Create_withAuditFault, UpdatePassword_withAuditFault,
    SetVerified_withAuditFault, CreateRefreshToken_withAuditFault,
    RevokeAllUserTokens_withAuditFault, CreateEmailToken_withAuditFault,
    GetEmailTokenByHash_withAuditFault, MarkEmailTokenUsed_withAuditFault,
    RoleGetByID_withAuditFault, AssignRoleToUser_withAuditFault, roleNamesFor_withAuditFault,
    assignDefaultRole_withAuditFault]
  repeat' split
  all_goals simp [LogEvent_withoutAudit]

theorem Logout_auditFault (s : AuthService) (env : Env) (f : Option String) (st : Store)
    (userID : UUID) (ip userAgent : String) :
    SameButAudit (s.Logout (env.withAuditFault f) st userID ip userAgent)
      (s.Logout env st userID ip userAgent) := by
  unfold SameButAudit AuthService.Logout
  simp only [withAuditFault_now, withAuditFault_userID, withAuditFault_tokenID,
    withAuditFault_randomToken, GetByID_withAuditFault, GetByEmail_withAuditFault,
    IncrementFailedLogin_withAuditFault, LockAccount_withAuditFault,
    ResetFailedLogin_withAuditFault, Create_withAuditFault, UpdatePassword_withAuditFault,
    SetVerified_withAuditFault, CreateRefreshToken_withAuditFault,
    RevokeAllUserTokens_withAuditFault, CreateEmailToken_withAuditFault,
    GetEmailTokenByHash_withAuditFault, MarkEmailTokenUsed_withAuditFault,
    RoleGetByID_withAuditFault, AssignRoleToUser_withAuditFault, roleNamesFor_withAuditFault,
    assignDefaultRole_withAuditFault]
  repeat' split
  all_goals simp [LogEvent_withoutAudit]

theorem ResetPassword_auditFault (s : AuthService) (env : Env) (f : Option String) (st : Store)
    (tokenStr newPassword ip userAgent : String) :
    SameButAudit (s.ResetPassword (env.withAuditFault f) st tokenStr newPassword ip userAgent)
      (s.ResetPassword env st tokenStr newPassword ip userAgent) := by
  unfold SameButAudit AuthService.ResetPassword
  simp only [withAuditFault_now, withAuditFault_userID, withAuditFault_tokenID,
    withAuditFault_randomToken, GetByID_withAuditFault, GetByEmail_withAuditFault,
    IncrementFailedLogin_withAuditFault, LockAccount_withAuditFault,
    ResetFailedLogin_withAuditFault, Create_withAuditFault, UpdatePassword_withAuditFault,
    SetVerified_withAuditFault, CreateRefreshToken_withAuditFault,
    RevokeAllUserTokens_withAuditFault, CreateEmailToken_withAuditFault,
    GetEmailTokenByHash_withAuditFault, MarkEmailTokenUsed_withAuditFault,
    RoleGetByID_withAuditFault, AssignRoleToUser_withAuditFault, roleNamesFor_withAuditFault,
    assignDefaultRole_withAuditFault]
  repeat' split
  all_goals simp [LogEvent_withoutAudit]

theorem AssignRole_auditFault (s : UserService) (env : Env) (f : Option String) (st : Store)
    (userID : UUID) (roleID : Int) (assignedBy : UUID)
    (ip userAgent : String) :
    SameButAudit (s.AssignRole (env.withAuditFault f) st userID roleID assignedBy ip userAgent)
      (s.AssignRole env st userID roleID assignedBy ip userAgent) := by
  unfold SameButAudit UserService.AssignRole
  simp only [withAuditFault_now, withAuditFault_userID, withAuditFault_tokenID,
    withAuditFault_randomToken, GetByID_withAuditFault, GetByEmail_withAuditFault,
    IncrementFailedLogin_withAuditFault, LockAccount_withAuditFault,
    ResetFailedLogin_withAuditFault, Create_withAuditFault, UpdatePassword_withAuditFault,
    SetVerified_withAuditFault, CreateRefreshToken_withAuditFault,
    RevokeAllUserTokens_withAuditFault, CreateEmailToken_withAuditFault,
    GetEmailTokenByHash_withAuditFault, MarkEmailTokenUsed_withAuditFault,
    RoleGetByID_withAuditFault, AssignRoleToUser_withAuditFault, roleNamesFor_withAuditFault,
    assignDefaultRole_withAuditFault]
  repeat' split
  all_goals simp [LogEvent_withoutAudit]

theorem ChangePassword_auditFault (s : UserService) (env : Env) (f : Option String) (st : Store)
    (userID : UUID) (oldPassword newPassword ip userAgent : String) :
    SameButAudit (s.ChangePassword (env.withAuditFault f) st userID oldPassword newPassword ip userAgent)
      (s.ChangePassword env st userID oldPassword newPassword ip userAgent) := by
  unfold SameButAudit UserService.ChangePassword
  simp only [withAuditFault_now, withAuditFault_userID, withAuditFault_tokenID,
    withAuditFault_randomToken, GetByID_withAuditFault, GetByEmail_withAuditFault,
    IncrementFailedLogin_withAuditFault, LockAccount_withAuditFault,
    ResetFailedLogin_withAuditFault, Create_withAuditFault, UpdatePassword_withAuditFault,
    SetVerified_withAuditFault, CreateRefreshToken_withAuditFault,
    RevokeAllUserTokens_withAuditFault, CreateEmailToken_withAuditFault,
    GetEmailTokenByHash_withAuditFault, MarkEmailTokenUsed_withAuditFault,
    RoleGetByID_withAuditFault, AssignRoleToUser_withAuditFault, roleNamesFor_withAuditFault,
    assignDefaultRole_withAuditFault]
  repeat' split
  all_goals simp [LogEvent_withoutAudit]

/-- The two outcomes of the audit insert do differ in the audit table: on the
sample store `Logout` leaves one audit row when the insert is executed and none
when it fails with `disk full`, and returns `nil` both times. -/
theorem Logout_audit_outcomes :
    (sampleService.Logout ((sampleEnv 100 7 "r").withAuditFault none)
        (sampleStore (sampleUser true 0 none) []) 1 "10.0.0.1" "curl").2.auditEvents.length = 1 ∧
      (sampleService.Logout ((sampleEnv 100 7 "r").withAuditFault (some "disk full"))
        (sampleStore (sampleUser true 0 none) []) 1 "10.0.0.1" "curl").2.auditEvents.length = 0 ∧
      (sampleService.Logout ((sampleEnv 100 7 "r").withAuditFault none)
        (sampleStore (sampleUser true 0 none) []) 1 "10.0.0.1" "curl").1 = none ∧
      (sampleService.Logout ((sampleEnv 100 7 "r").withAuditFault (some "disk full"))
        (sampleStore (sampleUser true 0 none) []) 1 "10.0.0.1" "curl").1 = none :=
  ⟨rfl, rfl, rfl, rfl⟩

/-- Claim C22: failures of the audit insert are swallowed.  For each of
`Register`, `VerifyEmail`, `Login`, `Logout`, `ResetPassword`, `ChangePassword`
and `AssignRole`, for every input, every store, every outcome of the other
statements, and any two outcomes `f₁`, `f₂` of the audit insert (executed, or
failed with any driver message), the value returned to the caller is the same
and so are all tables but the audit table (users, roles, role assignments,
refresh tokens, e-mail tokens, and the mails dispatched). -/
theorem C22_audit_failures_are_swallowed (a : AuthService) (u : UserService) (env : Env)
    (st : Store) (f₁ f₂ : Option String) :
    (∀ req ip userAgent,
      SameButAudit (a.Register (env.withAuditFault f₁) st req ip userAgent)
        (a.Register (env.withAuditFault f₂) st req ip userAgent)) ∧
    (∀ tokenStr ip userAgent,
      SameButAudit (a.VerifyEmail (env.withAuditFault f₁) st tokenStr ip userAgent)
        (a.VerifyEmail (env.withAuditFault f₂) st tokenStr ip userAgent)) ∧
    (∀ req ip userAgent,
      SameButAudit (a.Login (env.withAuditFault f₁) st req ip userAgent)
        (a.Login (env.withAuditFault f₂) st req ip userAgent)) ∧
    (∀ userID ip userAgent,
      SameButAudit (a.Logout (env.withAuditFault f₁) st userID ip userAgent)
        (a.Logout (env.withAuditFault f₂) st userID ip userAgent)) ∧
    (∀ tokenStr newPassword ip userAgent,
      SameButAudit (a.ResetPassword (env.withAuditFault f₁) st tokenStr newPassword ip userAgent)
        (a.ResetPassword (env.withAuditFault f₂) st tokenStr newPassword ip userAgent)) ∧
    (∀ userID oldPassword newPassword ip userAgent,
      SameButAudit
        (u.ChangePassword (env.withAuditFault f₁) st userID oldPassword newPassword ip userAgent)
        (u.ChangePassword (env.withAuditFault f₂) st userID oldPassword newPassword ip
          userAgent)) ∧
    (∀ userID roleID assignedBy ip userAgent,
      SameButAudit (u.AssignRole (env.withAuditFault f₁) st userID roleID assignedBy ip userAgent)
        (u.AssignRole (env.withAuditFault f₂) st userID roleID assignedBy ip userAgent)) :=
  ⟨fun req ip userAgent => sameButAudit_trans _ _ _
      (Register_auditFault a env f₁ st req ip userAgent)
      (Register_auditFault a env f₂ st req ip userAgent),
    fun tokenStr ip userAgent => sameButAudit_trans _ _ _
      (VerifyEmail_auditFault a env f₁ st tokenStr ip userAgent)
      (VerifyEmail_auditFault a env f₂ st tokenStr ip userAgent),
    fun req ip userAgent => sameButAudit_trans _ _ _
      (Login_auditFault a env f₁ st req ip userAgent)
      (Login_auditFault a env f₂ st req ip userAgent),
    fun userID ip userAgent => sameButAudit_trans _ _ _
      (Logout_auditFault a env f₁ st userID ip userAgent)
      (Logout_auditFault a env f₂ st userID ip userAgent),
    fun tokenStr newPassword ip userAgent => sameButAudit_trans _ _ _
      (ResetPassword_auditFault a env f₁ st tokenStr newPassword ip userAgent)
      (ResetPassword_auditFault a env f₂ st tokenStr newPassword ip userAgent),
    fun userID oldPassword newPassword ip userAgent => sameButAudit_trans _ _ _
      (ChangePassword_auditFault u env f₁ st userID oldPassword newPassword ip userAgent)
      (ChangePassword_auditFault u env f₂ st userID oldPassword newPassword ip userAgent),
    fun userID roleID assignedBy ip userAgent => sameButAudit_trans _ _ _
      (AssignRole_auditFault u env f₁ st userID roleID assignedBy ip userAgent)
      (AssignRole_auditFault u env f₂ st userID roleID assignedBy ip userAgent)⟩

/-! ## The audit trail is append-only -/

theorem auditExtends_same (st st' : Store) (h : st'.auditEvents = st.auditEvents) :
    AuditExtends st st' := ⟨⟨[], by simp [h]⟩, by simp [h]⟩

theorem execStmt_audit (env : Env) (op : Op) (st : Store) (upd : Store → Store)
    (hupd : ∀ x, (upd x).auditEvents = x.auditEvents) :
    (execStmt env op st upd).2.auditEvents = st.auditEvents := by
  unfold execStmt
  cases env.fault op with
  | some msg => rfl
  | none => exact hupd st

theorem IncrementFailedLogin_audit (env : Env) (st : Store) (u : UUID) :
    (UserRepository.IncrementFailedLogin env st u).2.auditEvents = st.auditEvents :=
  execStmt_audit env _ st _ (fun _ => rfl)

theorem LockAccount_audit (env : Env) (st : Store) (u : UUID) (t : Time) :
    (UserRepository.LockAccount env st u t).2.auditEvents = st.auditEvents :=
  execStmt_audit env _ st _ (fun _ => rfl)

theorem ResetFailedLogin_audit (env : Env) (st : Store) (u : UUID) :
    (UserRepository.ResetFailedLogin env st u).2.auditEvents = st.auditEvents :=
  execStmt_audit env _ st _ (fun _ => rfl)

theorem Create_audit (env : Env) (st : Store) (user : User) :
    (UserRepository.Create env st user).2.auditEvents = st.auditEvents :=
  execStmt_audit env _ st _ (fun _ => rfl)

theorem UpdatePassword_audit (env : Env) (st : Store) (u : UUID) (h : String) :
    (UserRepository.UpdatePassword env st u h).2.auditEvents = st.auditEvents :=
  execStmt_audit env _ st _ (fun _ => rfl)

theorem SetVerified_audit (env : Env) (st : Store) (u : UUID) :
    (UserRepository.SetVerified env st u).2.auditEvents = st.auditEvents :=
  execStmt_audit env _ st _ (fun _ => rfl)

theorem Update_audit (env : Env) (st : Store) (user : User) :
    (UserRepository.Update env st user).2.auditEvents = st.auditEvents :=
  execStmt_audit env _ st _ (fun _ => rfl)

theorem Delete_audit (env : Env) (st : Store) (u : UUID) :
    (UserRepository.Delete env st u).2.auditEvents = st.auditEvents :=
  execStmt_audit env _ st _ (fun _ => rfl)

theorem CreateRefreshToken_audit (env : Env) (st : Store) (t : RefreshToken) :
    (TokenRepository.CreateRefreshToken env st t).2.auditEvents = st.auditEvents :=
  execStmt_audit env _ st _ (fun _ => rfl)

theorem RevokeRefreshToken_audit (env : Env) (st : Store) (u : UUID) :
    (TokenRepository.RevokeRefreshToken env st u).2.auditEvents = st.auditEvents :=
  execStmt_audit env _ st _ (fun _ => rfl)

theorem RevokeAllUserTokens_audit (env : Env) (st : Store) (u : UUID) :
    (TokenRepository.RevokeAllUserTokens env st u).2.auditEvents = st.auditEvents :=
  execStmt_audit env _ st _ (fun _ => rfl)

theorem CreateEmailToken_audit (env : Env) (st : Store) (t : EmailToken) :
    (TokenRepository.CreateEmailToken env st t).2.auditEvents = st.auditEvents :=
  execStmt_audit env _ st _ (fun _ => rfl)

theorem MarkEmailTokenUsed_audit (env : Env) (st : Store) (u : UUID) :
    (TokenRepository.MarkEmailTokenUsed env st u).2.auditEvents = st.auditEvents :=
  execStmt_audit env _ st _ (fun _ => rfl)

theorem AssignRoleToUser_audit (env : Env) (st : Store) (u : UUID) (r : Int) (b : UUID) :
    (RoleRepository.AssignRoleToUser env st u r b).2.auditEvents = st.auditEvents :=
  execStmt_audit env _ st _ (fun x => by split <;> rfl)

theorem UnassignRoleFromUser_audit (env : Env) (st : Store) (u : UUID) (r : Int) :
    (RoleRepository.UnassignRoleFromUser env st u r).2.auditEvents = st.auditEvents :=
  execStmt_audit env _ st _ (fun _ => rfl)

theorem assignDefaultRole_audit (env : Env) (st : Store) (u : UUID) :
    (assignDefaultRole env st u).auditEvents = st.auditEvents := by
  unfold assignDefaultRole
  split
  · exact AssignRoleToUser_audit _ _ _ _ _
  · rfl

theorem foldl_AssignRoleToUser_audit (env : Env) (u b : UUID) (roleIDs : List Int) (st : Store) :
    (roleIDs.foldl (fun acc roleID => (RoleRepository.AssignRoleToUser env acc u roleID b).2)
      st).auditEvents = st.auditEvents := by
  induction roleIDs generalizing st with
  | nil => rfl
  | cons r rest ih =>
    rw [List.foldl_cons, ih, AssignRoleToUser_audit]

theorem auditExtends_logEvent (env : Env) (st stX : Store) (ty : AuditEventType)
    (uid : Option UUID) (payload ip userAgent : String)
    (h : stX.auditEvents = st.auditEvents) :
    AuditExtends st (AuditService.LogEvent env stX ty uid payload ip userAgent).2 := by
  cases hf : env.fault .AuditCreate with
  | some msg =>
    refine ⟨⟨[], ?_⟩, ?_⟩ <;>
      simp [AuditService.LogEvent, AuditRepository.Create, execStmt, hf, h]
  | none =>
    refine ⟨⟨[{ ID := env.auditID, UserID := uid, EventType := ty, Payload := payload,
                IPAddress := ip, UserAgent := userAgent, CreatedAt := env.now }], ?_⟩, ?_⟩ <;>
      simp [AuditService.LogEvent, AuditRepository.Create, execStmt, hf, h]

theorem Register_audit (s : AuthService) (env : Env) (st : Store) (req : RegisterRequest) (ip userAgent : String) :
    AuditExtends st (s.Register env st req ip userAgent).2 := by
  unfold AuthService.Register
  simp only []
  repeat' (split <;>
    try (rename_i heq; have h2 := congrArg Prod.snd heq; simp only at h2; subst h2))
  all_goals first
    | (apply auditExtends_logEvent
       simp [
    IncrementFailedLogin_audit, LockAccount_audit, ResetFailedLogin_audit, Create_audit,
    UpdatePassword_audit, SetVerified_audit, Update_audit, Delete_audit,
    CreateRefreshToken_audit, RevokeRefreshToken_audit, RevokeAllUserTokens_audit,
    CreateEmailToken_audit, MarkEmailTokenUsed_audit, AssignRoleToUser_audit,
    UnassignRoleFromUser_audit, assignDefaultRole_audit, foldl_AssignRoleToUser_audit])
    | (apply auditExtends_same
       simp [
    IncrementFailedLogin_audit, LockAccount_audit, ResetFailedLogin_audit, Create_audit,
    UpdatePassword_audit, SetVerified_audit, Update_audit, Delete_audit,
    CreateRefreshToken_audit, RevokeRefreshToken_audit, RevokeAllUserTokens_audit,
    CreateEmailToken_audit, MarkEmailTokenUsed_audit, AssignRoleToUser_audit,
    UnassignRoleFromUser_audit, assignDefaultRole_audit, foldl_AssignRoleToUser_audit])

theorem VerifyEmail_audit (s : AuthService) (env : Env) (st : Store) (tokenStr ip userAgent : String) :
    AuditExtends st (s.VerifyEmail env st tokenStr ip userAgent).2 := by
  unfold AuthService.VerifyEmail
  simp only []
  repeat' (split <;>
    try (rename_i heq; have h2 := congrArg Prod.snd heq; simp only at h2; subst h2))
  all_goals first
    | (apply auditExtends_logEvent
       simp [
    IncrementFailedLogin_audit, LockAccount_audit, ResetFailedLogin_audit, Create_audit,
    UpdatePassword_audit, SetVerified_audit, Update_audit, Delete_audit,
    CreateRefreshToken_audit, RevokeRefreshToken_audit, RevokeAllUserTokens_audit,
    CreateEmailToken_audit, MarkEmailTokenUsed_audit, AssignRoleToUser_audit,
    UnassignRoleFromUser_audit, assignDefaultRole_audit, foldl_AssignRoleToUser_audit])
    | (apply auditExtends_same
       simp [
    IncrementFailedLogin_audit, LockAccount_audit, ResetFailedLogin_audit, Create_audit,
    UpdatePassword_audit, SetVerified_audit, Update_audit, Delete_audit,
    CreateRefreshToken_audit, RevokeRefreshToken_audit, RevokeAllUserTokens_audit,
    CreateEmailToken_audit, MarkEmailTokenUsed_audit, AssignRoleToUser_audit,
    UnassignRoleFromUser_audit, assignDefaultRole_audit, foldl_AssignRoleToUser_audit])

theorem Login_audit (s : AuthService) (env : Env) (st : Store) (req : LoginRequest) (ip userAgent : String) :
    AuditExtends st (s.Login env st req ip userAgent).2 := by
  unfold AuthService.Login
  simp only []
  repeat' (split <;>
    try (rename_i heq; have h2 := congrArg Prod.snd heq; simp only at h2; subst h2))
  all_goals first
    | (apply auditExtends_logEvent
       simp [
    IncrementFailedLogin_audit, LockAccount_audit, ResetFailedLogin_audit, Create_audit,
    UpdatePassword_audit, SetVerified_audit, Update_audit, Delete_audit,
    CreateRefreshToken_audit, RevokeRefreshToken_audit, RevokeAllUserTokens_audit,
    CreateEmailToken_audit, MarkEmailTokenUsed_audit, AssignRoleToUser_audit,
    UnassignRoleFromUser_audit, assignDefaultRole_audit, foldl_AssignRoleToUser_audit])
    | (apply auditExtends_same
       simp [
    IncrementFailedLogin_audit, LockAccount_audit, ResetFailedLogin_audit, Create_audit,
    UpdatePassword_audit, SetVerified_audit, Update_audit, Delete_audit,
    CreateRefreshToken_audit, RevokeRefreshToken_audit, RevokeAllUserTokens_audit,
    CreateEmailToken_audit, MarkEmailTokenUsed_audit, AssignRoleToUser_audit,
    UnassignRoleFromUser_audit, assignDefaultRole_audit, foldl_AssignRoleToUser_audit])

theorem RefreshToken_audit (s : AuthService) (env : Env) (st : Store) (tokenStr ip userAgent : String) :
    AuditExtends st (s.RefreshToken env st tokenStr ip userAgent).2 := by
  unfold AuthService.RefreshToken
  simp only []
  repeat' (split <;>
    try (rename_i heq; have h2 := congrArg Prod.snd heq; simp only at h2; subst h2))
  all_goals
    apply auditExtends_same
    simp [
    IncrementFailedLogin_audit, LockAccount_audit, ResetFailedLogin_audit, Create_audit,
    UpdatePassword_audit, SetVerified_audit, Update_audit, Delete_audit,
    CreateRefreshToken_audit, RevokeRefreshToken_audit, RevokeAllUserTokens_audit,
    CreateEmailToken_audit, MarkEmailTokenUsed_audit, AssignRoleToUser_audit,
    UnassignRoleFromUser_audit, assignDefaultRole_audit, foldl_AssignRoleToUser_audit]

theorem Logout_audit (s : AuthService) (env : Env) (st : Store) (userID : UUID) (ip userAgent : String) :
    AuditExtends st (s.Logout env st userID ip userAgent).2 := by
  unfold AuthService.Logout
  simp only []
  repeat' (split <;>
    try (rename_i heq; have h2 := congrArg Prod.snd heq; simp only at h2; subst h2))
  all_goals first
    | (apply auditExtends_logEvent
       simp [
    IncrementFailedLogin_audit, LockAccount_audit, ResetFailedLogin_audit, Create_audit,
    UpdatePassword_audit, SetVerified_audit, Update_audit, Delete_audit,
    CreateRefreshToken_audit, RevokeRefreshToken_audit, RevokeAllUserTokens_audit,
    CreateEmailToken_audit, MarkEmailTokenUsed_audit, AssignRoleToUser_audit,
    UnassignRoleFromUser_audit, assignDefaultRole_audit, foldl_AssignRoleToUser_audit])
    | (apply auditExtends_same
       simp [
    IncrementFailedLogin_audit, LockAccount_audit, ResetFailedLogin_audit, Create_audit,
    UpdatePassword_audit, SetVerified_audit, Update_audit, Delete_audit,
    CreateRefreshToken_audit, RevokeRefreshToken_audit, RevokeAllUserTokens_audit,
    CreateEmailToken_audit, MarkEmailTokenUsed_audit, AssignRoleToUser_audit,
    UnassignRoleFromUser_audit, assignDefaultRole_audit, foldl_AssignRoleToUser_audit])

theorem ForgotPassword_audit (s : AuthService) (env : Env) (st : Store) (email ip userAgent : String) :
    AuditExtends st (s.ForgotPassword env st email ip userAgent).2 := by
  unfold AuthService.ForgotPassword
  simp only []
  repeat' split
  all_goals
    apply auditExtends_same
    simp [
    IncrementFailedLogin_audit, LockAccount_audit, ResetFailedLogin_audit, Create_audit,
    UpdatePassword_audit, SetVerified_audit, Update_audit, Delete_audit,
    CreateRefreshToken_audit, RevokeRefreshToken_audit, RevokeAllUserTokens_audit,
    CreateEmailToken_audit, MarkEmailTokenUsed_audit, AssignRoleToUser_audit,
    UnassignRoleFromUser_audit, assignDefaultRole_audit, foldl_AssignRoleToUser_audit]

theorem ResetPassword_audit (s : AuthService) (env : Env) (st : Store) (tokenStr newPassword ip userAgent : String) :
    AuditExtends st (s.ResetPassword env st tokenStr newPassword ip userAgent).2 := by
  unfold AuthService.ResetPassword
  simp only []
  repeat' (split <;>
    try (rename_i heq; have h2 := congrArg Prod.snd heq; simp only at h2; subst h2))
  all_goals first
    | (apply auditExtends_logEvent
       simp [
    IncrementFailedLogin_audit, LockAccount_audit, ResetFailedLogin_audit, Create_audit,
    UpdatePassword_audit, SetVerified_audit, Update_audit, Delete_audit,
    CreateRefreshToken_audit, RevokeRefreshToken_audit, RevokeAllUserTokens_audit,
    CreateEmailToken_audit, MarkEmailTokenUsed_audit, AssignRoleToUser_audit,
    UnassignRoleFromUser_audit, assignDefaultRole_audit, foldl_AssignRoleToUser_audit])
    | (apply auditExtends_same
       simp [
    IncrementFailedLogin_audit, LockAccount_audit, ResetFailedLogin_audit, Create_audit,
    UpdatePassword_audit, SetVerified_audit, Update_audit, Delete_audit,
    CreateRefreshToken_audit, RevokeRefreshToken_audit, RevokeAllUserTokens_audit,
    CreateEmailToken_audit, MarkEmailTokenUsed_audit, AssignRoleToUser_audit,
    UnassignRoleFromUser_audit, assignDefaultRole_audit, foldl_AssignRoleToUser_audit])

theorem GetUser_audit (s : UserService) (env : Env) (st : Store) (id : UUID) :
    AuditExtends st (s.GetUser env st id).2 := by
  unfold UserService.GetUser
  simp only []
  repeat' split
  all_goals
    apply auditExtends_same
    simp [
    IncrementFailedLogin_audit, LockAccount_audit, ResetFailedLogin_audit, Create_audit,
    UpdatePassword_audit, SetVerified_audit, Update_audit, Delete_audit,
    CreateRefreshToken_audit, RevokeRefreshToken_audit, RevokeAllUserTokens_audit,
    CreateEmailToken_audit, MarkEmailTokenUsed_audit, AssignRoleToUser_audit,
    UnassignRoleFromUser_audit, assignDefaultRole_audit, foldl_AssignRoleToUser_audit]

theorem ListUsers_audit (s : UserService) (env : Env) (st : Store) (page perPage : Int) (search : String) :
    AuditExtends st (s.ListUsers env st page perPage search).2 := by
  unfold UserService.ListUsers
  simp only []
  repeat' split
  all_goals
    apply auditExtends_same
    simp [
    IncrementFailedLogin_audit, LockAccount_audit, ResetFailedLogin_audit, Create_audit,
    UpdatePassword_audit, SetVerified_audit, Update_audit, Delete_audit,
    CreateRefreshToken_audit, RevokeRefreshToken_audit, RevokeAllUserTokens_audit,
    CreateEmailToken_audit, MarkEmailTokenUsed_audit, AssignRoleToUser_audit,
    UnassignRoleFromUser_audit, assignDefaultRole_audit, foldl_AssignRoleToUser_audit]

theorem CreateUser_audit (s : UserService) (env : Env) (st : Store) (req : CreateUserRequest) (createdBy : UUID) (ip userAgent : String) :
    AuditExtends st (s.CreateUser env st req createdBy ip userAgent).2 := by
  unfold UserService.CreateUser
  simp only []
  repeat' (split <;>
    try (rename_i heq; have h2 := congrArg Prod.snd heq; simp only at h2; subst h2))
  all_goals
    apply auditExtends_same
    simp [
    IncrementFailedLogin_audit, LockAccount_audit, ResetFailedLogin_audit, Create_audit,
    UpdatePassword_audit, SetVerified_audit, Update_audit, Delete_audit,
    CreateRefreshToken_audit, RevokeRefreshToken_audit, RevokeAllUserTokens_audit,
    CreateEmailToken_audit, MarkEmailTokenUsed_audit, AssignRoleToUser_audit,
    UnassignRoleFromUser_audit, assignDefaultRole_audit, foldl_AssignRoleToUser_audit]

theorem UpdateUser_audit (s : UserService) (env : Env) (st : Store) (id : UUID) (req : UpdateUserRequest) (updatedBy : UUID)
    (ip userAgent : String) :
    AuditExtends st (s.UpdateUser env st id req updatedBy ip userAgent).2 := by
  unfold UserService.UpdateUser
  simp only []
  repeat' (split <;>
    try (rename_i heq; have h2 := congrArg Prod.snd heq; simp only at h2; subst h2))
  all_goals
    apply auditExtends_same
    simp [
    IncrementFailedLogin_audit, LockAccount_audit, ResetFailedLogin_audit, Create_audit,
    UpdatePassword_audit, SetVerified_audit, Update_audit, Delete_audit,
    CreateRefreshToken_audit, RevokeRefreshToken_audit, RevokeAllUserTokens_audit,
    CreateEmailToken_audit, MarkEmailTokenUsed_audit, AssignRoleToUser_audit,
    UnassignRoleFromUser_audit, assignDefaultRole_audit, foldl_AssignRoleToUser_audit]

theorem DeleteUser_audit (s : UserService) (env : Env) (st : Store) (id : UUID) :
    AuditExtends st (s.DeleteUser env st id).2 := by
  unfold UserService.DeleteUser
  repeat' split
  all_goals
    apply auditExtends_same
    simp [
    IncrementFailedLogin_audit, LockAccount_audit, ResetFailedLogin_audit, Create_audit,
    UpdatePassword_audit, SetVerified_audit, Update_audit, Delete_audit,
    CreateRefreshToken_audit, RevokeRefreshToken_audit, RevokeAllUserTokens_audit,
    CreateEmailToken_audit, MarkEmailTokenUsed_audit, AssignRoleToUser_audit,
    UnassignRoleFromUser_audit, assignDefaultRole_audit, foldl_AssignRoleToUser_audit]

theorem AssignRole_audit (s : UserService) (env : Env) (st : Store) (userID : UUID) (roleID : Int) (assignedBy : UUID)
    (ip userAgent : String) :
    AuditExtends st (s.AssignRole env st userID roleID assignedBy ip userAgent).2 := by
  unfold UserService.AssignRole
  simp only []
  repeat' (split <;>
    try (rename_i heq; have h2 := congrArg Prod.snd heq; simp only at h2; subst h2))
  all_goals first
    | (apply auditExtends_logEvent
       simp [
    IncrementFailedLogin_audit, LockAccount_audit, ResetFailedLogin_audit, Create_audit,
    UpdatePassword_audit, SetVerified_audit, Update_audit, Delete_audit,
    CreateRefreshToken_audit, RevokeRefreshToken_audit, RevokeAllUserTokens_audit,
    CreateEmailToken_audit, MarkEmailTokenUsed_audit, AssignRoleToUser_audit,
    UnassignRoleFromUser_audit, assignDefaultRole_audit, foldl_AssignRoleToUser_audit])
    | (apply auditExtends_same
       simp [
    IncrementFailedLogin_audit, LockAccount_audit, ResetFailedLogin_audit, Create_audit,
    UpdatePassword_audit, SetVerified_audit, Update_audit, Delete_audit,
    CreateRefreshToken_audit, RevokeRefreshToken_audit, RevokeAllUserTokens_audit,
    CreateEmailToken_audit, MarkEmailTokenUsed_audit, AssignRoleToUser_audit,
    UnassignRoleFromUser_audit, assignDefaultRole_audit, foldl_AssignRoleToUser_audit])

theorem UnassignRole_audit (s : UserService) (env : Env) (st : Store) (userID : UUID) (roleID : Int) (removedBy : UUID)
    (ip userAgent : String) :
    AuditExtends st (s.UnassignRole env st userID roleID removedBy ip userAgent).2 := by
  unfold UserService.UnassignRole
  simp only []
  repeat' (split <;>
    try (rename_i heq; have h2 := congrArg Prod.snd heq; simp only at h2; subst h2))
  all_goals first
    | (apply auditExtends_logEvent
       simp [
    IncrementFailedLogin_audit, LockAccount_audit, ResetFailedLogin_audit, Create_audit,
    UpdatePassword_audit, SetVerified_audit, Update_audit, Delete_audit,
    CreateRefreshToken_audit, RevokeRefreshToken_audit, RevokeAllUserTokens_audit,
    CreateEmailToken_audit, MarkEmailTokenUsed_audit, AssignRoleToUser_audit,
    UnassignRoleFromUser_audit, assignDefaultRole_audit, foldl_AssignRoleToUser_audit])
    | (apply auditExtends_same
       simp [
    IncrementFailedLogin_audit, LockAccount_audit, ResetFailedLogin_audit, Create_audit,
    UpdatePassword_audit, SetVerified_audit, Update_audit, Delete_audit,
    CreateRefreshToken_audit, RevokeRefreshToken_audit, RevokeAllUserTokens_audit,
    CreateEmailToken_audit, MarkEmailTokenUsed_audit, AssignRoleToUser_audit,
    UnassignRoleFromUser_audit, assignDefaultRole_audit, foldl_AssignRoleToUser_audit])

theorem ChangePassword_audit (s : UserService) (env : Env) (st : Store) (userID : UUID) (oldPassword newPassword ip userAgent : String) :
    AuditExtends st (s.ChangePassword env st userID oldPassword newPassword ip userAgent).2 := by
  unfold UserService.ChangePassword
  simp only []
  repeat' (split <;>
    try (rename_i heq; have h2 := congrArg Prod.snd heq; simp only at h2; subst h2))
  all_goals first
    | (apply auditExtends_logEvent
       simp [
    IncrementFailedLogin_audit, LockAccount_audit, ResetFailedLogin_audit, Create_audit,
    UpdatePassword_audit, SetVerified_audit, Update_audit, Delete_audit,
    CreateRefreshToken_audit, RevokeRefreshToken_audit, RevokeAllUserTokens_audit,
    CreateEmailToken_audit, MarkEmailTokenUsed_audit, AssignRoleToUser_audit,
    UnassignRoleFromUser_audit, assignDefaultRole_audit, foldl_AssignRoleToUser_audit])
    | (apply auditExtends_same
       simp [
    IncrementFailedLogin_audit, LockAccount_audit, ResetFailedLogin_audit, Create_audit,
    UpdatePassword_audit, SetVerified_audit, Update_audit, Delete_audit,
    CreateRefreshToken_audit, RevokeRefreshToken_audit, RevokeAllUserTokens_audit,
    CreateEmailToken_audit, MarkEmailTokenUsed_audit, AssignRoleToUser_audit,
    UnassignRoleFromUser_audit, assignDefaultRole_audit, foldl_AssignRoleToUser_audit])

/-- Claim C23: the audit trail is append-only.  For every operation of
`AuthService` (`Register`, `VerifyEmail`, `Login`, `RefreshToken`, `Logout`,
`ForgotPassword`, `ResetPassword`, `ValidateAccessToken`) and of `UserService`
(`GetUser`, `ListUsers`, `CreateUser`, `UpdateUser`, `DeleteUser`, `AssignRole`,
`UnassignRole`, `ChangePassword`), for every input, every store and every
outcome of the statements, the audit rows before the call are an initial
segment of the audit rows after it, and the call appends at most one row. -/
theorem C23_audit_trail_is_append_only (a : AuthService) (u : UserService) (env : Env)
    (st : Store) (Claims : Type) :
    (∀ req ip userAgent, AuditExtends st (a.Register env st req ip userAgent).2) ∧
    (∀ tokenStr ip userAgent, AuditExtends st (a.VerifyEmail env st tokenStr ip userAgent).2) ∧
    (∀ req ip userAgent, AuditExtends st (a.Login env st req ip userAgent).2) ∧
    (∀ tokenStr ip userAgent, AuditExtends st (a.RefreshToken env st tokenStr ip userAgent).2) ∧
    (∀ userID ip userAgent, AuditExtends st (a.Logout env st userID ip userAgent).2) ∧
    (∀ email ip userAgent, AuditExtends st (a.ForgotPassword env st email ip userAgent).2) ∧
    (∀ tokenStr newPassword ip userAgent,
      AuditExtends st (a.ResetPassword env st tokenStr newPassword ip userAgent).2) ∧
    (∀ (validateToken : String → Except Err Claims) tokenStr,
      AuditExtends st (a.ValidateAccessToken validateToken st tokenStr).2) ∧
    (∀ id, AuditExtends st (u.GetUser env st id).2) ∧
    (∀ page perPage search, AuditExtends st (u.ListUsers env st page perPage search).2) ∧
    (∀ req createdBy ip userAgent,
      AuditExtends st (u.CreateUser env st req createdBy ip userAgent).2) ∧
    (∀ id req updatedBy ip userAgent,
      AuditExtends st (u.UpdateUser env st id req updatedBy ip userAgent).2) ∧
    (∀ id, AuditExtends st (u.DeleteUser env st id).2) ∧
    (∀ userID roleID assignedBy ip userAgent,
      AuditExtends st (u.AssignRole env st userID roleID assignedBy ip userAgent).2) ∧
    (∀ userID roleID removedBy ip userAgent,
      AuditExtends st (u.UnassignRole env st userID roleID removedBy ip userAgent).2) ∧
    (∀ userID oldPassword newPassword ip userAgent,
      AuditExtends st (u.ChangePassword env st userID oldPassword newPassword ip userAgent).2) :=
  ⟨Register_audit a env st, VerifyEmail_audit a env st, Login_audit a env st,
    RefreshToken_audit a env st, Logout_audit a env st, ForgotPassword_audit a env st,
    ResetPassword_audit a env st, fun _ _ => auditExtends_same _ _ rfl,
    GetUser_audit u env st, ListUsers_audit u env st,
    CreateUser_audit u env st, UpdateUser_audit u env st, DeleteUser_audit u env st,
    AssignRole_audit u env st, UnassignRole_audit u env st, ChangePassword_audit u env st⟩

end AuthBackend
